import Mathlib

/-!
# Boundary conditions of the LUMA / LatBo lattice Boltzmann solver

A shallow embedding of `LatBo/GridObj_ops_boundary.cpp` (bounce-back, Zou-He and
regularised inlets, extrapolation outlet, solid reset, `getOpposite`) and of the
templated utilities of `LUMA/inc/GridUtils.h` (`upToZero`, `downToLimit`,
`factorial`, `stridedCopy`), together with theorems about them.

Conventions of the embedding.

* Populations and macroscopic quantities are `double` in the source; here they
  are rationals, so every statement below is a statement of exact arithmetic.
  The `(float)` casts of `bc_applyExtrapolation` are the identity.
* `size_t` values are naturals; a signed value converted to `size_t` goes
  through `toSize`, i.e. is reduced modulo `2 ^ 64`.
* The `int` parameters `i, j, k` of the `bc_apply...` routines are the naturals
  passed at the call site (the conversion is the identity below `2 ^ 31`); the
  parameters `label`, `M_lim`, `K_lim` only feed the accessors and are dropped.
-/

namespace LUMA

/-! ## Machine integers and loops -/

/-- Conversion of a signed integer to `size_t` (64 bit, wrap-around). -/
def toSize (z : Int) : Nat := (z % 2 ^ 64).toNat

/-- The loop `for (n = lo; n < hi; n++) s = body n s`. -/
def loop {σ : Type} (lo hi : Nat) (body : Nat → σ → σ) (s : σ) : σ :=
  (List.range' lo (hi - lo)).foldl (fun acc n => body n acc) s

/-! ## Data model -/

/-- Modelled from the spec: the accessors `LatTyp(i,j,k,M_lim,K_lim)`,
`f(i,j,k,v,M_lim,K_lim,nVels)`, `rho(i,j,k,M_lim,K_lim)` and
`u(i,j,k,d,M_lim,K_lim,dims)` are declared in `GridObj.h`, which is not among the
sources. The spec describes a grid as holding "ordered position arrays per axis,
a per-site integer label array, a population array indexed by (site, direction),
and macroscopic arrays (density, velocity vector) per site"; accordingly each
array is a map from its indices to the stored value, and distinct index tuples
name distinct cells. -/
structure GridObj where
  XPos : List ℚ
  YPos : List ℚ
  ZPos : List ℚ
  LatTyp : Nat → Nat → Nat → Int
  f : Nat → Nat → Nat → Nat → ℚ
  rho : Nat → Nat → Nat → ℚ
  u : Nat → Nat → Nat → Nat → ℚ

/-- The assignment `f(i,j,k,v,M_lim,K_lim,nVels) = x`. -/
def GridObj.setF (g : GridObj) (i j k v : Nat) (x : ℚ) : GridObj :=
  { g with f := fun i1 j1 k1 v1 =>
      if i1 = i ∧ j1 = j ∧ k1 = k ∧ v1 = v then x else g.f i1 j1 k1 v1 }

/-- The assignment `rho(i,j,k,M_lim,K_lim) = x`. -/
def GridObj.setRho (g : GridObj) (i j k : Nat) (x : ℚ) : GridObj :=
  { g with rho := fun i1 j1 k1 =>
      if i1 = i ∧ j1 = j ∧ k1 = k then x else g.rho i1 j1 k1 }

/-- The assignment `u(i,j,k,d,M_lim,K_lim,dims) = x`. -/
def GridObj.setU (g : GridObj) (i j k d : Nat) (x : ℚ) : GridObj :=
  { g with u := fun i1 j1 k1 d1 =>
      if i1 = i ∧ j1 = j ∧ k1 = k ∧ d1 = d then x else g.u i1 j1 k1 d1 }

/-- Modelled from the spec: the build-time constants `dims`, `nVels`, `c`, `w`,
`cs`, `dx`, `u_0x`, `u_0y`, `u_0z`, the inlet switches and the member function
`LBM_collide` are declared in `definitions.h` / `globalvars.h` / `GridObj.h` of
the LatBo tree, which are not among the sources. The spec lists them as
"DirectionTable data: per-direction velocity vector components, per-direction
weight, lattice sound speed, velocity-set size, dimensionality" and an
"external equilibrium-evaluation function". They are parameters here.
`c a v` is `c[a][v]`. The sound speed `cs` (irrational for the standard
lattices) enters the source only through `pow(cs,2)` and `pow(cs,4)`;
`cs_sq` stands for `pow(cs,2)` and `cs_sq ^ 2` for `pow(cs,4)`. -/
structure Config where
  dims : Nat
  nVels : Nat
  c : Nat → Nat → Int
  w : Nat → ℚ
  cs_sq : ℚ
  dx : ℚ
  u_0x : ℚ
  u_0y : ℚ
  u_0z : ℚ
  INLET_ON : Bool
  INLET_DO_NOTHING : Bool
  INLET_REGULARISED : Bool
  LBM_collide : GridObj → Nat → Nat → Nat → Nat → ℚ

/-! ## `getOpposite` -/

/-- The routine `getOpposite(direction)`: the rest direction `nVels-1` is its own
opposite, every other direction gets `direction + (int)pow(-1,direction)`,
stored back into a `size_t`. -/
def getOpposite (nVels : Nat) (direction : Nat) : Nat :=
  if direction = nVels - 1 then direction
  else toSize ((direction : Int) + (-1 : Int) ^ direction)

/-! ## Temporary population vector -/

/-- Read `ftmp[n]`. -/
def rd (ftmp : List ℚ) (n : Nat) : ℚ := ftmp.getD n 0

/-- The copy loop `for (n = 0; n < nVels; n++) ftmp.push_back(f(i,j,k,n,...))`. -/
def ftmp_init (cfg : Config) (g : GridObj) (i j k : Nat) : List ℚ :=
  loop 0 cfg.nVels (fun n ftmp => ftmp ++ [g.f i j k n]) []

/-- The write-back loop `for (n = 0; n < nVels; n++) f(i,j,k,n,...) = ftmp[n]`. -/
def ftmp_store (cfg : Config) (ftmp : List ℚ) (i j k : Nat) (g : GridObj) : GridObj :=
  loop 0 cfg.nVels (fun n acc => acc.setF i j k n (rd ftmp n)) g

/-! ## Outlet: linear extrapolation -/

/-- Body of the `if` inside the loops of `bc_applyExtrapolation`:
fit a line through the two upstream values and evaluate it at `2*dx`. -/
def extrapolate (cfg : Config) (i j k v : Nat) (g : GridObj) : GridObj :=
  let y2 : ℚ := g.f (toSize ((i : Int) - 1)) j k v
  let y1 : ℚ := g.f (toSize ((i : Int) - 2)) j k v
  let x1 : ℚ := 0
  let x2 : ℚ := cfg.dx
  let x3 : ℚ := 2 * x2
  let lin_m : ℚ := (y2 - y1) / (x2 - x1)
  let lin_c : ℚ := y1
  g.setF i j k v (lin_m * x3 + lin_c)

/-- The routine `GridObj::bc_applyExtrapolation`. -/
def bc_applyExtrapolation (cfg : Config) (g : GridObj) (i j k : Nat) : GridObj :=
  if cfg.dims = 3 then
    loop 1 17 (fun v acc =>
      if v = 1 ∨ v = 7 ∨ v = 9 ∨ v = 15 ∨ v = 16 then extrapolate cfg i j k v acc
      else acc) g
  else
    loop 1 8 (fun v acc =>
      if v = 7 ∨ v = 1 ∨ v = 5 then extrapolate cfg i j k v acc
      else acc) g

/-! ## Inlet: Zou-He -/

/-- The wall density `rho_w` of the `dims == 3` block of `bc_applyZouHe`. -/
def rho_w_3D (cfg : Config) (ftmp : List ℚ) : ℚ :=
  (1 / (1 - cfg.u_0x)) * ((
    rd ftmp 18 + rd ftmp 2 + rd ftmp 3 + rd ftmp 4 + rd ftmp 5 + rd ftmp 10
      + rd ftmp 11 + rd ftmp 12 + rd ftmp 13
    ) + 2 * (
    rd ftmp 1 + rd ftmp 7 + rd ftmp 9 + rd ftmp 15 + rd ftmp 16
    ))

/-- The `dims == 3` block of `bc_applyZouHe`, acting on `ftmp`. -/
def zouHe3D (cfg : Config) (ftmp0 : List ℚ) : List ℚ :=
  let rho_w : ℚ := rho_w_3D cfg ftmp0
  let ftmp1 := ftmp0.set 0 (rd ftmp0 1 + (1 / 3) * rho_w * cfg.u_0x)
  let Nxy : ℚ := (1 / 2) * (rd ftmp1 2 + rd ftmp1 10 + rd ftmp1 12
      - (rd ftmp1 3 + rd ftmp1 11 + rd ftmp1 13)) - (1 / 3) * rho_w * cfg.u_0y
  let Nxz : ℚ := (1 / 2) * (rd ftmp1 4 + rd ftmp1 10 + rd ftmp1 13
      - (rd ftmp1 5 + rd ftmp1 11 + rd ftmp1 12)) - (1 / 3) * rho_w * cfg.u_0z
  let ftmp2 := ftmp1.set 6
    (rd ftmp1 7 + (2 * cfg.w 7 / cfg.cs_sq) * rho_w * (cfg.u_0x + cfg.u_0y) - Nxy)
  let ftmp3 := ftmp2.set 8
    (rd ftmp2 9 + (2 * cfg.w 9 / cfg.cs_sq) * rho_w * (cfg.u_0x - cfg.u_0y) + Nxy)
  let ftmp4 := ftmp3.set 14
    (rd ftmp3 15 + (2 * cfg.w 15 / cfg.cs_sq) * rho_w * (cfg.u_0x + cfg.u_0z) - Nxz)
  ftmp4.set 17
    (rd ftmp4 16 + (2 * cfg.w 16 / cfg.cs_sq) * rho_w * (cfg.u_0x - cfg.u_0z) + Nxz)

/-- The wall density `rho_w` of the 2D block of `bc_applyZouHe`. -/
def rho_w_2D (cfg : Config) (ftmp : List ℚ) : ℚ :=
  (1 / (1 - cfg.u_0x)) *
    (rd ftmp 8 + rd ftmp 2 + rd ftmp 3 +
      2 * (
      rd ftmp 7 + rd ftmp 1 + rd ftmp 5
    ))

/-- The `dims != 3` block of `bc_applyZouHe` (left-hand inlet in 2D). -/
def zouHe2D (cfg : Config) (ftmp0 : List ℚ) : List ℚ :=
  let rho_w : ℚ := rho_w_2D cfg ftmp0
  let ftmp1 := ftmp0.set 0 (rd ftmp0 1 + (2 / 3) * rho_w * cfg.u_0x)
  let ftmp2 := ftmp1.set 4 ((1 / 2) * ((rho_w * cfg.u_0x) -
      (rd ftmp1 0 + rd ftmp1 2) + rd ftmp1 1 + 2 * rd ftmp1 5 + rd ftmp1 3))
  ftmp2.set 6 ((1 / 2) * ((rho_w * cfg.u_0x) -
      (rd ftmp2 0 + rd ftmp2 3) + rd ftmp2 2 + 2 * rd ftmp2 7 + rd ftmp2 1))

/-- The routine `GridObj::bc_applyZouHe`. -/
def bc_applyZouHe (cfg : Config) (g : GridObj) (i j k : Nat) : GridObj :=
  let ftmp := ftmp_init cfg g i j k
  let ftmp := if cfg.dims = 3 then zouHe3D cfg ftmp else zouHe2D cfg ftmp
  ftmp_store cfg ftmp i j k g

/-! ## Inlet: regularised -/

/-- The wall density `rho_wall` of the `dims == 3` block of `bc_applyRegularised`. -/
def rho_wall_3D (cfg : Config) (ftmp0 : List ℚ) : ℚ :=
  (1 / (1 - cfg.u_0x)) *
    (rd ftmp0 2 + rd ftmp0 3 + rd ftmp0 4 + rd ftmp0 5 + rd ftmp0 10 + rd ftmp0 11
      + rd ftmp0 12 + rd ftmp0 13 + rd ftmp0 18 +
      2 * (rd ftmp0 1 + rd ftmp0 7 + rd ftmp0 9 + rd ftmp0 15 + rd ftmp0 16))

/-- Component `Sxx` of the `dims == 3` block of `bc_applyRegularised`. -/
def Sxx_3D (cfg : Config) (ftmp0 : List ℚ) : ℚ :=
  2 * (rd ftmp0 1 + rd ftmp0 7 + rd ftmp0 9 + rd ftmp0 15 + rd ftmp0 16)
    - rho_wall_3D cfg ftmp0 * ((1 / 3) - cfg.u_0x + cfg.u_0x ^ 2)

/-- Component `Syy` of the `dims == 3` block of `bc_applyRegularised`. -/
def Syy_3D (cfg : Config) (ftmp0 : List ℚ) : ℚ :=
  rd ftmp0 2 + rd ftmp0 3 + rd ftmp0 10 + rd ftmp0 11 + rd ftmp0 12
    + rd ftmp0 13 + 2 * (rd ftmp0 7 + rd ftmp0 9)
    - rho_wall_3D cfg ftmp0 * ((1 / 3) - (1 / 3) * cfg.u_0x)

/-- Component `Szz` of the `dims == 3` block of `bc_applyRegularised`. -/
def Szz_3D (cfg : Config) (ftmp0 : List ℚ) : ℚ :=
  rd ftmp0 4 + rd ftmp0 5 + rd ftmp0 10 + rd ftmp0 11 + rd ftmp0 12
    + rd ftmp0 13 + 2 * (rd ftmp0 15 + rd ftmp0 16)
    - rho_wall_3D cfg ftmp0 * ((1 / 3) - (1 / 3) * cfg.u_0x)

/-- Component `Sxy` of the `dims == 3` block of `bc_applyRegularised`. -/
def Sxy_3D (ftmp0 : List ℚ) : ℚ := 2 * (rd ftmp0 7 - rd ftmp0 9)

/-- Component `Sxz` of the `dims == 3` block of `bc_applyRegularised`. -/
def Sxz_3D (ftmp0 : List ℚ) : ℚ := 2 * (rd ftmp0 15 - rd ftmp0 16)

/-- Component `Syz` of the `dims == 3` block of `bc_applyRegularised`. -/
def Syz_3D (ftmp0 : List ℚ) : ℚ := rd ftmp0 10 + rd ftmp0 11 - rd ftmp0 12 - rd ftmp0 13

/-- Right-hand side of the assignment to `ftmp[i]` in the loop of the
`dims == 3` block of `bc_applyRegularised`. -/
def neq_3D (cfg : Config) (Sxx Syy Szz Sxy Sxz Syz : ℚ) (i : Nat) : ℚ :=
  (cfg.w i / (2 * cfg.cs_sq ^ 2)) * (
    (((cfg.c 0 i : ℚ) ^ 2 - cfg.cs_sq) * Sxx) +
    (((cfg.c 1 i : ℚ) ^ 2 - cfg.cs_sq) * Syy) +
    (((cfg.c 2 i : ℚ) ^ 2 - cfg.cs_sq) * Szz) +
    (2 * (cfg.c 0 i : ℚ) * (cfg.c 1 i : ℚ) * Sxy) +
    (2 * (cfg.c 0 i : ℚ) * (cfg.c 2 i : ℚ) * Sxz) +
    (2 * (cfg.c 1 i : ℚ) * (cfg.c 2 i : ℚ) * Syz)
    )

/-- The loop `for (i = 0; i < nVels; i++) ftmp[i] = ...` of the `dims == 3`
block of `bc_applyRegularised`. -/
def regularised_loop_3D (cfg : Config) (Sxx Syy Szz Sxy Sxz Syz : ℚ) (ftmp0 : List ℚ) :
    List ℚ :=
  loop 0 cfg.nVels (fun i ftmp => ftmp.set i (neq_3D cfg Sxx Syy Szz Sxy Sxz Syz i)) ftmp0

/-- The `dims == 3` block of `bc_applyRegularised`: wall density and the
overwritten `ftmp`. -/
def regularised3D (cfg : Config) (ftmp0 : List ℚ) : ℚ × List ℚ :=
  (rho_wall_3D cfg ftmp0,
    regularised_loop_3D cfg (Sxx_3D cfg ftmp0) (Syy_3D cfg ftmp0) (Szz_3D cfg ftmp0)
      (Sxy_3D ftmp0) (Sxz_3D ftmp0) (Syz_3D ftmp0) ftmp0)

/-- The wall density `rho_wall` of the 2D block of `bc_applyRegularised`. -/
def rho_wall_2D (cfg : Config) (ftmp0 : List ℚ) : ℚ :=
  (1 / (1 - cfg.u_0x)) *
    (rd ftmp0 2 + rd ftmp0 3 + rd ftmp0 8 + 2 * (rd ftmp0 1 + rd ftmp0 5 + rd ftmp0 7))

/-- Component `Sxx` of the 2D block of `bc_applyRegularised`. -/
def Sxx_2D (cfg : Config) (ftmp0 : List ℚ) : ℚ :=
  2 * (rd ftmp0 1 + rd ftmp0 5 + rd ftmp0 7)
    - rho_wall_2D cfg ftmp0 * ((1 / 3) - cfg.u_0x + cfg.u_0x ^ 2)

/-- Component `Sxy` of the 2D block of `bc_applyRegularised`. -/
def Sxy_2D (ftmp0 : List ℚ) : ℚ := 2 * (rd ftmp0 5 - rd ftmp0 7)

/-- Component `Syy` of the 2D block of `bc_applyRegularised`. -/
def Syy_2D (cfg : Config) (ftmp0 : List ℚ) : ℚ :=
  rd ftmp0 2 + rd ftmp0 3 + 2 * (rd ftmp0 5 + rd ftmp0 7)
    - rho_wall_2D cfg ftmp0 * ((1 / 3) - (1 / 3) * cfg.u_0x)

/-- Right-hand side of the assignment to `ftmp[i]` in the loop of the 2D block
of `bc_applyRegularised`. -/
def neq_2D (cfg : Config) (Sxx Sxy Syy : ℚ) (i : Nat) : ℚ :=
  (cfg.w i / (2 * cfg.cs_sq ^ 2)) * (
    (((cfg.c 0 i : ℚ) ^ 2 - cfg.cs_sq) * Sxx) +
    (2 * (cfg.c 0 i : ℚ) * (cfg.c 1 i : ℚ) * Sxy) +
    (((cfg.c 1 i : ℚ) ^ 2 - cfg.cs_sq) * Syy)
    )

/-- The loop `for (i = 0; i < nVels; i++) ftmp[i] = ...` of the 2D block of
`bc_applyRegularised`. -/
def regularised_loop_2D (cfg : Config) (Sxx Sxy Syy : ℚ) (ftmp0 : List ℚ) : List ℚ :=
  loop 0 cfg.nVels (fun i ftmp => ftmp.set i (neq_2D cfg Sxx Sxy Syy i)) ftmp0

/-- The `dims != 3` block of `bc_applyRegularised`. -/
def regularised2D (cfg : Config) (ftmp0 : List ℚ) : ℚ × List ℚ :=
  (rho_wall_2D cfg ftmp0,
    regularised_loop_2D cfg (Sxx_2D cfg ftmp0) (Sxy_2D ftmp0) (Syy_2D cfg ftmp0) ftmp0)

/-- The routine `GridObj::bc_applyRegularised`. -/
def bc_applyRegularised (cfg : Config) (g : GridObj) (i j k : Nat) : GridObj :=
  let ftmp0 := ftmp_init cfg g i j k
  let r := if cfg.dims = 3 then regularised3D cfg ftmp0 else regularised2D cfg ftmp0
  let rho_wall := r.1
  let ftmp := r.2
  let g1 := g.setRho i j k rho_wall
  let g2 := g1.setU i j k 0 cfg.u_0x
  let g3 := g2.setU i j k 1 cfg.u_0y
  let g4 := if cfg.dims = 3 then g3.setU i j k 2 cfg.u_0z else g3
  loop 0 cfg.nVels (fun v acc =>
    acc.setF i j k v (cfg.LBM_collide acc i j k v + rd ftmp v)) g4

/-! ## The boundary sweep -/

/-- One pass of the direction loop of the solid branch of `LBM_boundary`. -/
def solid_step (cfg : Config) (N_lim M_lim K_lim i j k v : Nat) (g : GridObj) : GridObj :=
  let src_x : Nat := toSize ((i : Int) + cfg.c 0 v)
  let src_y : Nat := toSize ((j : Int) + cfg.c 1 v)
  let src_z : Nat := toSize ((k : Int) + cfg.c 2 v)
  if (src_x ≥ N_lim ∨ src_x < 0) ∨
     (src_y ≥ M_lim ∨ src_y < 0) ∨
     (src_z ≥ K_lim ∨ src_z < 0) ∨
     (g.LatTyp src_x src_y src_z = 0 ∨
      g.LatTyp src_x src_y src_z = 7 ∨
      g.LatTyp src_x src_y src_z = 8) then
    g
  else if g.LatTyp src_x src_y src_z = 1 ∨ g.LatTyp src_x src_y src_z = 2 then
    let v_rev := getOpposite cfg.nVels v
    g.setF i j k v (g.f src_x src_y src_z v_rev)
  else
    g

/-- The inlet branch of `LBM_boundary`: the preprocessor choice between
Zou-He, regularised and nothing. -/
def inlet_site (cfg : Config) (i j k : Nat) (g : GridObj) : GridObj :=
  if cfg.INLET_ON ∧ ¬ cfg.INLET_DO_NOTHING ∧ ¬ cfg.INLET_REGULARISED then
    bc_applyZouHe cfg g i j k
  else if cfg.INLET_ON ∧ ¬ cfg.INLET_DO_NOTHING ∧ cfg.INLET_REGULARISED then
    bc_applyRegularised cfg g i j k
  else
    g

/-- Body of the innermost site loop of `LBM_boundary`. -/
def LBM_boundary_site (cfg : Config) (bc_type_flag : Int) (N_lim M_lim K_lim i j k : Nat)
    (g : GridObj) : GridObj :=
  if g.LatTyp i j k = 0 ∧ (bc_type_flag = 0 ∨ bc_type_flag = 1) then
    loop 0 cfg.nVels (solid_step cfg N_lim M_lim K_lim i j k) g
  else if g.LatTyp i j k = 7 ∧
      (bc_type_flag = 0 ∨ bc_type_flag = 2 ∨ bc_type_flag = 4) then
    inlet_site cfg i j k g
  else if g.LatTyp i j k = 8 ∧
      (bc_type_flag = 0 ∨ bc_type_flag = 3 ∨ bc_type_flag = 4) then
    bc_applyExtrapolation cfg g i j k
  else
    g

/-- The routine `GridObj::LBM_boundary`. -/
def LBM_boundary (cfg : Config) (bc_type_flag : Int) (g : GridObj) : GridObj :=
  let N_lim := g.XPos.length
  let M_lim := g.YPos.length
  let K_lim := g.ZPos.length
  loop 0 N_lim (fun i gi =>
    loop 0 M_lim (fun j gj =>
      loop 0 K_lim (fun k gk =>
        LBM_boundary_site cfg bc_type_flag N_lim M_lim K_lim i j k gk) gj) gi) g

/-! ## Solid reset -/

/-- Body of the innermost site loop of `bc_solid_site_reset`. -/
def solid_reset_site (cfg : Config) (i j k : Nat) (g : GridObj) : GridObj :=
  if g.LatTyp i j k = 0 then
    let g1 := g.setU i j k 0 0
    let g2 := g1.setU i j k 1 0
    if cfg.dims = 3 then g2.setU i j k 2 0 else g2
  else g

/-- The routine `GridObj::bc_solid_site_reset`. -/
def bc_solid_site_reset (cfg : Config) (g : GridObj) : GridObj :=
  let N_lim := g.XPos.length
  let M_lim := g.YPos.length
  let K_lim := g.ZPos.length
  loop 0 N_lim (fun i gi =>
    loop 0 M_lim (fun j gj =>
      loop 0 K_lim (fun k gk => solid_reset_site cfg i j k gk) gj) gi) g

/-! ## Direction tables -/

/-- Modelled from the spec: the table `c` of the 19-direction set is declared
outside the sources. Its rows are fixed by the moment equations in the comment
of the `dims == 3` block of `bc_applyZouHe`:
`rho_in * ux = (f0 + f6 + f8 + f14 + f17) - (f1 + f7 + f9 + f15 + f16)`,
`rho_in * uy = (f2 + f6 + f9 + f10 + f12) - (f3 + f7 + f8 + f11 + f13)`,
`rho_in * uz = (f4 + f10 + f13 + f14 + f16) - (f5 + f11 + f12 + f15 + f17)`. -/
def c_D3Q19 (a v : Nat) : Int :=
  match a with
  | 0 => if v ∈ [0, 6, 8, 14, 17] then 1 else if v ∈ [1, 7, 9, 15, 16] then -1 else 0
  | 1 => if v ∈ [2, 6, 9, 10, 12] then 1 else if v ∈ [3, 7, 8, 11, 13] then -1 else 0
  | 2 => if v ∈ [4, 10, 13, 14, 16] then 1 else if v ∈ [5, 11, 12, 15, 17] then -1 else 0
  | _ => 0

/-- Modelled from the spec: the table `c` of the 9-direction set is declared
outside the sources. Its rows are fixed by the moment equations in the comment
of the 2D block of `bc_applyZouHe`:
`rho_in * ux = (f6 + f0 + f4) - (f7 + f1 + f5)`,
`rho_in * uy = (f4 + f2 + f7) - (f5 + f3 + f6)`; the third row is zero. -/
def c_D2Q9 (a v : Nat) : Int :=
  match a with
  | 0 => if v ∈ [6, 0, 4] then 1 else if v ∈ [7, 1, 5] then -1 else 0
  | 1 => if v ∈ [4, 2, 7] then 1 else if v ∈ [5, 3, 6] then -1 else 0
  | _ => 0

/-! ## Specification vocabulary -/

/-- `g1` agrees with `g` in the position arrays and labels, and in every
population, density and velocity stored at a site other than `(i,j,k)`. -/
def GridObj.SameOutside (g g1 : GridObj) (i j k : Nat) : Prop :=
  g1.XPos = g.XPos ∧ g1.YPos = g.YPos ∧ g1.ZPos = g.ZPos ∧ g1.LatTyp = g.LatTyp ∧
  (∀ i1 j1 k1 v, ¬ (i1 = i ∧ j1 = j ∧ k1 = k) → g1.f i1 j1 k1 v = g.f i1 j1 k1 v) ∧
  (∀ i1 j1 k1, ¬ (i1 = i ∧ j1 = j ∧ k1 = k) → g1.rho i1 j1 k1 = g.rho i1 j1 k1) ∧
  (∀ i1 j1 k1 d, ¬ (i1 = i ∧ j1 = j ∧ k1 = k) → g1.u i1 j1 k1 d = g.u i1 j1 k1 d)

/-- `g1` has the labels of `g0` and the populations of `g0` at the two sites
`(si,sj,sk)` and `(ti,tj,tk)`. -/
def GridObj.KeepsSites (g0 g1 : GridObj) (si sj sk ti tj tk : Nat) : Prop :=
  g1.LatTyp = g0.LatTyp ∧
  (∀ v, g1.f si sj sk v = g0.f si sj sk v) ∧
  (∀ v, g1.f ti tj tk v = g0.f ti tj tk v)

/-- `g1` agrees with `g` in every population, the density and every velocity
component stored at the site `(i,j,k)`. -/
def GridObj.SameAt (g g1 : GridObj) (i j k : Nat) : Prop :=
  (∀ v, g1.f i j k v = g.f i j k v) ∧ g1.rho i j k = g.rho i j k ∧
  (∀ d, g1.u i j k d = g.u i j k d)

/-- The triple site loop `for i < N, for j < M, for k < K` shared by
`LBM_boundary` and `bc_solid_site_reset`, with site body `U`. -/
def sweep (N M K : Nat) (U : Nat → Nat → Nat → GridObj → GridObj) (g : GridObj) : GridObj :=
  loop 0 N (fun i gi => loop 0 M (fun j gj => loop 0 K (fun k gk => U i j k gk) gj) gi) g

/-- The sites of an `N x M x K` grid in the reference order of the sweep
(ascending `i`, then `j`, then `k`). -/
def grid_sites (N M K : Nat) : List (Nat × Nat × Nat) :=
  (List.range N).flatMap (fun i =>
    (List.range M).flatMap (fun j => (List.range K).map (fun k => (i, j, k))))

/-- The site updates of `LBM_boundary` applied in the order given by the list
`order` instead of the reference order. -/
def sweep_in_order (cfg : Config) (bc_type_flag : Int) (order : List (Nat × Nat × Nat))
    (g : GridObj) : GridObj :=
  order.foldl (fun acc p =>
    LBM_boundary_site cfg bc_type_flag g.XPos.length g.YPos.length g.ZPos.length
      p.1 p.2.1 p.2.2 acc) g

/-- A site whose populations no site update of the sweep writes: it lies beyond
the x-extent of the grid, or it carries none of the labels 0, 7, 8. -/
def GridObj.Unwritten (g : GridObj) (i j k : Nat) : Prop :=
  g.XPos.length ≤ i ∨
    (g.LatTyp i j k ≠ 0 ∧ g.LatTyp i j k ≠ 7 ∧ g.LatTyp i j k ≠ 8)

/-- The tensor `Q_v,ab = c_v,a * c_v,b - cs^2 * delta_ab` of the spec. -/
def spec_Q (cfg : Config) (v a b : Nat) : ℚ :=
  (cfg.c a v : ℚ) * (cfg.c b v : ℚ) - cfg.cs_sq * (if a = b then 1 else 0)

/-- The symmetric 3 x 3 tensor with entries `Sxx, Syy, Szz, Sxy, Sxz, Syz`. -/
def tensor_3D (Sxx Syy Szz Sxy Sxz Syz : ℚ) (a b : Nat) : ℚ :=
  match a, b with
  | 0, 0 => Sxx
  | 1, 1 => Syy
  | 2, 2 => Szz
  | 0, 1 => Sxy
  | 1, 0 => Sxy
  | 0, 2 => Sxz
  | 2, 0 => Sxz
  | 1, 2 => Syz
  | 2, 1 => Syz
  | _, _ => 0

/-- The symmetric 2 x 2 tensor with entries `Sxx, Sxy, Syy`. -/
def tensor_2D (Sxx Sxy Syy : ℚ) (a b : Nat) : ℚ :=
  match a, b with
  | 0, 0 => Sxx
  | 1, 1 => Syy
  | 0, 1 => Sxy
  | 1, 0 => Sxy
  | _, _ => 0

/-- The regularised off-equilibrium population of the spec,
`(w_v / (2 cs^4)) * sum over a, b < d of Q_v,ab * Pi_ab`. -/
def spec_neq (cfg : Config) (d : Nat) (Pi : Nat → Nat → ℚ) (v : Nat) : ℚ :=
  (cfg.w v / (2 * cfg.cs_sq ^ 2)) *
    ∑ a ∈ Finset.range d, ∑ b ∈ Finset.range d, spec_Q cfg v a b * Pi a b

/-- The standard second-order equilibrium of the spec at density `rho` and the
prescribed velocity, `w_v * rho * (1 + 3 c_v.u + (9/2) (c_v.u)^2 - (3/2) u.u)`;
the velocity is `(u_0x, u_0y, u_0z)` in 3D and `(u_0x, u_0y)` in 2D. -/
def spec_feq (cfg : Config) (rho : ℚ) (v : Nat) : ℚ :=
  let cu : ℚ := (cfg.c 0 v : ℚ) * cfg.u_0x + (cfg.c 1 v : ℚ) * cfg.u_0y
    + (if cfg.dims = 3 then (cfg.c 2 v : ℚ) * cfg.u_0z else 0)
  let uu : ℚ := cfg.u_0x ^ 2 + cfg.u_0y ^ 2 + (if cfg.dims = 3 then cfg.u_0z ^ 2 else 0)
  cfg.w v * rho * (1 + 3 * cu + (9 / 2) * cu ^ 2 - (3 / 2) * uu)

/-- The off-equilibrium populations of the spec: `f(v) - feq(v)` for a known
direction, and the off-equilibrium part of the opposite direction for an
unknown one ({0,6,8,14,17} in 3D, {0,4,6} in 2D). -/
def spec_f_neq (cfg : Config) (ftmp : List ℚ) (rho : ℚ) (v : Nat) : ℚ :=
  if v ∈ (if cfg.dims = 3 then [0, 6, 8, 14, 17] else [0, 4, 6]) then
    rd ftmp (getOpposite cfg.nVels v) - spec_feq cfg rho (getOpposite cfg.nVels v)
  else
    rd ftmp v - spec_feq cfg rho v

/-- The off-equilibrium momentum-flux tensor of the spec,
`Pi_ab = sum over v of c_v,a * c_v,b * f_neq(v)`. -/
def spec_Pi (cfg : Config) (ftmp : List ℚ) (rho : ℚ) (a b : Nat) : ℚ :=
  ∑ v ∈ Finset.range cfg.nVels,
    (cfg.c a v : ℚ) * (cfg.c b v : ℚ) * spec_f_neq cfg ftmp rho v

/-! ## Sample inputs

Concrete lattices and grids on which the theorems below are instantiated. -/

/-- Sample weights for the 19-direction set: 1/18 on the axes, 1/36 on the
diagonals, 1/3 at rest. -/
def w_D3Q19 (v : Nat) : ℚ :=
  if v < 6 then 1 / 18 else if v < 18 then 1 / 36 else if v = 18 then 1 / 3 else 0

/-- Sample weights for the 9-direction set: 1/9 on the axes, 1/36 on the
diagonals, 4/9 at rest. -/
def w_D2Q9 (v : Nat) : ℚ :=
  if v < 4 then 1 / 9 else if v < 8 then 1 / 36 else if v = 8 then 4 / 9 else 0

/-- Sample equilibrium function handed to the regularised inlet: the
first-order expansion `rho * w * (1 + (c . u) / cs^2)` with `cs^2 = 1/3`. -/
def sample_collide (c : Nat → Nat → Int) (w : Nat → ℚ) (g : GridObj) (i j k v : Nat) : ℚ :=
  g.rho i j k * w v *
    (1 + 3 * ((c 0 v : ℚ) * g.u i j k 0 + (c 1 v : ℚ) * g.u i j k 1 + (c 2 v : ℚ) * g.u i j k 2))

/-- Sample 3D build: 19 directions, Zou-He inlet, inlet velocity `(0.04, 0.01, 0.02)`. -/
def cfg3D : Config :=
  { dims := 3, nVels := 19, c := c_D3Q19, w := w_D3Q19, cs_sq := 1 / 3, dx := 1,
    u_0x := 1 / 25, u_0y := 1 / 100, u_0z := 1 / 50,
    INLET_ON := true, INLET_DO_NOTHING := false, INLET_REGULARISED := false,
    LBM_collide := sample_collide c_D3Q19 w_D3Q19 }

/-- Sample 2D build: 9 directions, Zou-He inlet, inlet velocity `(0.04, uy)`. -/
def cfg2D (uy : ℚ) : Config :=
  { dims := 2, nVels := 9, c := c_D2Q9, w := w_D2Q9, cs_sq := 1 / 3, dx := 1,
    u_0x := 1 / 25, u_0y := uy, u_0z := 0,
    INLET_ON := true, INLET_DO_NOTHING := false, INLET_REGULARISED := false,
    LBM_collide := sample_collide c_D2Q9 w_D2Q9 }

/-- Labels of the sample grids: inlet column `i = 0`, outlet column `i = 2`,
solid rows `j = 0` and `j = 2` in between, fluid elsewhere. -/
def sample_labels (i j _k : Nat) : Int :=
  if i = 0 then 7 else if i = 2 then 8 else if j = 0 ∨ j = 2 then 0 else 1

/-- Sample 2D grid (3 x 3 x 1). Every site carries the populations of the
spec's example scenario: `f1=0.10, f2=0.12, f3=0.11, f5=0.09, f7=0.08, f8=0.30`,
the three unknowns being stale zeros. -/
def grid2D : GridObj :=
  { XPos := [0, 1, 2], YPos := [0, 1, 2], ZPos := [0],
    LatTyp := sample_labels,
    f := fun _ _ _ v => [0, 1 / 10, 3 / 25, 11 / 100, 0, 9 / 100, 0, 2 / 25, 3 / 10].getD v 0,
    rho := fun _ _ _ => 1,
    u := fun _ _ _ _ => 0 }

/-- Sample 3D grid (3 x 3 x 3) with populations `(i+1)^2 * (v+1) / 100`. -/
def grid3D : GridObj :=
  { XPos := [0, 1, 2], YPos := [0, 1, 2], ZPos := [0, 1, 2],
    LatTyp := sample_labels,
    f := fun i _ _ v => ((i : ℚ) + 1) ^ 2 * ((v : ℚ) + 1) / 100,
    rho := fun _ _ _ => 1,
    u := fun _ _ _ _ => 0 }

/-- Sample 2D build with the regularised inlet and inlet velocity `(0.04, uy)`. -/
def cfg2D_reg (uy : ℚ) : Config :=
  { cfg2D uy with INLET_REGULARISED := true }

/-- Sample 3D build with the regularised inlet. -/
def cfg3D_reg : Config :=
  { cfg3D with INLET_REGULARISED := true }

/-- Sample 2D build whose prescribed normal inlet velocity is `u_0x = 1`. -/
def cfg2D_unit : Config :=
  { cfg2D 0 with u_0x := 1 }

/-- Sample grid (3 x 1 x 1): a Fluid site, a Solid site and an Outlet site in a
row, with populations `i + v / 10`. -/
def grid_line : GridObj :=
  { XPos := [0, 1, 2], YPos := [0], ZPos := [0],
    LatTyp := fun i _ _ => if i = 0 then 1 else if i = 1 then 0 else 8,
    f := fun i _ _ v => (i : ℚ) + (v : ℚ) / 10,
    rho := fun _ _ _ => 1,
    u := fun _ _ _ _ => 0 }

/-- Sample grid (4 x 1 x 1): a Solid site, two Fluid sites and an Outlet site
in a row, with populations `i + v / 10`. -/
def grid_channel : GridObj :=
  { XPos := [0, 1, 2, 3], YPos := [0], ZPos := [0],
    LatTyp := fun i _ _ => if i = 0 then 0 else if i = 3 then 8 else 1,
    f := fun i _ _ v => (i : ℚ) + (v : ℚ) / 10,
    rho := fun _ _ _ => 1,
    u := fun _ _ _ _ => 0 }

/-- Sample 3D grid (3 x 3 x 3) with a non-zero velocity field. -/
def grid3D_moving : GridObj :=
  { grid3D with u := fun i j k d => (i : ℚ) + (j : ℚ) + (k : ℚ) + (d : ℚ) + 1 }

/-! ## Grid utilities (`GridUtils.h`) -/

/-- The template `GridUtils::upToZero<NumType>` at an ordered number type:
`if (x < 0) return 0; else return x;`. -/
def upToZero {α : Type} [LinearOrder α] [Zero α] (x : α) : α :=
  if x < 0 then 0 else x

/-- The template `GridUtils::downToLimit<NumType>` at an ordered number type:
`if (x > limit) return limit; else return x;`. -/
def downToLimit {α : Type} [LinearOrder α] (x limit : α) : α :=
  if x > limit then limit else x

/-- The template `GridUtils::factorial<NumType>` at an unbounded integer type.
The recursion `n * factorial(n - 1)` is unfolded at most `fuel` times; `none`
means that the recursion did not reach its base case within `fuel` calls. -/
def factorial (fuel : Nat) (n : Int) : Option Int :=
  match fuel with
  | 0 => none
  | fuel + 1 =>
    if n = 0 then some 1
    else (factorial fuel (n - 1)).map (fun r => n * r)

/-- The template `GridUtils::factorial<NumType>` at a `w`-bit unsigned type:
subtraction and multiplication wrap modulo `2 ^ w`. -/
def factorial_unsigned (w fuel : Nat) (n : Nat) : Option Nat :=
  match fuel with
  | 0 => none
  | fuel + 1 =>
    if n = 0 then some (1 % 2 ^ w)
    else (factorial_unsigned w fuel ((n + 2 ^ w - 1) % 2 ^ w)).map (fun r => (n * r) % 2 ^ w)

/-! ## The build-time choice of the inlet -/

/-- The three outcomes of the preprocessor chain `#if ... #elif ... #endif` in the
inlet branch of `LBM_boundary`. -/
inductive InletStrategy where
  | zouHe
  | regularised
  | doNothing
  deriving DecidableEq

/-- Which block of the chain
`#if (defined INLET_ON && !defined INLET_DO_NOTHING && !defined INLET_REGULARISED)`
/ `#elif (defined INLET_ON && !defined INLET_DO_NOTHING && defined INLET_REGULARISED)`
/ `#endif` is compiled. -/
def inlet_strategy (cfg : Config) : InletStrategy :=
  if cfg.INLET_ON ∧ ¬ cfg.INLET_DO_NOTHING ∧ ¬ cfg.INLET_REGULARISED then
    InletStrategy.zouHe
  else if cfg.INLET_ON ∧ ¬ cfg.INLET_DO_NOTHING ∧ cfg.INLET_REGULARISED then
    InletStrategy.regularised
  else
    InletStrategy.doNothing

/-- The code compiled into the inlet branch for each outcome of the chain. -/
def inlet_apply (s : InletStrategy) (cfg : Config) (i j k : Nat) (g : GridObj) : GridObj :=
  match s with
  | InletStrategy.zouHe => bc_applyZouHe cfg g i j k
  | InletStrategy.regularised => bc_applyRegularised cfg g i j k
  | InletStrategy.doNothing => g

/-- Sample 2D build with the inlet switched to do-nothing. -/
def cfg2D_idle : Config :=
  { cfg2D 0 with INLET_DO_NOTHING := true }

/-! ## Grid utilities: strided copy and index maps -/

/-- The library call `memcpy(dest + d, src + s, n * sizeof(NumType))` on two
distinct buffers, as a transformer of the pair `(dest, src)`: the `n` elements
`src[s .. s+n)` replace `dest[d .. d+n)` and `src` is not written; `none` when
one of the two ranges leaves its buffer. -/
def memcpy {α : Type} (dest src : List α) (d s n : Nat) : Option (List α × List α) :=
  if d + n ≤ dest.length ∧ s + n ≤ src.length then
    some (dest.take d ++ (src.drop s).take n ++ dest.drop (d + n), src)
  else none

/-- The template `GridUtils::stridedCopy<NumType>`. The loop state is the pair of
buffers together with the running `buf_offset`; `stride * i` and
`buf_offset += block` are `size_t` operations (modulo `2 ^ 64`). The result is
the pair `(dest, src)` after the loop. -/
def stridedCopy {α : Type} (dest src : List α) (block offset stride count : Nat)
    (buf_offset : Nat) : Option (List α × List α) :=
  (loop 0 count (fun i st =>
    st.bind (fun (m : (List α × List α) × Nat) =>
      (memcpy m.1.1 m.1.2 m.2 (offset + (stride * i) % 2 ^ 64) block).map
        (fun m1 => (m1, (m.2 + block) % 2 ^ 64))))
    (some ((dest, src), buf_offset))).map Prod.fst

/-- Modelled from the spec: `GridUtils::getFineIndices` is only declared in
`GridUtils.h` (`std::vector<int> getFineIndices(int coarse_i, int x_start, int
coarse_j, int y_start, int coarse_k, int z_start)`); its body is not among the
sources. The spec: "for a coarse cell at given per-axis index, returns the block
of `2^dims` fine-cell indices it encloses (refinement factor fixed at 2 per axis
per level), expressed relative to the fine grid's own local origin". Along an
axis whose refined region starts at the coarse index `start`, the coarse cell
`c` encloses the fine cells `2*(c - start)` and `2*(c - start) + 1`; the third
axis is refined only when `dims = 3`. -/
def getFineIndices (dims : Nat) (coarse_i x_start coarse_j y_start coarse_k z_start : Int) :
    List (Int × Int × Int) :=
  [0, 1].flatMap (fun a => [0, 1].flatMap (fun b =>
    (if dims = 3 then [0, 1] else [0]).map (fun c =>
      (2 * (coarse_i - x_start) + a, 2 * (coarse_j - y_start) + b,
        2 * (coarse_k - z_start) + c))))

/-- Modelled from the spec: `GridUtils::getCoarseIndices` is only declared in
`GridUtils.h` (`std::vector<int> getCoarseIndices(int fine_i, int x_start, int
fine_j, int y_start, int fine_k, int z_start)`); its body is not among the
sources. The spec: "inverse mapping by integer division by 2 with corresponding
origin offset". The division is that of C++ `int` (truncation towards zero). -/
def getCoarseIndices (fine_i x_start fine_j y_start fine_k z_start : Int) : Int × Int × Int :=
  (Int.tdiv fine_i 2 + x_start, Int.tdiv fine_j 2 + y_start, Int.tdiv fine_k 2 + z_start)

/-! ## Bounds-checked embedding

The routines of `GridObj_ops_boundary.cpp` once more, with every access to the
population array and to `ftmp` checked against the extent of the array: an
access outside yields `none`. The tables `c`, `w`, the label array, the
macroscopic arrays and the external `LBM_collide` are accessed as before. -/

/-- Checked read of the population cell `f(x,j,k,v,...)` of a grid whose
population array has `N*M*K*nVels` entries: `none` unless `0 <= x < N`,
`j < M`, `k < K` and `v < nVels`. -/
def GridObj.readF (g : GridObj) (nVels : Nat) (x : Int) (j k v : Nat) : Option ℚ :=
  if 0 ≤ x ∧ x < (g.XPos.length : Int) ∧ j < g.YPos.length ∧ k < g.ZPos.length ∧ v < nVels then
    some (g.f x.toNat j k v)
  else none

/-- Checked assignment to the population cell `f(x,j,k,v,...)`. -/
def GridObj.writeF (g : GridObj) (nVels : Nat) (x : Int) (j k v : Nat) (y : ℚ) :
    Option GridObj :=
  if 0 ≤ x ∧ x < (g.XPos.length : Int) ∧ j < g.YPos.length ∧ k < g.ZPos.length ∧ v < nVels then
    some (g.setF x.toNat j k v y)
  else none

/-- Checked read `ftmp[n]`. -/
def rd_chk (ftmp : List ℚ) (n : Nat) : Option ℚ := ftmp[n]?

/-- Checked assignment `ftmp[n] = x`. -/
def set_chk (ftmp : List ℚ) (n : Nat) (x : ℚ) : Option (List ℚ) :=
  if n < ftmp.length then some (ftmp.set n x) else none

/-- Every index in `ns` is a valid index of `ftmp`. -/
def in_ftmp (ftmp : List ℚ) (ns : List Nat) : Bool :=
  ns.all (fun n => decide (n < ftmp.length))

/-- The loop `for (n = lo; n < hi; n++)` with a body that may fail. -/
def loop_chk {σ : Type} (lo hi : Nat) (body : Nat → σ → Option σ) (s : σ) : Option σ :=
  loop lo hi (fun n acc => acc.bind (body n)) (some s)

/-- Checked copy loop `ftmp.push_back(f(i,j,k,n,...))`. -/
def ftmp_init_chk (cfg : Config) (g : GridObj) (i j k : Nat) : Option (List ℚ) :=
  loop_chk 0 cfg.nVels (fun n ftmp =>
    (g.readF cfg.nVels (i : Int) j k n).map (fun x => ftmp ++ [x])) []

/-- Checked write-back loop `f(i,j,k,n,...) = ftmp[n]`. -/
def ftmp_store_chk (cfg : Config) (ftmp : List ℚ) (i j k : Nat) (g : GridObj) :
    Option GridObj :=
  loop_chk 0 cfg.nVels (fun n acc =>
    (rd_chk ftmp n).bind (fun x => acc.writeF cfg.nVels (i : Int) j k n x)) g

/-- Checked body of the `if` inside the loops of `bc_applyExtrapolation`: the
reads of `f(i-1,j,k,v)` and `f(i-2,j,k,v)` and the assignment to `f(i,j,k,v)`,
with `i` the `int` parameter of the routine. -/
def extrapolate_chk (cfg : Config) (i j k v : Nat) (g : GridObj) : Option GridObj :=
  (g.readF cfg.nVels ((i : Int) - 1) j k v).bind (fun y2 =>
    (g.readF cfg.nVels ((i : Int) - 2) j k v).bind (fun y1 =>
      let x1 : ℚ := 0
      let x2 : ℚ := cfg.dx
      let x3 : ℚ := 2 * x2
      let lin_m : ℚ := (y2 - y1) / (x2 - x1)
      let lin_c : ℚ := y1
      g.writeF cfg.nVels (i : Int) j k v (lin_m * x3 + lin_c)))

/-- Checked `GridObj::bc_applyExtrapolation`. -/
def bc_applyExtrapolation_chk (cfg : Config) (g : GridObj) (i j k : Nat) : Option GridObj :=
  if cfg.dims = 3 then
    loop_chk 1 17 (fun v acc =>
      if v = 1 ∨ v = 7 ∨ v = 9 ∨ v = 15 ∨ v = 16 then extrapolate_chk cfg i j k v acc
      else some acc) g
  else
    loop_chk 1 8 (fun v acc =>
      if v = 7 ∨ v = 1 ∨ v = 5 then extrapolate_chk cfg i j k v acc
      else some acc) g

/-- Checked `dims == 3` block of `bc_applyZouHe`: the indices of `ftmp` that the
block reads or writes, in the order of the source (`rho_w`, `ftmp[0]`, `Nxy`,
`Nxz`, `ftmp[6]`, `ftmp[8]`, `ftmp[14]`, `ftmp[17]`), must all exist. -/
def zouHe3D_chk (cfg : Config) (ftmp0 : List ℚ) : Option (List ℚ) :=
  if in_ftmp ftmp0 [18, 2, 3, 4, 5, 10, 11, 12, 13, 1, 7, 9, 15, 16,
      0, 1,
      2, 10, 12, 3, 11, 13,
      4, 10, 13, 5, 11, 12,
      6, 7, 8, 9, 14, 15, 17, 16] then
    some (zouHe3D cfg ftmp0)
  else none

/-- Checked 2D block of `bc_applyZouHe`: the indices of `ftmp` that the block
reads or writes, in the order of the source (`rho_w`, `ftmp[0]`, `ftmp[4]`,
`ftmp[6]`), must all exist. -/
def zouHe2D_chk (cfg : Config) (ftmp0 : List ℚ) : Option (List ℚ) :=
  if in_ftmp ftmp0 [8, 2, 3, 7, 1, 5,
      0, 1,
      4, 0, 2, 1, 5, 3,
      6, 0, 3, 2, 7, 1] then
    some (zouHe2D cfg ftmp0)
  else none

/-- Checked `GridObj::bc_applyZouHe`. -/
def bc_applyZouHe_chk (cfg : Config) (g : GridObj) (i j k : Nat) : Option GridObj :=
  (ftmp_init_chk cfg g i j k).bind (fun ftmp =>
    (if cfg.dims = 3 then zouHe3D_chk cfg ftmp else zouHe2D_chk cfg ftmp).bind (fun ftmp =>
      ftmp_store_chk cfg ftmp i j k g))

/-- Checked loop `for (i = 0; i < nVels; i++) ftmp[i] = ...` of the `dims == 3`
block of `bc_applyRegularised`. -/
def regularised_loop_3D_chk (cfg : Config) (Sxx Syy Szz Sxy Sxz Syz : ℚ) (ftmp0 : List ℚ) :
    Option (List ℚ) :=
  loop_chk 0 cfg.nVels
    (fun i ftmp => set_chk ftmp i (neq_3D cfg Sxx Syy Szz Sxy Sxz Syz i)) ftmp0

/-- Checked `dims == 3` block of `bc_applyRegularised`: the indices of `ftmp`
read by `rho_wall`, `Sxx`, `Syy`, `Szz`, `Sxy`, `Sxz`, `Syz` must exist, and
the loop assigns `ftmp[i]` with a check. -/
def regularised3D_chk (cfg : Config) (ftmp0 : List ℚ) : Option (ℚ × List ℚ) :=
  if in_ftmp ftmp0 [2, 3, 4, 5, 10, 11, 12, 13, 18, 1, 7, 9, 15, 16,
      1, 7, 9, 15, 16,
      2, 3, 10, 11, 12, 13, 7, 9,
      4, 5, 10, 11, 12, 13, 15, 16,
      7, 9, 15, 16, 10, 11, 12, 13] then
    (regularised_loop_3D_chk cfg (Sxx_3D cfg ftmp0) (Syy_3D cfg ftmp0) (Szz_3D cfg ftmp0)
      (Sxy_3D ftmp0) (Sxz_3D ftmp0) (Syz_3D ftmp0) ftmp0).map
      (fun ftmp => (rho_wall_3D cfg ftmp0, ftmp))
  else none

/-- Checked loop `for (i = 0; i < nVels; i++) ftmp[i] = ...` of the 2D block of
`bc_applyRegularised`. -/
def regularised_loop_2D_chk (cfg : Config) (Sxx Sxy Syy : ℚ) (ftmp0 : List ℚ) :
    Option (List ℚ) :=
  loop_chk 0 cfg.nVels (fun i ftmp => set_chk ftmp i (neq_2D cfg Sxx Sxy Syy i)) ftmp0

/-- Checked 2D block of `bc_applyRegularised`. -/
def regularised2D_chk (cfg : Config) (ftmp0 : List ℚ) : Option (ℚ × List ℚ) :=
  if in_ftmp ftmp0 [2, 3, 8, 1, 5, 7,
      1, 5, 7,
      5, 7,
      2, 3, 5, 7] then
    (regularised_loop_2D_chk cfg (Sxx_2D cfg ftmp0) (Sxy_2D ftmp0) (Syy_2D cfg ftmp0)
      ftmp0).map (fun ftmp => (rho_wall_2D cfg ftmp0, ftmp))
  else none

/-- Checked `GridObj::bc_applyRegularised`. -/
def bc_applyRegularised_chk (cfg : Config) (g : GridObj) (i j k : Nat) : Option GridObj :=
  (ftmp_init_chk cfg g i j k).bind (fun ftmp0 =>
    (if cfg.dims = 3 then regularised3D_chk cfg ftmp0
      else regularised2D_chk cfg ftmp0).bind (fun r =>
      let rho_wall := r.1
      let ftmp := r.2
      let g1 := g.setRho i j k rho_wall
      let g2 := g1.setU i j k 0 cfg.u_0x
      let g3 := g2.setU i j k 1 cfg.u_0y
      let g4 := if cfg.dims = 3 then g3.setU i j k 2 cfg.u_0z else g3
      loop_chk 0 cfg.nVels (fun v acc =>
        (rd_chk ftmp v).bind (fun x =>
          acc.writeF cfg.nVels (i : Int) j k v (cfg.LBM_collide acc i j k v + x))) g4))

/-- Checked pass of the direction loop of the solid branch of `LBM_boundary`. -/
def solid_step_chk (cfg : Config) (N_lim M_lim K_lim i j k v : Nat) (g : GridObj) :
    Option GridObj :=
  let src_x : Nat := toSize ((i : Int) + cfg.c 0 v)
  let src_y : Nat := toSize ((j : Int) + cfg.c 1 v)
  let src_z : Nat := toSize ((k : Int) + cfg.c 2 v)
  if (src_x ≥ N_lim ∨ src_x < 0) ∨
     (src_y ≥ M_lim ∨ src_y < 0) ∨
     (src_z ≥ K_lim ∨ src_z < 0) ∨
     (g.LatTyp src_x src_y src_z = 0 ∨
      g.LatTyp src_x src_y src_z = 7 ∨
      g.LatTyp src_x src_y src_z = 8) then
    some g
  else if g.LatTyp src_x src_y src_z = 1 ∨ g.LatTyp src_x src_y src_z = 2 then
    let v_rev := getOpposite cfg.nVels v
    (g.readF cfg.nVels (src_x : Int) src_y src_z v_rev).bind (fun x =>
      g.writeF cfg.nVels (i : Int) j k v x)
  else
    some g

/-- Checked inlet branch of `LBM_boundary`. -/
def inlet_site_chk (cfg : Config) (i j k : Nat) (g : GridObj) : Option GridObj :=
  if cfg.INLET_ON ∧ ¬ cfg.INLET_DO_NOTHING ∧ ¬ cfg.INLET_REGULARISED then
    bc_applyZouHe_chk cfg g i j k
  else if cfg.INLET_ON ∧ ¬ cfg.INLET_DO_NOTHING ∧ cfg.INLET_REGULARISED then
    bc_applyRegularised_chk cfg g i j k
  else
    some g

/-- Checked body of the innermost site loop of `LBM_boundary`. -/
def LBM_boundary_site_chk (cfg : Config) (bc_type_flag : Int) (N_lim M_lim K_lim i j k : Nat)
    (g : GridObj) : Option GridObj :=
  if g.LatTyp i j k = 0 ∧ (bc_type_flag = 0 ∨ bc_type_flag = 1) then
    loop_chk 0 cfg.nVels (solid_step_chk cfg N_lim M_lim K_lim i j k) g
  else if g.LatTyp i j k = 7 ∧
      (bc_type_flag = 0 ∨ bc_type_flag = 2 ∨ bc_type_flag = 4) then
    inlet_site_chk cfg i j k g
  else if g.LatTyp i j k = 8 ∧
      (bc_type_flag = 0 ∨ bc_type_flag = 3 ∨ bc_type_flag = 4) then
    bc_applyExtrapolation_chk cfg g i j k
  else
    some g

/-- Checked `GridObj::LBM_boundary`. -/
def LBM_boundary_chk (cfg : Config) (bc_type_flag : Int) (g : GridObj) : Option GridObj :=
  let N_lim := g.XPos.length
  let M_lim := g.YPos.length
  let K_lim := g.ZPos.length
  loop_chk 0 N_lim (fun i gi =>
    loop_chk 0 M_lim (fun j gj =>
      loop_chk 0 K_lim (fun k gk =>
        LBM_boundary_site_chk cfg bc_type_flag N_lim M_lim K_lim i j k gk) gj) gi) g

/-- The moment conditions on a direction set, for the axes `a, b, e < d`:
`sum w_v = 1`, `sum w_v c_v,a = 0`, `sum w_v c_v,a c_v,b = cs^2 delta_ab` and
`sum w_v c_v,a c_v,b c_v,e = 0`, the sums running over the `nVels` directions. -/
def Config.moment_conditions (cfg : Config) (d : Nat) : Prop :=
  (∑ v ∈ Finset.range cfg.nVels, cfg.w v = 1) ∧
  (∀ a, a < d → ∑ v ∈ Finset.range cfg.nVels, cfg.w v * (cfg.c a v : ℚ) = 0) ∧
  (∀ a b, a < d → b < d → ∑ v ∈ Finset.range cfg.nVels,
    cfg.w v * (cfg.c a v : ℚ) * (cfg.c b v : ℚ) = cfg.cs_sq * (if a = b then 1 else 0)) ∧
  (∀ a b e, a < d → b < d → e < d → ∑ v ∈ Finset.range cfg.nVels,
    cfg.w v * (cfg.c a v : ℚ) * (cfg.c b v : ℚ) * (cfg.c e v : ℚ) = 0)

/-! ## The state of the sweep on arrival at a site -/

/-- Site `(i1,j1,k1)` is visited before site `(i,j,k)` by the triple site loop
(ascending `i`, then `j`, then `k`). -/
def site_before (i1 j1 k1 i j k : Nat) : Prop :=
  i1 < i ∨ (i1 = i ∧ j1 < j) ∨ (i1 = i ∧ j1 = j ∧ k1 < k)

/-- The state of the triple site loop `for i < N, for j < M, for k < K` with site
body `U` at the top of the body for site `(i,j,k)`: the outer loop has completed
its passes `0 .. i-1`, the middle loop its passes `0 .. j-1` of pass `i`, and
the inner loop its passes `0 .. k-1` of pass `(i,j)`. -/
def sweep_before (M K : Nat) (U : Nat → Nat → Nat → GridObj → GridObj) (i j k : Nat)
    (g : GridObj) : GridObj :=
  loop 0 k (fun k1 gk => U i j k1 gk)
    (loop 0 j (fun j1 gj => loop 0 K (fun k1 gk => U i j1 k1 gk) gj)
      (loop 0 i (fun i1 gi =>
        loop 0 M (fun j1 gj => loop 0 K (fun k1 gk => U i1 j1 k1 gk) gj) gi) g))

/-- The state of the grid when the loops of `LBM_boundary` reach site `(i,j,k)`,
before the site is examined. -/
def LBM_boundary_before (cfg : Config) (bc_type_flag : Int) (g : GridObj) (i j k : Nat) :
    GridObj :=
  sweep_before g.YPos.length g.ZPos.length
    (LBM_boundary_site cfg bc_type_flag g.XPos.length g.YPos.length g.ZPos.length) i j k g

end LUMA

namespace LUMA

/-! ## Basic facts about the embedding -/

theorem toSize_ofNat (n : Nat) (h : n < 2 ^ 64) : toSize (n : Int) = n := by
  unfold toSize
  have hmod : ((n : Int) % 2 ^ 64) = n := by
    apply Int.emod_eq_of_lt <;> omega
  rw [hmod]; simp

theorem toSize_sub (i d : Nat) (hd : d ≤ i) (h : i < 2 ^ 64) :
    toSize ((i : Int) - (d : Int)) = i - d := by
  have hcast : (i : Int) - (d : Int) = ((i - d : Nat) : Int) := by omega
  rw [hcast]; exact toSize_ofNat _ (by omega)

theorem loop_zero_succ {σ : Type} (n : Nat) (body : Nat → σ → σ) (s : σ) :
    loop 0 (n + 1) body s = body n (loop 0 n body s) := by
  simp [loop, List.range'_concat]

theorem loop_zero_zero {σ : Type} (body : Nat → σ → σ) (s : σ) :
    loop 0 0 body s = s := by
  simp [loop]

theorem setF_f (g : GridObj) (i j k v : Nat) (x : ℚ) (i1 j1 k1 v1 : Nat) :
    (g.setF i j k v x).f i1 j1 k1 v1 =
      if i1 = i ∧ j1 = j ∧ k1 = k ∧ v1 = v then x else g.f i1 j1 k1 v1 := rfl

theorem range_19 :
    List.range 19 = [0, 1, 2, 3, 4, 5, 6, 7, 8, 9, 10, 11, 12, 13, 14, 15, 16, 17, 18] := by
  decide

theorem range_9 : List.range 9 = [0, 1, 2, 3, 4, 5, 6, 7, 8] := by decide

theorem range_1_17 :
    List.range' 1 (17 - 1) = [1, 2, 3, 4, 5, 6, 7, 8, 9, 10, 11, 12, 13, 14, 15, 16] := by
  decide

theorem range_1_8 : List.range' 1 (8 - 1) = [1, 2, 3, 4, 5, 6, 7] := by decide

/-! ## `getOpposite` -/

/-- C8. For `nVels` in {9, 19, 27} and every direction `v < nVels`, `getOpposite`
applied twice returns `v`, and the rest direction `nVels - 1` is its own
opposite. -/
theorem getOpposite_involution (nVels v : Nat)
    (hn : nVels = 9 ∨ nVels = 19 ∨ nVels = 27) (hv : v < nVels) :
    getOpposite nVels (getOpposite nVels v) = v ∧
      getOpposite nVels (nVels - 1) = nVels - 1 := by
  rcases hn with h | h | h <;> subst h <;> revert v <;> decide

theorem getOpposite_involution_witness :
    (19 = 9 ∨ 19 = 19 ∨ 19 = 27) ∧ 6 < 19 ∧
      (getOpposite 19 (getOpposite 19 6) = 6 ∧ getOpposite 19 (19 - 1) = 19 - 1) :=
  ⟨by decide, by decide, getOpposite_involution 19 6 (by decide) (by decide)⟩

/-- C9. With the direction vectors read off the moment equations of
`bc_applyZouHe` (`c_D3Q19` with 19 directions, `c_D2Q9` with 9), for every
non-rest direction `v` the opposite is the adjacent index (`v+1` for even `v`,
`v-1` for odd `v`) and its vector is the negative of the vector of `v` in every
component. -/
theorem getOpposite_pairs_opposite_vectors (nVels : Nat) (c : Nat → Nat → Int) (v : Nat)
    (hl : (nVels = 19 ∧ c = c_D3Q19) ∨ (nVels = 9 ∧ c = c_D2Q9))
    (hv : v < nVels - 1) :
    getOpposite nVels v = (if v % 2 = 0 then v + 1 else v - 1) ∧
      ∀ a, c a (getOpposite nVels v) = - c a v := by
  rcases hl with ⟨hn, hc⟩ | ⟨hn, hc⟩
  · subst hn hc
    refine ⟨by revert v; decide, ?_⟩
    intro a
    match a with
    | 0 => revert v; decide
    | 1 => revert v; decide
    | 2 => revert v; decide
    | (n + 3) => simp [c_D3Q19]
  · subst hn hc
    refine ⟨by revert v; decide, ?_⟩
    intro a
    match a with
    | 0 => revert v; decide
    | 1 => revert v; decide
    | (n + 2) => simp [c_D2Q9]

theorem getOpposite_pairs_opposite_vectors_witness :
    ((19 = 19 ∧ c_D3Q19 = c_D3Q19) ∨ (19 = 9 ∧ c_D3Q19 = c_D2Q9)) ∧ 16 < 19 - 1 ∧
      (getOpposite 19 16 = (if 16 % 2 = 0 then 16 + 1 else 16 - 1) ∧
        ∀ a, c_D3Q19 a (getOpposite 19 16) = - c_D3Q19 a 16) :=
  ⟨Or.inl ⟨rfl, rfl⟩, by decide,
    getOpposite_pairs_opposite_vectors 19 c_D3Q19 16 (Or.inl ⟨rfl, rfl⟩) (by decide)⟩

/-! ## Outlet extrapolation -/

/-- C10. At an outlet site with `i >= 2`, for every extrapolated direction `v`
and every spacing `dx != 0`, `bc_applyExtrapolation` stores in `f(i,j,k,v)` the
value at abscissa `2*dx` of the line through `(0, f(i-2,j,k,v))` and
`(dx, f(i-1,j,k,v))`; this value is `2*f(i-1,j,k,v) - f(i-2,j,k,v)`, free of
`dx`; and when the two upstream values lie on a line `L` at `x` and `x+dx`, the
stored value is `L(x+2*dx)`. -/
theorem bc_applyExtrapolation_exact (cfg : Config) (g : GridObj) (i j k v : Nat)
    (hi : 2 ≤ i) (hi64 : i < 2 ^ 64) (hdx : cfg.dx ≠ 0)
    (hv : if cfg.dims = 3 then v ∈ [1, 7, 9, 15, 16] else v ∈ [1, 5, 7]) :
    (∀ m q : ℚ, m * 0 + q = g.f (i - 2) j k v → m * cfg.dx + q = g.f (i - 1) j k v →
        (bc_applyExtrapolation cfg g i j k).f i j k v = m * (2 * cfg.dx) + q) ∧
    (bc_applyExtrapolation cfg g i j k).f i j k v
        = 2 * g.f (i - 1) j k v - g.f (i - 2) j k v ∧
    (∀ a b x : ℚ, g.f (i - 2) j k v = a * x + b → g.f (i - 1) j k v = a * (x + cfg.dx) + b →
        (bc_applyExtrapolation cfg g i j k).f i j k v = a * (x + 2 * cfg.dx) + b) := by
  have h1 : toSize ((i : Int) - 1) = i - 1 := toSize_sub i 1 (by omega) hi64
  have h2 : toSize ((i : Int) - 2) = i - 2 := toSize_sub i 2 (by omega) hi64
  have e1 : ¬ (i - 1 = i) := by omega
  have e2 : ¬ (i - 2 = i) := by omega
  have key : (bc_applyExtrapolation cfg g i j k).f i j k v =
      (g.f (i - 1) j k v - g.f (i - 2) j k v) / (cfg.dx - 0) * (2 * cfg.dx)
        + g.f (i - 2) j k v := by
    unfold bc_applyExtrapolation
    split_ifs at hv ⊢ with hd
    · simp only [loop, range_1_17, List.foldl]
      simp only [List.mem_cons, List.mem_singleton, List.not_mem_nil, or_false] at hv
      rcases hv with h | h | h | h | h <;> subst h <;>
        simp [extrapolate, GridObj.setF, h1, h2, e1, e2]
    · simp only [loop, range_1_8, List.foldl]
      simp only [List.mem_cons, List.mem_singleton, List.not_mem_nil, or_false] at hv
      rcases hv with h | h | h <;> subst h <;>
        simp [extrapolate, GridObj.setF, h1, h2, e1, e2]
  have key2 : (bc_applyExtrapolation cfg g i j k).f i j k v
      = 2 * g.f (i - 1) j k v - g.f (i - 2) j k v := by
    rw [key]; field_simp; ring
  refine ⟨?_, key2, ?_⟩
  · intro m q h0 hdx1
    rw [key2, ← h0, ← hdx1]; ring
  · intro a b x hx hxd
    rw [key2, hx, hxd]; ring

theorem bc_applyExtrapolation_exact_witness :
    2 ≤ 2 ∧ 2 < 2 ^ 64 ∧ cfg3D.dx ≠ 0 ∧
      (bc_applyExtrapolation cfg3D grid3D 2 1 1).f 2 1 1 7
        = 2 * grid3D.f (2 - 1) 1 1 7 - grid3D.f (2 - 2) 1 1 7 :=
  ⟨by decide, by decide, by norm_num [cfg3D],
    (bc_applyExtrapolation_exact cfg3D grid3D 2 1 1 7 (by decide) (by decide)
      (by norm_num [cfg3D]) (by simp [cfg3D])).2.1⟩

/-! ## Zou-He inlet -/

theorem rd_set_ne (l : List ℚ) (m v : Nat) (x : ℚ) (h : m ≠ v) :
    rd (l.set m x) v = rd l v := by
  simp [rd, List.getD_eq_getElem?_getD, List.getElem?_set_ne h]

theorem rd_map_range (n v : Nat) (F : Nat → ℚ) (h : v < n) :
    rd ((List.range n).map F) v = F v := by
  simp [rd, List.getD_eq_getElem?_getD, List.getElem?_map, List.getElem?_range h]

theorem ftmp_init_eq (cfg : Config) (g : GridObj) (i j k : Nat) :
    ftmp_init cfg g i j k = (List.range cfg.nVels).map (g.f i j k) := by
  unfold ftmp_init
  induction cfg.nVels with
  | zero => simp [loop]
  | succ n ih => rw [loop_zero_succ, ih, List.range_succ, List.map_append]; rfl

theorem ftmp_store_f (cfg : Config) (ftmp : List ℚ) (g : GridObj) (i j k i1 j1 k1 v : Nat) :
    (ftmp_store cfg ftmp i j k g).f i1 j1 k1 v =
      if i1 = i ∧ j1 = j ∧ k1 = k ∧ v < cfg.nVels then rd ftmp v else g.f i1 j1 k1 v := by
  unfold ftmp_store
  induction cfg.nVels with
  | zero => simp [loop]
  | succ n ih =>
    rw [loop_zero_succ, setF_f, ih]
    by_cases h : i1 = i ∧ j1 = j ∧ k1 = k
    · obtain ⟨rfl, rfl, rfl⟩ := h
      by_cases hv : v = n
      · subst hv; simp
      · by_cases hv2 : v < n
        · have hlt : v < n + 1 := by omega
          simp [hv, hv2, hlt]
        · have hlt : ¬ v < n + 1 := by omega
          simp [hv, hv2, hlt]
    · have h1 : ¬ (i1 = i ∧ j1 = j ∧ k1 = k ∧ v = n) := fun hh => h ⟨hh.1, hh.2.1, hh.2.2.1⟩
      have h2 : ¬ (i1 = i ∧ j1 = j ∧ k1 = k ∧ v < n) := fun hh => h ⟨hh.1, hh.2.1, hh.2.2.1⟩
      have h3 : ¬ (i1 = i ∧ j1 = j ∧ k1 = k ∧ v < n + 1) :=
        fun hh => h ⟨hh.1, hh.2.1, hh.2.2.1⟩
      rw [if_neg h1, if_neg h2, if_neg h3]

/-- The populations after `bc_applyZouHe`, in closed form. -/
theorem bc_applyZouHe_f (cfg : Config) (g : GridObj) (i j k i1 j1 k1 v : Nat) :
    (bc_applyZouHe cfg g i j k).f i1 j1 k1 v =
      if i1 = i ∧ j1 = j ∧ k1 = k ∧ v < cfg.nVels then
        rd (if cfg.dims = 3 then zouHe3D cfg ((List.range cfg.nVels).map (g.f i j k))
            else zouHe2D cfg ((List.range cfg.nVels).map (g.f i j k))) v
      else g.f i1 j1 k1 v := by
  simp only [bc_applyZouHe, ftmp_store_f, ftmp_init_eq]

theorem zouHe3D_explicit (cfg : Config) (a0 a1 a2 a3 a4 a5 a6 a7 a8 a9 a10 a11 a12 a13 a14 a15
    a16 a17 a18 : ℚ) :
    zouHe3D cfg [a0, a1, a2, a3, a4, a5, a6, a7, a8, a9, a10, a11, a12, a13, a14, a15, a16,
      a17, a18] =
      (let rho_w : ℚ := rho_w_3D cfg [a0, a1, a2, a3, a4, a5, a6, a7, a8, a9, a10, a11, a12,
        a13, a14, a15, a16, a17, a18]
      let Nxy : ℚ := (1 / 2) * (a2 + a10 + a12 - (a3 + a11 + a13)) - (1 / 3) * rho_w * cfg.u_0y
      let Nxz : ℚ := (1 / 2) * (a4 + a10 + a13 - (a5 + a11 + a12)) - (1 / 3) * rho_w * cfg.u_0z
      [a1 + (1 / 3) * rho_w * cfg.u_0x, a1, a2, a3, a4, a5,
        a7 + (2 * cfg.w 7 / cfg.cs_sq) * rho_w * (cfg.u_0x + cfg.u_0y) - Nxy, a7,
        a9 + (2 * cfg.w 9 / cfg.cs_sq) * rho_w * (cfg.u_0x - cfg.u_0y) + Nxy, a9,
        a10, a11, a12, a13,
        a15 + (2 * cfg.w 15 / cfg.cs_sq) * rho_w * (cfg.u_0x + cfg.u_0z) - Nxz, a15,
        a16,
        a16 + (2 * cfg.w 16 / cfg.cs_sq) * rho_w * (cfg.u_0x - cfg.u_0z) + Nxz,
        a18]) := rfl

theorem rho_w_3D_explicit (cfg : Config) (a0 a1 a2 a3 a4 a5 a6 a7 a8 a9 a10 a11 a12 a13 a14 a15
    a16 a17 a18 : ℚ) :
    rho_w_3D cfg [a0, a1, a2, a3, a4, a5, a6, a7, a8, a9, a10, a11, a12, a13, a14, a15, a16,
      a17, a18] = (1 / (1 - cfg.u_0x)) *
        ((a18 + a2 + a3 + a4 + a5 + a10 + a11 + a12 + a13) + 2 * (a1 + a7 + a9 + a15 + a16)) :=
  rfl

theorem zouHe2D_explicit (cfg : Config) (a0 a1 a2 a3 a4 a5 a6 a7 a8 : ℚ) :
    zouHe2D cfg [a0, a1, a2, a3, a4, a5, a6, a7, a8] =
      (let rho_w : ℚ := rho_w_2D cfg [a0, a1, a2, a3, a4, a5, a6, a7, a8]
      let f0 : ℚ := a1 + (2 / 3) * rho_w * cfg.u_0x
      [f0, a1, a2, a3,
        (1 / 2) * ((rho_w * cfg.u_0x) - (f0 + a2) + a1 + 2 * a5 + a3), a5,
        (1 / 2) * ((rho_w * cfg.u_0x) - (f0 + a3) + a2 + 2 * a7 + a1), a7, a8]) := rfl

theorem rho_w_2D_explicit (cfg : Config) (a0 a1 a2 a3 a4 a5 a6 a7 a8 : ℚ) :
    rho_w_2D cfg [a0, a1, a2, a3, a4, a5, a6, a7, a8] =
      (1 / (1 - cfg.u_0x)) * (a8 + a2 + a3 + 2 * (a7 + a1 + a5)) := rfl

/-- The density relation of the 3D block: `rho_w * (1 - u_0x)` is the sum of the
tangential populations plus twice the outgoing ones. -/
theorem rho_w_3D_mul (cfg : Config) (g : GridObj) (i j k : Nat) (hu : cfg.u_0x ≠ 1) :
    rho_w_3D cfg ((List.range 19).map (g.f i j k)) * (1 - cfg.u_0x) =
      (g.f i j k 18 + g.f i j k 2 + g.f i j k 3 + g.f i j k 4
      + g.f i j k 5 + g.f i j k 10 + g.f i j k 11 + g.f i j k 12 + g.f i j k 13)
      + 2 * (g.f i j k 1 + g.f i j k 7 + g.f i j k 9 + g.f i j k 15 + g.f i j k 16) := by
  have hne : (1 - cfg.u_0x) ≠ 0 := fun h => hu (by linarith)
  simp only [range_19, List.map, rho_w_3D_explicit]
  field_simp

/-- The density relation of the 2D block. -/
theorem rho_w_2D_mul (cfg : Config) (g : GridObj) (i j k : Nat) (hu : cfg.u_0x ≠ 1) :
    rho_w_2D cfg ((List.range 9).map (g.f i j k)) * (1 - cfg.u_0x) =
      g.f i j k 8 + g.f i j k 2 + g.f i j k 3
      + 2 * (g.f i j k 7 + g.f i j k 1 + g.f i j k 5) := by
  have hne : (1 - cfg.u_0x) ≠ 0 := fun h => hu (by linarith)
  simp only [range_9, List.map, rho_w_2D_explicit]
  field_simp

/-- C3. In 3D with the 19-direction set, diagonal weights 1/36, `cs^2 = 1/3` and
`u_0x != 1`, the 19 populations of the site after `bc_applyZouHe` sum to the
computed `rho_w`, and `rho_w` is
`(f18+f2+f3+f4+f5+f10+f11+f12+f13 + 2(f1+f7+f9+f15+f16)) / (1 - u_0x)`. -/
theorem bc_applyZouHe_mass_3D (cfg : Config) (g : GridObj) (i j k : Nat)
    (hd : cfg.dims = 3) (hn : cfg.nVels = 19)
    (hw7 : cfg.w 7 = 1 / 36) (hw9 : cfg.w 9 = 1 / 36) (hw15 : cfg.w 15 = 1 / 36)
    (hw16 : cfg.w 16 = 1 / 36) (hcs : cfg.cs_sq = 1 / 3) (hu : cfg.u_0x ≠ 1) :
    ∑ v ∈ Finset.range 19, (bc_applyZouHe cfg g i j k).f i j k v =
        rho_w_3D cfg (ftmp_init cfg g i j k) ∧
      rho_w_3D cfg (ftmp_init cfg g i j k) =
      (g.f i j k 18 + g.f i j k 2 + g.f i j k 3 + g.f i j k 4 + g.f i j k 5 + g.f i j k 10
        + g.f i j k 11 + g.f i j k 12 + g.f i j k 13
        + 2 * (g.f i j k 1 + g.f i j k 7 + g.f i j k 9 + g.f i j k 15 + g.f i j k 16))
        / (1 - cfg.u_0x) := by
  have hne : (1 - cfg.u_0x) ≠ 0 := fun h => hu (by linarith)
  have hr := rho_w_3D_mul cfg g i j k hu
  rw [ftmp_init_eq, hn]
  constructor
  · simp only [bc_applyZouHe_f, hn, hd, if_true, Finset.sum_range_succ, Finset.sum_range_zero,
      true_and, Nat.reduceLT, zero_add]
    simp only [range_19, List.map, zouHe3D_explicit] at hr ⊢
    generalize rho_w_3D cfg _ = r at hr ⊢
    simp only [rd, List.getD_cons_succ, List.getD_cons_zero, hw7, hw9, hw15, hw16, hcs]
    linear_combination (-1 : ℚ) * hr
  · rw [eq_div_iff hne, hr]

theorem bc_applyZouHe_mass_3D_witness :
    cfg3D.dims = 3 ∧ cfg3D.nVels = 19 ∧ cfg3D.u_0x ≠ 1 ∧
      ∑ v ∈ Finset.range 19, (bc_applyZouHe cfg3D grid3D 0 1 1).f 0 1 1 v =
        rho_w_3D cfg3D (ftmp_init cfg3D grid3D 0 1 1) :=
  ⟨rfl, rfl, by norm_num [cfg3D],
    (bc_applyZouHe_mass_3D cfg3D grid3D 0 1 1 rfl rfl (by norm_num [cfg3D, w_D3Q19])
      (by norm_num [cfg3D, w_D3Q19]) (by norm_num [cfg3D, w_D3Q19])
      (by norm_num [cfg3D, w_D3Q19]) (by norm_num [cfg3D]) (by norm_num [cfg3D])).1⟩

/-- C4. Under the hypotheses of C3, the first moment of the site's populations
after `bc_applyZouHe` is `rho_w * (u_0x, u_0y, u_0z)`, component by component. -/
theorem bc_applyZouHe_momentum_3D (cfg : Config) (g : GridObj) (i j k : Nat)
    (hd : cfg.dims = 3) (hn : cfg.nVels = 19)
    (hw7 : cfg.w 7 = 1 / 36) (hw9 : cfg.w 9 = 1 / 36) (hw15 : cfg.w 15 = 1 / 36)
    (hw16 : cfg.w 16 = 1 / 36) (hcs : cfg.cs_sq = 1 / 3) (hu : cfg.u_0x ≠ 1) :
    (((bc_applyZouHe cfg g i j k).f i j k 0 + (bc_applyZouHe cfg g i j k).f i j k 6
        + (bc_applyZouHe cfg g i j k).f i j k 8 + (bc_applyZouHe cfg g i j k).f i j k 14
        + (bc_applyZouHe cfg g i j k).f i j k 17)
      - ((bc_applyZouHe cfg g i j k).f i j k 1 + (bc_applyZouHe cfg g i j k).f i j k 7
        + (bc_applyZouHe cfg g i j k).f i j k 9 + (bc_applyZouHe cfg g i j k).f i j k 15
        + (bc_applyZouHe cfg g i j k).f i j k 16)
      = rho_w_3D cfg (ftmp_init cfg g i j k) * cfg.u_0x) ∧
    (((bc_applyZouHe cfg g i j k).f i j k 2 + (bc_applyZouHe cfg g i j k).f i j k 6
        + (bc_applyZouHe cfg g i j k).f i j k 9 + (bc_applyZouHe cfg g i j k).f i j k 10
        + (bc_applyZouHe cfg g i j k).f i j k 12)
      - ((bc_applyZouHe cfg g i j k).f i j k 3 + (bc_applyZouHe cfg g i j k).f i j k 7
        + (bc_applyZouHe cfg g i j k).f i j k 8 + (bc_applyZouHe cfg g i j k).f i j k 11
        + (bc_applyZouHe cfg g i j k).f i j k 13)
      = rho_w_3D cfg (ftmp_init cfg g i j k) * cfg.u_0y) ∧
    (((bc_applyZouHe cfg g i j k).f i j k 4 + (bc_applyZouHe cfg g i j k).f i j k 10
        + (bc_applyZouHe cfg g i j k).f i j k 13 + (bc_applyZouHe cfg g i j k).f i j k 14
        + (bc_applyZouHe cfg g i j k).f i j k 16)
      - ((bc_applyZouHe cfg g i j k).f i j k 5 + (bc_applyZouHe cfg g i j k).f i j k 11
        + (bc_applyZouHe cfg g i j k).f i j k 12 + (bc_applyZouHe cfg g i j k).f i j k 15
        + (bc_applyZouHe cfg g i j k).f i j k 17)
      = rho_w_3D cfg (ftmp_init cfg g i j k) * cfg.u_0z) ∧
    rho_w_3D cfg (ftmp_init cfg g i j k) =
      (g.f i j k 18 + g.f i j k 2 + g.f i j k 3 + g.f i j k 4 + g.f i j k 5 + g.f i j k 10
        + g.f i j k 11 + g.f i j k 12 + g.f i j k 13
        + 2 * (g.f i j k 1 + g.f i j k 7 + g.f i j k 9 + g.f i j k 15 + g.f i j k 16))
        / (1 - cfg.u_0x) := by
  have hne : (1 - cfg.u_0x) ≠ 0 := fun h => hu (by linarith)
  have hr := rho_w_3D_mul cfg g i j k hu
  rw [ftmp_init_eq, hn]
  refine ⟨?_, ?_, ?_, by rw [eq_div_iff hne, hr]⟩
  all_goals
    simp only [bc_applyZouHe_f, hn, hd, if_true, true_and, Nat.reduceLT]
    simp only [range_19, List.map, zouHe3D_explicit]
    generalize rho_w_3D cfg _ = r
    simp only [rd, List.getD_cons_succ, List.getD_cons_zero, hw7, hw9, hw15, hw16, hcs]
    ring

theorem bc_applyZouHe_momentum_3D_witness :
    cfg3D.dims = 3 ∧ cfg3D.nVels = 19 ∧ cfg3D.u_0x ≠ 1 ∧
      (((bc_applyZouHe cfg3D grid3D 0 1 1).f 0 1 1 2 + (bc_applyZouHe cfg3D grid3D 0 1 1).f 0 1 1 6
        + (bc_applyZouHe cfg3D grid3D 0 1 1).f 0 1 1 9
        + (bc_applyZouHe cfg3D grid3D 0 1 1).f 0 1 1 10
        + (bc_applyZouHe cfg3D grid3D 0 1 1).f 0 1 1 12)
      - ((bc_applyZouHe cfg3D grid3D 0 1 1).f 0 1 1 3 + (bc_applyZouHe cfg3D grid3D 0 1 1).f 0 1 1 7
        + (bc_applyZouHe cfg3D grid3D 0 1 1).f 0 1 1 8
        + (bc_applyZouHe cfg3D grid3D 0 1 1).f 0 1 1 11
        + (bc_applyZouHe cfg3D grid3D 0 1 1).f 0 1 1 13)
      = rho_w_3D cfg3D (ftmp_init cfg3D grid3D 0 1 1) * cfg3D.u_0y) :=
  ⟨rfl, rfl, by norm_num [cfg3D],
    (bc_applyZouHe_momentum_3D cfg3D grid3D 0 1 1 rfl rfl (by norm_num [cfg3D, w_D3Q19])
      (by norm_num [cfg3D, w_D3Q19]) (by norm_num [cfg3D, w_D3Q19])
      (by norm_num [cfg3D, w_D3Q19]) (by norm_num [cfg3D]) (by norm_num [cfg3D])).2.1⟩

/-- C5. In the 2D branch (9 directions, `u_0x != 1`), after `bc_applyZouHe` the
nine populations sum to the computed `rho_w`, the x-moment
`(f6+f0+f4)-(f7+f1+f5)` is `rho_w * u_0x`, and `rho_w` is
`(f8+f2+f3+2(f7+f1+f5)) / (1 - u_0x)`. -/
theorem bc_applyZouHe_density_momentum_2D (cfg : Config) (g : GridObj) (i j k : Nat)
    (hd : cfg.dims ≠ 3) (hn : cfg.nVels = 9) (hu : cfg.u_0x ≠ 1) :
    (∑ v ∈ Finset.range 9, (bc_applyZouHe cfg g i j k).f i j k v =
        rho_w_2D cfg (ftmp_init cfg g i j k)) ∧
    (((bc_applyZouHe cfg g i j k).f i j k 6 + (bc_applyZouHe cfg g i j k).f i j k 0
        + (bc_applyZouHe cfg g i j k).f i j k 4)
      - ((bc_applyZouHe cfg g i j k).f i j k 7 + (bc_applyZouHe cfg g i j k).f i j k 1
        + (bc_applyZouHe cfg g i j k).f i j k 5)
      = rho_w_2D cfg (ftmp_init cfg g i j k) * cfg.u_0x) ∧
    rho_w_2D cfg (ftmp_init cfg g i j k) =
      (g.f i j k 8 + g.f i j k 2 + g.f i j k 3
        + 2 * (g.f i j k 7 + g.f i j k 1 + g.f i j k 5)) / (1 - cfg.u_0x) := by
  have hne : (1 - cfg.u_0x) ≠ 0 := fun h => hu (by linarith)
  have hr := rho_w_2D_mul cfg g i j k hu
  rw [ftmp_init_eq, hn]
  refine ⟨?_, ?_, by rw [eq_div_iff hne, hr]⟩
  · simp only [bc_applyZouHe_f, hn, hd, if_false, if_true, Finset.sum_range_succ,
      Finset.sum_range_zero, true_and, Nat.reduceLT, zero_add]
    simp only [range_9, List.map, zouHe2D_explicit] at hr ⊢
    generalize rho_w_2D cfg _ = r at hr ⊢
    simp only [rd, List.getD_cons_succ, List.getD_cons_zero]
    linear_combination (-1 : ℚ) * hr
  · simp only [bc_applyZouHe_f, hn, hd, if_false, if_true, true_and, Nat.reduceLT]
    simp only [range_9, List.map, zouHe2D_explicit]
    generalize rho_w_2D cfg _ = r
    simp only [rd, List.getD_cons_succ, List.getD_cons_zero]
    ring

/-- The spec's example scenario: `u0x = 0.04`, `f1=0.10, f2=0.12, f3=0.11,
f5=0.09, f7=0.08, f8=0.30` give `rho_w = 107/96`, reproduced by the nine
populations after the update. -/
theorem bc_applyZouHe_density_momentum_2D_witness :
    (cfg2D 0).dims ≠ 3 ∧ (cfg2D 0).nVels = 9 ∧ (cfg2D 0).u_0x ≠ 1 ∧
      (∑ v ∈ Finset.range 9, (bc_applyZouHe (cfg2D 0) grid2D 0 1 0).f 0 1 0 v = 107 / 96) ∧
      (((bc_applyZouHe (cfg2D 0) grid2D 0 1 0).f 0 1 0 6
          + (bc_applyZouHe (cfg2D 0) grid2D 0 1 0).f 0 1 0 0
          + (bc_applyZouHe (cfg2D 0) grid2D 0 1 0).f 0 1 0 4)
        - ((bc_applyZouHe (cfg2D 0) grid2D 0 1 0).f 0 1 0 7
          + (bc_applyZouHe (cfg2D 0) grid2D 0 1 0).f 0 1 0 1
          + (bc_applyZouHe (cfg2D 0) grid2D 0 1 0).f 0 1 0 5)
        = 107 / 96 * (1 / 25)) := by
  have hd : (cfg2D 0).dims ≠ 3 := by decide
  have hu : (cfg2D 0).u_0x ≠ 1 := by norm_num [cfg2D]
  obtain ⟨h1, h2, h3⟩ := bc_applyZouHe_density_momentum_2D (cfg2D 0) grid2D 0 1 0 hd rfl hu
  have hrho : rho_w_2D (cfg2D 0) (ftmp_init (cfg2D 0) grid2D 0 1 0) = 107 / 96 := by
    rw [h3]; norm_num [cfg2D, grid2D]
  rw [hrho] at h1 h2
  exact ⟨hd, rfl, hu, h1, by rw [h2]; norm_num [cfg2D]⟩

/-- In the 2D branch the transverse moment `(f4+f2+f7)-(f5+f3+f6)` after
`bc_applyZouHe` is zero whatever `u_0y` is: the branch never reads `u_0y`. -/
theorem bc_applyZouHe_transverse_2D (cfg : Config) (g : GridObj) (i j k : Nat)
    (hd : cfg.dims ≠ 3) (hn : cfg.nVels = 9) :
    ((bc_applyZouHe cfg g i j k).f i j k 4 + (bc_applyZouHe cfg g i j k).f i j k 2
        + (bc_applyZouHe cfg g i j k).f i j k 7)
      - ((bc_applyZouHe cfg g i j k).f i j k 5 + (bc_applyZouHe cfg g i j k).f i j k 3
        + (bc_applyZouHe cfg g i j k).f i j k 6) = 0 := by
  simp only [bc_applyZouHe_f, hn, hd, if_false, if_true, true_and, Nat.reduceLT]
  simp only [range_9, List.map, zouHe2D_explicit]
  generalize rho_w_2D cfg _ = r
  simp only [rd, List.getD_cons_succ, List.getD_cons_zero]
  ring

/-- C6 (evaluation of the code at the failing input). With the spec's example
populations, `u_0x = 0.04` and `u_0y = 0.1`, the 2D block leaves the transverse
moment `(f4+f2+f7)-(f5+f3+f6)` equal to `0`, whereas `rho_w * u_0y = 107/960`. -/
theorem bc_applyZouHe_transverse_2D_fails :
    (((bc_applyZouHe (cfg2D (1 / 10)) grid2D 0 1 0).f 0 1 0 4
        + (bc_applyZouHe (cfg2D (1 / 10)) grid2D 0 1 0).f 0 1 0 2
        + (bc_applyZouHe (cfg2D (1 / 10)) grid2D 0 1 0).f 0 1 0 7)
      - ((bc_applyZouHe (cfg2D (1 / 10)) grid2D 0 1 0).f 0 1 0 5
        + (bc_applyZouHe (cfg2D (1 / 10)) grid2D 0 1 0).f 0 1 0 3
        + (bc_applyZouHe (cfg2D (1 / 10)) grid2D 0 1 0).f 0 1 0 6) = 0) ∧
    rho_w_2D (cfg2D (1 / 10)) (ftmp_init (cfg2D (1 / 10)) grid2D 0 1 0)
      * (cfg2D (1 / 10)).u_0y = 107 / 960 ∧
    (((bc_applyZouHe (cfg2D (1 / 10)) grid2D 0 1 0).f 0 1 0 4
        + (bc_applyZouHe (cfg2D (1 / 10)) grid2D 0 1 0).f 0 1 0 2
        + (bc_applyZouHe (cfg2D (1 / 10)) grid2D 0 1 0).f 0 1 0 7)
      - ((bc_applyZouHe (cfg2D (1 / 10)) grid2D 0 1 0).f 0 1 0 5
        + (bc_applyZouHe (cfg2D (1 / 10)) grid2D 0 1 0).f 0 1 0 3
        + (bc_applyZouHe (cfg2D (1 / 10)) grid2D 0 1 0).f 0 1 0 6) ≠
      rho_w_2D (cfg2D (1 / 10)) (ftmp_init (cfg2D (1 / 10)) grid2D 0 1 0)
        * (cfg2D (1 / 10)).u_0y) := by
  have hd : (cfg2D (1 / 10)).dims ≠ 3 := by decide
  have hu : (cfg2D (1 / 10)).u_0x ≠ 1 := by norm_num [cfg2D]
  have h0 := bc_applyZouHe_transverse_2D (cfg2D (1 / 10)) grid2D 0 1 0 hd rfl
  have hrho : rho_w_2D (cfg2D (1 / 10)) (ftmp_init (cfg2D (1 / 10)) grid2D 0 1 0)
      * (cfg2D (1 / 10)).u_0y = 107 / 960 := by
    rw [ftmp_init_eq]
    have hr := rho_w_2D_mul (cfg2D (1 / 10)) grid2D 0 1 0 hu
    have hn : (cfg2D (1 / 10)).nVels = 9 := rfl
    rw [hn]
    generalize rho_w_2D (cfg2D (1 / 10)) _ = r at hr ⊢
    norm_num [cfg2D, grid2D] at hr ⊢
    linarith
  refine ⟨h0, hrho, ?_⟩
  rw [h0, hrho]; norm_num

theorem zouHe3D_rd_other (cfg : Config) (l : List ℚ) (v : Nat)
    (h : v ∉ [0, 6, 8, 14, 17]) : rd (zouHe3D cfg l) v = rd l v := by
  simp only [List.mem_cons, List.mem_singleton, List.not_mem_nil, or_false, not_or] at h
  obtain ⟨h0, h6, h8, h14, h17⟩ := h
  simp only [zouHe3D]
  rw [rd_set_ne _ _ _ _ (Ne.symm h17), rd_set_ne _ _ _ _ (Ne.symm h14),
    rd_set_ne _ _ _ _ (Ne.symm h8), rd_set_ne _ _ _ _ (Ne.symm h6),
    rd_set_ne _ _ _ _ (Ne.symm h0)]

theorem zouHe2D_rd_other (cfg : Config) (l : List ℚ) (v : Nat)
    (h : v ∉ [0, 4, 6]) : rd (zouHe2D cfg l) v = rd l v := by
  simp only [List.mem_cons, List.mem_singleton, List.not_mem_nil, or_false, not_or] at h
  obtain ⟨h0, h4, h6⟩ := h
  simp only [zouHe2D]
  rw [rd_set_ne _ _ _ _ (Ne.symm h6), rd_set_ne _ _ _ _ (Ne.symm h4),
    rd_set_ne _ _ _ _ (Ne.symm h0)]

/-- C7. `bc_applyZouHe` at site `(i,j,k)` changes at most the populations of
directions {0,6,8,14,17} (3D) or {0,4,6} (2D) of that site: every population
`f(i1,j1,k1,v)` that is not one of these keeps its prior value. -/
theorem bc_applyZouHe_frame (cfg : Config) (g : GridObj) (i j k i1 j1 k1 v : Nat)
    (h : ¬ (i1 = i ∧ j1 = j ∧ k1 = k ∧
      (if cfg.dims = 3 then v ∈ [0, 6, 8, 14, 17] else v ∈ [0, 4, 6]))) :
    (bc_applyZouHe cfg g i j k).f i1 j1 k1 v = g.f i1 j1 k1 v := by
  rw [bc_applyZouHe_f]
  split_ifs with hs hd
  · obtain ⟨rfl, rfl, rfl, hv⟩ := hs
    have hv3 : v ∉ [0, 6, 8, 14, 17] := fun hm => h ⟨rfl, rfl, rfl, by rw [if_pos hd]; exact hm⟩
    rw [zouHe3D_rd_other cfg _ v hv3, rd_map_range _ _ _ hv]
  · obtain ⟨rfl, rfl, rfl, hv⟩ := hs
    have hv2 : v ∉ [0, 4, 6] := fun hm => h ⟨rfl, rfl, rfl, by rw [if_neg hd]; exact hm⟩
    rw [zouHe2D_rd_other cfg _ v hv2, rd_map_range _ _ _ hv]
  · rfl

theorem bc_applyZouHe_frame_witness :
    ¬ (0 = 0 ∧ 1 = 1 ∧ 1 = 1 ∧
      (if cfg3D.dims = 3 then 7 ∈ [0, 6, 8, 14, 17] else 7 ∈ [0, 4, 6])) ∧
    (bc_applyZouHe cfg3D grid3D 0 1 1).f 0 1 1 7 = grid3D.f 0 1 1 7 :=
  ⟨by simp [cfg3D], bc_applyZouHe_frame cfg3D grid3D 0 1 1 0 1 1 7 (by simp [cfg3D])⟩

/-! ## Frame properties of the site updates -/

theorem foldl_inv {σ : Type} (P : σ → Prop) (body : Nat → σ → σ) (l : List Nat) (s : σ)
    (h0 : P s) (hstep : ∀ n, n ∈ l → ∀ t, P t → P (body n t)) :
    P (l.foldl (fun acc n => body n acc) s) := by
  induction l generalizing s with
  | nil => exact h0
  | cons a l ih =>
    simp only [List.foldl_cons]
    exact ih _ (hstep a (List.mem_cons_self _ _) s h0)
      (fun n hn t ht => hstep n (List.mem_cons_of_mem _ hn) t ht)

theorem loop_inv {σ : Type} (P : σ → Prop) (lo hi : Nat) (body : Nat → σ → σ) (s : σ)
    (h0 : P s) (hstep : ∀ n, lo ≤ n → n < hi → ∀ t, P t → P (body n t)) :
    P (loop lo hi body s) := by
  unfold loop
  apply foldl_inv P body _ s h0
  intro n hn t ht
  rw [List.mem_range'_1] at hn
  exact hstep n hn.1 (by omega) t ht

theorem loop_split {σ : Type} (lo m hi : Nat) (h1 : lo ≤ m) (h2 : m < hi)
    (body : Nat → σ → σ) (s : σ) :
    loop lo hi body s = loop (m + 1) hi body (body m (loop lo m body s)) := by
  unfold loop
  have hrange : List.range' lo (hi - lo) =
      List.range' lo (m - lo) ++ m :: List.range' (m + 1) (hi - (m + 1)) := by
    have e1 : hi - lo = (hi - (m + 1) + 1) + (m - lo) := by omega
    have e2 : lo + (m - lo) = m := by omega
    rw [e1, ← List.range'_append_1, List.range'_succ, e2]
  rw [hrange, List.foldl_append, List.foldl_cons]

theorem SameOutside_refl (g : GridObj) (i j k : Nat) : g.SameOutside g i j k :=
  ⟨rfl, rfl, rfl, rfl, fun _ _ _ _ _ => rfl, fun _ _ _ _ => rfl, fun _ _ _ _ _ => rfl⟩

theorem SameOutside_trans {g g1 g2 : GridObj} {i j k : Nat}
    (h1 : g.SameOutside g1 i j k) (h2 : g1.SameOutside g2 i j k) : g.SameOutside g2 i j k := by
  obtain ⟨a1, a2, a3, a4, a5, a6, a7⟩ := h1
  obtain ⟨b1, b2, b3, b4, b5, b6, b7⟩ := h2
  exact ⟨b1.trans a1, b2.trans a2, b3.trans a3, b4.trans a4,
    fun i1 j1 k1 v h => (b5 i1 j1 k1 v h).trans (a5 i1 j1 k1 v h),
    fun i1 j1 k1 h => (b6 i1 j1 k1 h).trans (a6 i1 j1 k1 h),
    fun i1 j1 k1 d h => (b7 i1 j1 k1 d h).trans (a7 i1 j1 k1 d h)⟩

theorem SameOutside_setF (g : GridObj) (i j k v : Nat) (x : ℚ) :
    g.SameOutside (g.setF i j k v x) i j k := by
  refine ⟨rfl, rfl, rfl, rfl, ?_, fun _ _ _ _ => rfl, fun _ _ _ _ _ => rfl⟩
  intro i1 j1 k1 v1 h
  rw [setF_f, if_neg (fun hh => h ⟨hh.1, hh.2.1, hh.2.2.1⟩)]

theorem SameOutside_setRho (g : GridObj) (i j k : Nat) (x : ℚ) :
    g.SameOutside (g.setRho i j k x) i j k := by
  refine ⟨rfl, rfl, rfl, rfl, fun _ _ _ _ _ => rfl, ?_, fun _ _ _ _ _ => rfl⟩
  intro i1 j1 k1 h
  simp only [GridObj.setRho]
  rw [if_neg h]

theorem SameOutside_setU (g : GridObj) (i j k d : Nat) (x : ℚ) :
    g.SameOutside (g.setU i j k d x) i j k := by
  refine ⟨rfl, rfl, rfl, rfl, fun _ _ _ _ _ => rfl, fun _ _ _ _ => rfl, ?_⟩
  intro i1 j1 k1 d1 h
  simp only [GridObj.setU]
  rw [if_neg (fun hh => h ⟨hh.1, hh.2.1, hh.2.2.1⟩)]

/-- A loop whose every pass stays inside the site `(i,j,k)` stays inside it. -/
theorem SameOutside_loop (g : GridObj) (i j k lo hi : Nat) (body : Nat → GridObj → GridObj)
    (hbody : ∀ (n : Nat) (t : GridObj), t.SameOutside (body n t) i j k) :
    g.SameOutside (loop lo hi body g) i j k :=
  loop_inv (fun t => g.SameOutside t i j k) lo hi body g (SameOutside_refl g i j k)
    (fun n _ _ t ht => SameOutside_trans ht (hbody n t))

theorem SameOutside_ftmp_store (cfg : Config) (ftmp : List ℚ) (g : GridObj) (i j k : Nat) :
    g.SameOutside (ftmp_store cfg ftmp i j k g) i j k :=
  SameOutside_loop g i j k 0 cfg.nVels _ (fun n (t : GridObj) => SameOutside_setF t i j k n _)

theorem SameOutside_bc_applyZouHe (cfg : Config) (g : GridObj) (i j k : Nat) :
    g.SameOutside (bc_applyZouHe cfg g i j k) i j k :=
  SameOutside_ftmp_store cfg _ g i j k

theorem SameOutside_bc_applyRegularised (cfg : Config) (g : GridObj) (i j k : Nat) :
    g.SameOutside (bc_applyRegularised cfg g i j k) i j k := by
  unfold bc_applyRegularised
  simp only
  refine SameOutside_trans ?_ (SameOutside_loop _ i j k 0 cfg.nVels _
    (fun n (t : GridObj) => SameOutside_setF t i j k n _))
  have h3 := SameOutside_trans (SameOutside_trans
      (SameOutside_setRho g i j k
        (if cfg.dims = 3 then regularised3D cfg (ftmp_init cfg g i j k)
          else regularised2D cfg (ftmp_init cfg g i j k)).1)
      (SameOutside_setU _ i j k 0 cfg.u_0x)) (SameOutside_setU _ i j k 1 cfg.u_0y)
  by_cases hd : cfg.dims = 3
  · rw [if_pos hd]
    exact SameOutside_trans h3 (SameOutside_setU _ i j k 2 cfg.u_0z)
  · rw [if_neg hd]
    exact h3

theorem SameOutside_extrapolate (cfg : Config) (g : GridObj) (i j k v : Nat) :
    g.SameOutside (extrapolate cfg i j k v g) i j k :=
  SameOutside_setF g i j k v _

theorem SameOutside_bc_applyExtrapolation (cfg : Config) (g : GridObj) (i j k : Nat) :
    g.SameOutside (bc_applyExtrapolation cfg g i j k) i j k := by
  unfold bc_applyExtrapolation
  split_ifs
  · apply SameOutside_loop
    intro n t
    beta_reduce
    split_ifs
    · exact SameOutside_extrapolate cfg t i j k n
    · exact SameOutside_refl t i j k
  · apply SameOutside_loop
    intro n t
    beta_reduce
    split_ifs
    · exact SameOutside_extrapolate cfg t i j k n
    · exact SameOutside_refl t i j k

theorem SameOutside_solid_step (cfg : Config) (N_lim M_lim K_lim i j k v : Nat) (g : GridObj) :
    g.SameOutside (solid_step cfg N_lim M_lim K_lim i j k v g) i j k := by
  unfold solid_step
  simp only
  split_ifs
  · exact SameOutside_refl g i j k
  · exact SameOutside_setF g i j k v _
  · exact SameOutside_refl g i j k

theorem SameOutside_inlet_site (cfg : Config) (i j k : Nat) (g : GridObj) :
    g.SameOutside (inlet_site cfg i j k g) i j k := by
  unfold inlet_site
  split_ifs
  · exact SameOutside_bc_applyZouHe cfg g i j k
  · exact SameOutside_bc_applyRegularised cfg g i j k
  · exact SameOutside_refl g i j k

theorem SameOutside_LBM_boundary_site (cfg : Config) (flag : Int) (N_lim M_lim K_lim i j k : Nat)
    (g : GridObj) :
    g.SameOutside (LBM_boundary_site cfg flag N_lim M_lim K_lim i j k g) i j k := by
  unfold LBM_boundary_site
  split_ifs
  · exact SameOutside_loop g i j k 0 cfg.nVels _
      (fun n (t : GridObj) => SameOutside_solid_step cfg N_lim M_lim K_lim i j k n t)
  · exact SameOutside_inlet_site cfg i j k g
  · exact SameOutside_bc_applyExtrapolation cfg g i j k
  · exact SameOutside_refl g i j k

theorem LBM_boundary_site_unlabelled (cfg : Config) (flag : Int) (N_lim M_lim K_lim i j k : Nat)
    (g : GridObj) (h0 : g.LatTyp i j k ≠ 0) (h7 : g.LatTyp i j k ≠ 7)
    (h8 : g.LatTyp i j k ≠ 8) :
    LBM_boundary_site cfg flag N_lim M_lim K_lim i j k g = g := by
  unfold LBM_boundary_site
  simp [h0, h7, h8]

/-! ## The sweep seen from one site -/

theorem toSize_on_grid (i n N : Nat) (c : Int) (h : (n : Int) = (i : Int) + c) (hn : n < N)
    (hN : N < 2 ^ 64) : toSize ((i : Int) + c) = n := by
  rw [← h]; exact toSize_ofNat n (by omega)

theorem toSize_off_grid (i N : Nat) (c : Int) (hi : i < N) (hN : N < 2 ^ 64)
    (hc1 : -1 ≤ c) (hc2 : c ≤ 1) (h : (i : Int) + c < 0 ∨ (N : Int) ≤ (i : Int) + c) :
    toSize ((i : Int) + c) ≥ N := by
  unfold toSize
  omega

theorem KeepsSites_refl (g : GridObj) (si sj sk ti tj tk : Nat) :
    g.KeepsSites g si sj sk ti tj tk := ⟨rfl, fun _ => rfl, fun _ => rfl⟩

/-- A site update away from `s` keeps the populations of `s`, and those of `t`
when `t` carries none of the labels 0, 7, 8 (or is `s` itself). -/
theorem KeepsSites_site (cfg : Config) (flag : Int) (N_lim M_lim K_lim i j k : Nat)
    (g0 g : GridObj) (si sj sk ti tj tk : Nat)
    (hs : ¬ (si = i ∧ sj = j ∧ sk = k))
    (ht : (g0.LatTyp ti tj tk ≠ 0 ∧ g0.LatTyp ti tj tk ≠ 7 ∧ g0.LatTyp ti tj tk ≠ 8) ∨
      (ti = si ∧ tj = sj ∧ tk = sk))
    (h : g0.KeepsSites g si sj sk ti tj tk) :
    g0.KeepsSites (LBM_boundary_site cfg flag N_lim M_lim K_lim i j k g) si sj sk ti tj tk := by
  obtain ⟨hl, hfs, hft⟩ := h
  by_cases hp : ti = i ∧ tj = j ∧ tk = k
  · rcases ht with ⟨h0, h7, h8⟩ | hts
    · obtain ⟨rfl, rfl, rfl⟩ := hp
      rw [LBM_boundary_site_unlabelled cfg flag N_lim M_lim K_lim ti tj tk g
        (by rw [hl]; exact h0) (by rw [hl]; exact h7) (by rw [hl]; exact h8)]
      exact ⟨hl, hfs, hft⟩
    · exact absurd ⟨hts.1 ▸ hp.1, hts.2.1 ▸ hp.2.1, hts.2.2 ▸ hp.2.2⟩ hs
  · obtain ⟨_, _, _, b4, b5, _, _⟩ :=
      SameOutside_LBM_boundary_site cfg flag N_lim M_lim K_lim i j k g
    exact ⟨b4.trans hl, fun v => (b5 si sj sk v hs).trans (hfs v),
      fun v => (b5 ti tj tk v hp).trans (hft v)⟩

theorem KeepsSites_kloop (cfg : Config) (flag : Int) (N_lim M_lim K_lim i j lo hi : Nat)
    (g0 g : GridObj) (si sj sk ti tj tk : Nat)
    (hs : ∀ k, lo ≤ k → k < hi → ¬ (si = i ∧ sj = j ∧ sk = k))
    (ht : (g0.LatTyp ti tj tk ≠ 0 ∧ g0.LatTyp ti tj tk ≠ 7 ∧ g0.LatTyp ti tj tk ≠ 8) ∨
      (ti = si ∧ tj = sj ∧ tk = sk))
    (h : g0.KeepsSites g si sj sk ti tj tk) :
    g0.KeepsSites (loop lo hi (fun k gk =>
      LBM_boundary_site cfg flag N_lim M_lim K_lim i j k gk) g) si sj sk ti tj tk :=
  loop_inv (fun t => g0.KeepsSites t si sj sk ti tj tk) lo hi _ g h
    (fun k hk1 hk2 t hkeep =>
      KeepsSites_site cfg flag N_lim M_lim K_lim i j k g0 t si sj sk ti tj tk
        (hs k hk1 hk2) ht hkeep)

theorem KeepsSites_jloop (cfg : Config) (flag : Int) (N_lim M_lim K_lim i lo hi : Nat)
    (g0 g : GridObj) (si sj sk ti tj tk : Nat)
    (hs : ∀ j, lo ≤ j → j < hi → ¬ (si = i ∧ sj = j))
    (ht : (g0.LatTyp ti tj tk ≠ 0 ∧ g0.LatTyp ti tj tk ≠ 7 ∧ g0.LatTyp ti tj tk ≠ 8) ∨
      (ti = si ∧ tj = sj ∧ tk = sk))
    (h : g0.KeepsSites g si sj sk ti tj tk) :
    g0.KeepsSites (loop lo hi (fun j gj => loop 0 K_lim (fun k gk =>
      LBM_boundary_site cfg flag N_lim M_lim K_lim i j k gk) gj) g) si sj sk ti tj tk :=
  loop_inv (fun t => g0.KeepsSites t si sj sk ti tj tk) lo hi _ g h
    (fun j hj1 hj2 t hkeep =>
      KeepsSites_kloop cfg flag N_lim M_lim K_lim i j 0 K_lim g0 t si sj sk ti tj tk
        (fun _ _ _ hh => hs j hj1 hj2 ⟨hh.1, hh.2.1⟩) ht hkeep)

theorem KeepsSites_iloop (cfg : Config) (flag : Int) (N_lim M_lim K_lim lo hi : Nat)
    (g0 g : GridObj) (si sj sk ti tj tk : Nat)
    (hs : ∀ i, lo ≤ i → i < hi → ¬ (si = i))
    (ht : (g0.LatTyp ti tj tk ≠ 0 ∧ g0.LatTyp ti tj tk ≠ 7 ∧ g0.LatTyp ti tj tk ≠ 8) ∨
      (ti = si ∧ tj = sj ∧ tk = sk))
    (h : g0.KeepsSites g si sj sk ti tj tk) :
    g0.KeepsSites (loop lo hi (fun i gi => loop 0 M_lim (fun j gj => loop 0 K_lim (fun k gk =>
      LBM_boundary_site cfg flag N_lim M_lim K_lim i j k gk) gj) gi) g) si sj sk ti tj tk :=
  loop_inv (fun t => g0.KeepsSites t si sj sk ti tj tk) lo hi _ g h
    (fun i hi1 hi2 t hkeep =>
      KeepsSites_jloop cfg flag N_lim M_lim K_lim i 0 M_lim g0 t si sj sk ti tj tk
        (fun _ _ _ hh => hs i hi1 hi2 hh.1) ht hkeep)

/-- The sweep seen from one site `s = (i,j,k)` of the grid: the populations of
`s` after `LBM_boundary` are those produced by the update of `s` itself, run on
a grid `g1` that still has the labels of `g`, the populations of `g` at `s`, and
the populations of `g` at any site `t` that is not labelled 0, 7 or 8. -/
theorem LBM_boundary_at_site (cfg : Config) (flag : Int) (g : GridObj) (i j k ti tj tk : Nat)
    (hi : i < g.XPos.length) (hj : j < g.YPos.length) (hk : k < g.ZPos.length)
    (ht : (g.LatTyp ti tj tk ≠ 0 ∧ g.LatTyp ti tj tk ≠ 7 ∧ g.LatTyp ti tj tk ≠ 8) ∨
      (ti = i ∧ tj = j ∧ tk = k)) :
    ∃ g1 : GridObj, g.KeepsSites g1 i j k ti tj tk ∧
      ∀ v, (LBM_boundary cfg flag g).f i j k v =
        (LBM_boundary_site cfg flag g.XPos.length g.YPos.length g.ZPos.length i j k g1).f
          i j k v := by
  unfold LBM_boundary
  simp only
  rw [loop_split 0 i g.XPos.length (Nat.zero_le i) hi]
  have hA := KeepsSites_iloop cfg flag g.XPos.length g.YPos.length g.ZPos.length 0 i g g
    i j k ti tj tk (fun i' _ h2 heq => by omega) ht (KeepsSites_refl g _ _ _ _ _ _)
  generalize loop 0 i _ g = gA at hA ⊢
  rw [loop_split 0 j g.YPos.length (Nat.zero_le j) hj]
  have hB := KeepsSites_jloop cfg flag g.XPos.length g.YPos.length g.ZPos.length i 0 j g gA
    i j k ti tj tk (fun j' _ h2 heq => by omega) ht hA
  generalize loop 0 j _ gA = gB at hB ⊢
  rw [loop_split 0 k g.ZPos.length (Nat.zero_le k) hk]
  have hC := KeepsSites_kloop cfg flag g.XPos.length g.YPos.length g.ZPos.length i j 0 k g gB
    i j k ti tj tk (fun k' _ h2 heq => by omega) ht hB
  generalize loop 0 k _ gB = g1 at hC ⊢
  refine ⟨g1, hC, ?_⟩
  generalize LBM_boundary_site cfg flag g.XPos.length g.YPos.length g.ZPos.length i j k g1 = g2
  have hs : (g2.LatTyp i j k ≠ 0 ∧ g2.LatTyp i j k ≠ 7 ∧ g2.LatTyp i j k ≠ 8) ∨
      (i = i ∧ j = j ∧ k = k) := Or.inr ⟨rfl, rfl, rfl⟩
  have hD := KeepsSites_kloop cfg flag g.XPos.length g.YPos.length g.ZPos.length i j (k + 1)
    g.ZPos.length g2 g2 i j k i j k (fun k' h1 _ heq => by omega) hs
    (KeepsSites_refl g2 _ _ _ _ _ _)
  generalize loop (k + 1) g.ZPos.length _ g2 = gD at hD ⊢
  have hE := KeepsSites_jloop cfg flag g.XPos.length g.YPos.length g.ZPos.length i (j + 1)
    g.YPos.length g2 gD i j k i j k (fun j' h1 _ heq => by omega) hs hD
  generalize loop (j + 1) g.YPos.length _ gD = gE at hE ⊢
  have hF := KeepsSites_iloop cfg flag g.XPos.length g.YPos.length g.ZPos.length (i + 1)
    g.XPos.length g2 gE i j k i j k (fun i' h1 _ heq => by omega) hs hE
  exact hF.2.1

/-! ## Solid sites: bounce-back -/

theorem solid_step_f_other_dir (cfg : Config) (N_lim M_lim K_lim i j k v v1 : Nat) (g : GridObj)
    (i1 j1 k1 : Nat) (hv : v1 ≠ v) :
    (solid_step cfg N_lim M_lim K_lim i j k v g).f i1 j1 k1 v1 = g.f i1 j1 k1 v1 := by
  unfold solid_step
  simp only
  split_ifs
  · rfl
  · rw [setF_f, if_neg (fun hh => hv hh.2.2.2)]
  · rfl

theorem solid_step_LatTyp (cfg : Config) (N_lim M_lim K_lim i j k v : Nat) (g : GridObj) :
    (solid_step cfg N_lim M_lim K_lim i j k v g).LatTyp = g.LatTyp :=
  (SameOutside_solid_step cfg N_lim M_lim K_lim i j k v g).2.2.2.1

/-- The direction loop of a solid site leaves `f(site, v)` alone when the
streaming source of `v` is off the grid or labelled 0, 7 or 8. -/
theorem solid_loop_retains (cfg : Config) (N_lim M_lim K_lim i j k v : Nat) (g : GridObj)
    (hsrc : (toSize ((i : Int) + cfg.c 0 v) ≥ N_lim ∨ toSize ((i : Int) + cfg.c 0 v) < 0) ∨
     (toSize ((j : Int) + cfg.c 1 v) ≥ M_lim ∨ toSize ((j : Int) + cfg.c 1 v) < 0) ∨
     (toSize ((k : Int) + cfg.c 2 v) ≥ K_lim ∨ toSize ((k : Int) + cfg.c 2 v) < 0) ∨
     (g.LatTyp (toSize ((i : Int) + cfg.c 0 v)) (toSize ((j : Int) + cfg.c 1 v))
        (toSize ((k : Int) + cfg.c 2 v)) = 0 ∨
      g.LatTyp (toSize ((i : Int) + cfg.c 0 v)) (toSize ((j : Int) + cfg.c 1 v))
        (toSize ((k : Int) + cfg.c 2 v)) = 7 ∨
      g.LatTyp (toSize ((i : Int) + cfg.c 0 v)) (toSize ((j : Int) + cfg.c 1 v))
        (toSize ((k : Int) + cfg.c 2 v)) = 8)) :
    (loop 0 cfg.nVels (solid_step cfg N_lim M_lim K_lim i j k) g).f i j k v = g.f i j k v := by
  have key := loop_inv (fun t => t.LatTyp = g.LatTyp ∧ t.f i j k v = g.f i j k v) 0 cfg.nVels
    (solid_step cfg N_lim M_lim K_lim i j k) g ⟨rfl, rfl⟩ (by
      intro n _ _ t ht
      refine ⟨(solid_step_LatTyp cfg N_lim M_lim K_lim i j k n t).trans ht.1, ?_⟩
      by_cases hn : v = n
      · subst hn
        have hstep : solid_step cfg N_lim M_lim K_lim i j k v t = t := by
          unfold solid_step
          simp only
          rw [ht.1, if_pos hsrc]
        rw [hstep]; exact ht.2
      · rw [solid_step_f_other_dir cfg N_lim M_lim K_lim i j k n v t i j k hn]; exact ht.2)
  exact key.2

/-- The direction loop of a solid site stores in `f(site, v)` the population
`getOpposite v` of the streaming source when that source is on the grid and
labelled 1 or 2. -/
theorem solid_loop_bounces (cfg : Config) (N_lim M_lim K_lim i j k v ni nj nk : Nat)
    (g : GridObj) (hv : v < cfg.nVels)
    (hx : toSize ((i : Int) + cfg.c 0 v) = ni) (hy : toSize ((j : Int) + cfg.c 1 v) = nj)
    (hz : toSize ((k : Int) + cfg.c 2 v) = nk)
    (hni : ni < N_lim) (hnj : nj < M_lim) (hnk : nk < K_lim)
    (hsolid : g.LatTyp i j k = 0)
    (hfluid : g.LatTyp ni nj nk = 1 ∨ g.LatTyp ni nj nk = 2) :
    (loop 0 cfg.nVels (solid_step cfg N_lim M_lim K_lim i j k) g).f i j k v =
      g.f ni nj nk (getOpposite cfg.nVels v) := by
  have hne : ¬ (ni = i ∧ nj = j ∧ nk = k) := by
    rintro ⟨rfl, rfl, rfl⟩
    rw [hsolid] at hfluid
    omega
  rw [loop_split 0 v cfg.nVels (Nat.zero_le v) hv]
  have hpre := SameOutside_loop g i j k 0 v (solid_step cfg N_lim M_lim K_lim i j k)
    (fun n (t : GridObj) => SameOutside_solid_step cfg N_lim M_lim K_lim i j k n t)
  generalize loop 0 v _ g = gp at hpre
  obtain ⟨_, _, _, hl, hf, _, _⟩ := hpre
  have hstep : (solid_step cfg N_lim M_lim K_lim i j k v gp).f i j k v =
      g.f ni nj nk (getOpposite cfg.nVels v) := by
    unfold solid_step
    simp only
    rw [hx, hy, hz, hl]
    have hcond : ¬ ((ni ≥ N_lim ∨ ni < 0) ∨ (nj ≥ M_lim ∨ nj < 0) ∨ (nk ≥ K_lim ∨ nk < 0) ∨
        (g.LatTyp ni nj nk = 0 ∨ g.LatTyp ni nj nk = 7 ∨ g.LatTyp ni nj nk = 8)) := by
      rcases hfluid with h | h <;> rw [h] <;> omega
    rw [if_neg hcond, if_pos hfluid, setF_f, if_pos ⟨rfl, rfl, rfl, rfl⟩]
    exact hf ni nj nk _ hne
  generalize solid_step cfg N_lim M_lim K_lim i j k v gp = gs at hstep
  have key := loop_inv (fun t => t.f i j k v = gs.f i j k v) (v + 1) cfg.nVels
    (solid_step cfg N_lim M_lim K_lim i j k) gs rfl (by
      intro n hn1 _ t ht
      rw [solid_step_f_other_dir cfg N_lim M_lim K_lim i j k n v t i j k (by omega)]
      exact ht)
  exact key.trans hstep

theorem c_D3Q19_range (a v : Nat) : -1 ≤ c_D3Q19 a v ∧ c_D3Q19 a v ≤ 1 := by
  unfold c_D3Q19
  split <;> (try split_ifs) <;> omega

theorem c_D2Q9_range (a v : Nat) : -1 ≤ c_D2Q9 a v ∧ c_D2Q9 a v ≤ 1 := by
  unfold c_D2Q9
  split <;> (try split_ifs) <;> omega

/-- C1. For every grid (extents below `2^64`), every flag in {0, 1}, every
Solid site `(i,j,k)` of the grid and every direction `v < nVels` whose neighbour
`(ni,nj,nk) = (i,j,k) + c_v` lies on the grid and is labelled 1 (Fluid) or 2,
after `LBM_boundary` the population `f(site, v)` equals
`f(neighbour, getOpposite v)` as it stood before the call. -/
theorem LBM_boundary_bounce_back (cfg : Config) (flag : Int) (g : GridObj)
    (i j k v ni nj nk : Nat) (hflag : flag = 0 ∨ flag = 1)
    (hN : g.XPos.length < 2 ^ 64) (hM : g.YPos.length < 2 ^ 64) (hK : g.ZPos.length < 2 ^ 64)
    (hi : i < g.XPos.length) (hj : j < g.YPos.length) (hk : k < g.ZPos.length)
    (hv : v < cfg.nVels) (hsolid : g.LatTyp i j k = 0)
    (hx : (ni : Int) = (i : Int) + cfg.c 0 v) (hy : (nj : Int) = (j : Int) + cfg.c 1 v)
    (hz : (nk : Int) = (k : Int) + cfg.c 2 v)
    (hni : ni < g.XPos.length) (hnj : nj < g.YPos.length) (hnk : nk < g.ZPos.length)
    (hfluid : g.LatTyp ni nj nk = 1 ∨ g.LatTyp ni nj nk = 2) :
    (LBM_boundary cfg flag g).f i j k v = g.f ni nj nk (getOpposite cfg.nVels v) := by
  have hlab : g.LatTyp ni nj nk ≠ 0 ∧ g.LatTyp ni nj nk ≠ 7 ∧ g.LatTyp ni nj nk ≠ 8 := by
    rcases hfluid with h | h <;> rw [h] <;> decide
  obtain ⟨g1, ⟨hl, _, hft⟩, hfin⟩ :=
    LBM_boundary_at_site cfg flag g i j k ni nj nk hi hj hk (Or.inl hlab)
  rw [hfin v]
  unfold LBM_boundary_site
  rw [if_pos ⟨by rw [hl]; exact hsolid, hflag⟩]
  rw [solid_loop_bounces cfg _ _ _ i j k v ni nj nk g1 hv
    (toSize_on_grid i ni _ _ hx hni hN) (toSize_on_grid j nj _ _ hy hnj hM)
    (toSize_on_grid k nk _ _ hz hnk hK) hni hnj hnk (by rw [hl]; exact hsolid)
    (by rw [hl]; exact hfluid)]
  exact hft _

theorem LBM_boundary_bounce_back_witness :
    grid2D.LatTyp 1 0 0 = 0 ∧ ((1 : Nat) : Int) = ((0 : Nat) : Int) + (cfg2D 0).c 1 2 ∧
      grid2D.LatTyp 1 1 0 = 1 ∧
      (LBM_boundary (cfg2D 0) 0 grid2D).f 1 0 0 2
        = grid2D.f 1 1 0 (getOpposite (cfg2D 0).nVels 2) :=
  ⟨by decide, by decide, by decide,
    LBM_boundary_bounce_back (cfg2D 0) 0 grid2D 1 0 0 2 1 1 0 (Or.inl rfl)
      (by decide) (by decide) (by decide) (by decide) (by decide) (by decide) (by decide)
      (by decide) (by decide) (by decide) (by decide) (by decide) (by decide) (by decide)
      (Or.inl (by decide))⟩

/-- C2. For every grid (extents below `2^64`), every flag, every Solid site
`(i,j,k)` of the grid and every direction `v` (with components in {-1,0,1})
whose neighbour `(i,j,k) + c_v` is off the grid on some axis, or is on the grid
and labelled 0 (Solid), 7 (Inlet) or 8 (Outlet), `LBM_boundary` leaves
`f(site, v)` equal to its value before the call. -/
theorem LBM_boundary_retains (cfg : Config) (flag : Int) (g : GridObj) (i j k v : Nat)
    (hN : g.XPos.length < 2 ^ 64) (hM : g.YPos.length < 2 ^ 64) (hK : g.ZPos.length < 2 ^ 64)
    (hi : i < g.XPos.length) (hj : j < g.YPos.length) (hk : k < g.ZPos.length)
    (hsolid : g.LatTyp i j k = 0)
    (hc : ∀ a, -1 ≤ cfg.c a v ∧ cfg.c a v ≤ 1)
    (hsrc : ((i : Int) + cfg.c 0 v < 0 ∨ (g.XPos.length : Int) ≤ (i : Int) + cfg.c 0 v) ∨
      ((j : Int) + cfg.c 1 v < 0 ∨ (g.YPos.length : Int) ≤ (j : Int) + cfg.c 1 v) ∨
      ((k : Int) + cfg.c 2 v < 0 ∨ (g.ZPos.length : Int) ≤ (k : Int) + cfg.c 2 v) ∨
      (∃ ni nj nk : Nat, (ni : Int) = (i : Int) + cfg.c 0 v ∧
        (nj : Int) = (j : Int) + cfg.c 1 v ∧ (nk : Int) = (k : Int) + cfg.c 2 v ∧
        (g.LatTyp ni nj nk = 0 ∨ g.LatTyp ni nj nk = 7 ∨ g.LatTyp ni nj nk = 8))) :
    (LBM_boundary cfg flag g).f i j k v = g.f i j k v := by
  obtain ⟨g1, ⟨hl, hfs, _⟩, hfin⟩ :=
    LBM_boundary_at_site cfg flag g i j k i j k hi hj hk (Or.inr ⟨rfl, rfl, rfl⟩)
  rw [hfin v, ← hfs v]
  unfold LBM_boundary_site
  have hs1 : g1.LatTyp i j k = 0 := by rw [hl]; exact hsolid
  by_cases hflag : flag = 0 ∨ flag = 1
  · rw [if_pos ⟨hs1, hflag⟩]
    apply solid_loop_retains
    rw [hl]
    rcases hsrc with h | h | h | ⟨ni, nj, nk, hx, hy, hz, hlab⟩
    · exact Or.inl (Or.inl (toSize_off_grid i _ _ hi hN (hc 0).1 (hc 0).2 h))
    · exact Or.inr (Or.inl (Or.inl (toSize_off_grid j _ _ hj hM (hc 1).1 (hc 1).2 h)))
    · exact Or.inr (Or.inr (Or.inl (Or.inl
        (toSize_off_grid k _ _ hk hK (hc 2).1 (hc 2).2 h))))
    · have hc0 := hc 0
      have hc1 := hc 1
      have hc2 := hc 2
      rw [← hx, ← hy, ← hz, toSize_ofNat ni (by omega), toSize_ofNat nj (by omega),
        toSize_ofNat nk (by omega)]
      exact Or.inr (Or.inr (Or.inr hlab))
  · have h1 : ¬ (g1.LatTyp i j k = 0 ∧ (flag = 0 ∨ flag = 1)) := fun hh => hflag hh.2
    have h7 : ¬ (g1.LatTyp i j k = 7 ∧ (flag = 0 ∨ flag = 2 ∨ flag = 4)) := by
      rw [hs1]; exact fun hh => absurd hh.1 (by decide)
    have h8 : ¬ (g1.LatTyp i j k = 8 ∧ (flag = 0 ∨ flag = 3 ∨ flag = 4)) := by
      rw [hs1]; exact fun hh => absurd hh.1 (by decide)
    rw [if_neg h1, if_neg h7, if_neg h8]

theorem LBM_boundary_retains_witness :
    grid2D.LatTyp 1 0 0 = 0 ∧ ((0 : Nat) : Int) + (cfg2D 0).c 1 3 < 0 ∧
      (LBM_boundary (cfg2D 0) 0 grid2D).f 1 0 0 3 = grid2D.f 1 0 0 3 :=
  ⟨by decide, by decide,
    LBM_boundary_retains (cfg2D 0) 0 grid2D 1 0 0 3 (by decide) (by decide) (by decide)
      (by decide) (by decide) (by decide) (by decide) (fun a => c_D2Q9_range a 3)
      (Or.inr (Or.inl (Or.inl (by decide))))⟩

/-! ## The site sweep in general; solid reset -/

theorem LBM_boundary_eq_sweep (cfg : Config) (flag : Int) (g : GridObj) :
    LBM_boundary cfg flag g = sweep g.XPos.length g.YPos.length g.ZPos.length
      (LBM_boundary_site cfg flag g.XPos.length g.YPos.length g.ZPos.length) g := rfl

theorem bc_solid_site_reset_eq_sweep (cfg : Config) (g : GridObj) :
    bc_solid_site_reset cfg g = sweep g.XPos.length g.YPos.length g.ZPos.length
      (solid_reset_site cfg) g := rfl

/-- A property kept by every site update is kept by the sweep. -/
theorem sweep_inv (P : GridObj → Prop) (N M K : Nat) (U : Nat → Nat → Nat → GridObj → GridObj)
    (g : GridObj) (h0 : P g)
    (hstep : ∀ i j k, i < N → j < M → k < K → ∀ t, P t → P (U i j k t)) :
    P (sweep N M K U g) :=
  loop_inv P 0 N _ g h0 (fun i _ hi t ht =>
    loop_inv P 0 M _ t ht (fun j _ hj t1 ht1 =>
      loop_inv P 0 K _ t1 ht1 (fun k _ hk t2 ht2 => hstep i j k hi hj hk t2 ht2)))

/-- The sweep seen from one site `s = (i,j,k)` of the grid: if `P` holds
initially and is kept by the updates of the other sites, the update of `s`
turns `P` into `Q`, and `Q` is kept by the updates of the other sites, then
`Q` holds after the sweep. -/
theorem sweep_at_site (P Q : GridObj → Prop) (N M K : Nat)
    (U : Nat → Nat → Nat → GridObj → GridObj) (g : GridObj) (i j k : Nat)
    (hi : i < N) (hj : j < M) (hk : k < K) (h0 : P g)
    (hP : ∀ i1 j1 k1, ¬ (i1 = i ∧ j1 = j ∧ k1 = k) → ∀ t, P t → P (U i1 j1 k1 t))
    (hs : ∀ t, P t → Q (U i j k t))
    (hQ : ∀ i1 j1 k1, ¬ (i1 = i ∧ j1 = j ∧ k1 = k) → ∀ t, Q t → Q (U i1 j1 k1 t)) :
    Q (sweep N M K U g) := by
  have kl : ∀ (R : GridObj → Prop), (∀ i1 j1 k1, ¬ (i1 = i ∧ j1 = j ∧ k1 = k) →
      ∀ t, R t → R (U i1 j1 k1 t)) → ∀ (i1 j1 lo hi1 : Nat) (t : GridObj),
      (∀ k1, lo ≤ k1 → k1 < hi1 → ¬ (i1 = i ∧ j1 = j ∧ k1 = k)) → R t →
      R (loop lo hi1 (fun k1 gk => U i1 j1 k1 gk) t) := by
    intro R hR i1 j1 lo hi1 t hne ht
    exact loop_inv R lo hi1 _ t ht (fun k1 h1 h2 t1 ht1 => hR i1 j1 k1 (hne k1 h1 h2) t1 ht1)
  have jl : ∀ (R : GridObj → Prop), (∀ i1 j1 k1, ¬ (i1 = i ∧ j1 = j ∧ k1 = k) →
      ∀ t, R t → R (U i1 j1 k1 t)) → ∀ (i1 lo hi1 : Nat) (t : GridObj),
      (∀ j1, lo ≤ j1 → j1 < hi1 → ¬ (i1 = i ∧ j1 = j)) → R t →
      R (loop lo hi1 (fun j1 gj => loop 0 K (fun k1 gk => U i1 j1 k1 gk) gj) t) := by
    intro R hR i1 lo hi1 t hne ht
    exact loop_inv R lo hi1 _ t ht (fun j1 h1 h2 t1 ht1 =>
      kl R hR i1 j1 0 K t1 (fun _ _ _ hh => hne j1 h1 h2 ⟨hh.1, hh.2.1⟩) ht1)
  have il : ∀ (R : GridObj → Prop), (∀ i1 j1 k1, ¬ (i1 = i ∧ j1 = j ∧ k1 = k) →
      ∀ t, R t → R (U i1 j1 k1 t)) → ∀ (lo hi1 : Nat) (t : GridObj),
      (∀ i1, lo ≤ i1 → i1 < hi1 → ¬ (i1 = i)) → R t →
      R (loop lo hi1 (fun i1 gi => loop 0 M (fun j1 gj =>
        loop 0 K (fun k1 gk => U i1 j1 k1 gk) gj) gi) t) := by
    intro R hR lo hi1 t hne ht
    exact loop_inv R lo hi1 _ t ht (fun i1 h1 h2 t1 ht1 =>
      jl R hR i1 0 M t1 (fun _ _ _ hh => hne i1 h1 h2 hh.1) ht1)
  unfold sweep
  rw [loop_split 0 i N (Nat.zero_le i) hi]
  have hA := il P hP 0 i g (fun i1 _ h2 heq => by omega) h0
  generalize loop 0 i _ g = gA at hA ⊢
  rw [loop_split 0 j M (Nat.zero_le j) hj]
  have hB := jl P hP i 0 j gA (fun j1 _ h2 heq => by omega) hA
  generalize loop 0 j _ gA = gB at hB ⊢
  rw [loop_split 0 k K (Nat.zero_le k) hk]
  have hC := kl P hP i j 0 k gB (fun k1 _ h2 heq => by omega) hB
  generalize loop 0 k _ gB = gC at hC ⊢
  have hD := kl Q hQ i j (k + 1) K _ (fun k1 h1 _ heq => by omega) (hs gC hC)
  generalize loop (k + 1) K _ (U i j k gC) = gD at hD ⊢
  have hE := jl Q hQ i (j + 1) M gD (fun j1 h1 _ heq => by omega) hD
  generalize loop (j + 1) M _ gD = gE at hE ⊢
  exact il Q hQ (i + 1) N gE (fun i1 h1 _ heq => by omega) hE


theorem setU_u (g : GridObj) (i j k d : Nat) (x : ℚ) (i1 j1 k1 d1 : Nat) :
    (g.setU i j k d x).u i1 j1 k1 d1 =
      if i1 = i ∧ j1 = j ∧ k1 = k ∧ d1 = d then x else g.u i1 j1 k1 d1 := rfl

theorem SameOutside_solid_reset_site (cfg : Config) (i j k : Nat) (g : GridObj) :
    g.SameOutside (solid_reset_site cfg i j k g) i j k := by
  unfold solid_reset_site
  simp only
  have h2 := SameOutside_trans (SameOutside_setU g i j k 0 0)
    (SameOutside_setU (g.setU i j k 0 0) i j k 1 0)
  split_ifs
  · exact SameOutside_trans h2 (SameOutside_setU _ i j k 2 0)
  · exact h2
  · exact SameOutside_refl g i j k

/-- The reset of one site changes nothing but the velocity array. -/
theorem solid_reset_site_fields (cfg : Config) (i j k : Nat) (g : GridObj) :
    (solid_reset_site cfg i j k g).f = g.f ∧ (solid_reset_site cfg i j k g).rho = g.rho ∧
      (solid_reset_site cfg i j k g).LatTyp = g.LatTyp := by
  unfold solid_reset_site
  simp only
  split_ifs <;> exact ⟨rfl, rfl, rfl⟩

/-- C12. After `bc_solid_site_reset`, every site of the grid labelled Solid
(label 0) has velocity 0 in the x and y components, and in the z component
when `dims == 3`, whatever the prior velocity field was. -/
theorem bc_solid_site_reset_zero (cfg : Config) (g : GridObj) (i j k : Nat)
    (hi : i < g.XPos.length) (hj : j < g.YPos.length) (hk : k < g.ZPos.length)
    (hsolid : g.LatTyp i j k = 0) :
    (bc_solid_site_reset cfg g).u i j k 0 = 0 ∧ (bc_solid_site_reset cfg g).u i j k 1 = 0 ∧
      (cfg.dims = 3 → (bc_solid_site_reset cfg g).u i j k 2 = 0) := by
  rw [bc_solid_site_reset_eq_sweep]
  have key := sweep_at_site (fun t => t.LatTyp = g.LatTyp)
    (fun t => t.u i j k 0 = 0 ∧ t.u i j k 1 = 0 ∧ (cfg.dims = 3 → t.u i j k 2 = 0))
    g.XPos.length g.YPos.length g.ZPos.length (solid_reset_site cfg) g i j k hi hj hk rfl
    (fun i1 j1 k1 _ t ht => (solid_reset_site_fields cfg i1 j1 k1 t).2.2.trans ht)
    (by
      intro t ht
      have hl : t.LatTyp i j k = 0 := by rw [ht]; exact hsolid
      unfold solid_reset_site
      simp only [if_pos hl]
      split_ifs with hd
      · simp [setU_u]
      · simp [setU_u, hd])
    (by
      intro i1 j1 k1 hne t ht
      obtain ⟨_, _, _, _, _, _, hu⟩ := SameOutside_solid_reset_site cfg i1 j1 k1 t
      have hne2 : ¬ (i = i1 ∧ j = j1 ∧ k = k1) := fun hh => hne ⟨hh.1.symm, hh.2.1.symm, hh.2.2.symm⟩
      rw [hu i j k 0 hne2, hu i j k 1 hne2, hu i j k 2 hne2]
      exact ht)
  exact key

theorem bc_solid_site_reset_zero_witness :
    grid3D_moving.LatTyp 1 0 1 = 0 ∧ grid3D_moving.u 1 0 1 0 ≠ 0 ∧
      ((bc_solid_site_reset cfg3D grid3D_moving).u 1 0 1 0 = 0 ∧
        (bc_solid_site_reset cfg3D grid3D_moving).u 1 0 1 1 = 0 ∧
        (cfg3D.dims = 3 → (bc_solid_site_reset cfg3D grid3D_moving).u 1 0 1 2 = 0)) :=
  ⟨by decide, by norm_num [grid3D_moving],
    bc_solid_site_reset_zero cfg3D grid3D_moving 1 0 1 (by decide) (by decide) (by decide)
      (by decide)⟩

/-- C13. `bc_solid_site_reset` leaves the density at every site, every
population, every label and the position arrays equal to their prior values,
and the velocity at every site that is not labelled Solid (label 0). -/
theorem bc_solid_site_reset_frame (cfg : Config) (g : GridObj) (i j k d : Nat) :
    (bc_solid_site_reset cfg g).rho = g.rho ∧ (bc_solid_site_reset cfg g).f = g.f ∧
      (bc_solid_site_reset cfg g).LatTyp = g.LatTyp ∧
      (bc_solid_site_reset cfg g).XPos = g.XPos ∧ (bc_solid_site_reset cfg g).YPos = g.YPos ∧
      (bc_solid_site_reset cfg g).ZPos = g.ZPos ∧
      (g.LatTyp i j k ≠ 0 → (bc_solid_site_reset cfg g).u i j k d = g.u i j k d) := by
  rw [bc_solid_site_reset_eq_sweep]
  apply sweep_inv (fun t => t.rho = g.rho ∧ t.f = g.f ∧ t.LatTyp = g.LatTyp ∧
      t.XPos = g.XPos ∧ t.YPos = g.YPos ∧ t.ZPos = g.ZPos ∧
      (g.LatTyp i j k ≠ 0 → t.u i j k d = g.u i j k d))
  · exact ⟨rfl, rfl, rfl, rfl, rfl, rfl, fun _ => rfl⟩
  · intro i1 j1 k1 _ _ _ t ⟨h1, h2, h3, h4, h5, h6, h7⟩
    obtain ⟨a1, a2, a3⟩ := solid_reset_site_fields cfg i1 j1 k1 t
    obtain ⟨b1, b2, b3, _, _, _, hu⟩ := SameOutside_solid_reset_site cfg i1 j1 k1 t
    refine ⟨a2.trans h1, a1.trans h2, a3.trans h3, b1.trans h4, b2.trans h5, b3.trans h6, ?_⟩
    intro hl
    by_cases hp : i = i1 ∧ j = j1 ∧ k = k1
    · obtain ⟨rfl, rfl, rfl⟩ := hp
      have hl2 : ¬ (t.LatTyp i j k = 0) := by rw [h3]; exact hl
      unfold solid_reset_site
      rw [if_neg hl2]
      exact h7 hl
    · rw [hu i j k d hp]; exact h7 hl

theorem bc_solid_site_reset_frame_witness :
    grid3D_moving.LatTyp 1 1 1 ≠ 0 ∧
      (bc_solid_site_reset cfg3D grid3D_moving).u 1 1 1 2 = grid3D_moving.u 1 1 1 2 ∧
      (bc_solid_site_reset cfg3D grid3D_moving).rho = grid3D_moving.rho :=
  ⟨by decide,
    (bc_solid_site_reset_frame cfg3D grid3D_moving 1 1 1 2).2.2.2.2.2.2 (by decide),
    (bc_solid_site_reset_frame cfg3D grid3D_moving 1 1 1 2).1⟩

/-! ## Macroscopic arrays -/

theorem SameAt_refl (g : GridObj) (i j k : Nat) : g.SameAt g i j k :=
  ⟨fun _ => rfl, rfl, fun _ => rfl⟩

theorem SameAt_trans {g g1 g2 : GridObj} {i j k : Nat}
    (h1 : g.SameAt g1 i j k) (h2 : g1.SameAt g2 i j k) : g.SameAt g2 i j k :=
  ⟨fun v => (h2.1 v).trans (h1.1 v), h2.2.1.trans h1.2.1, fun d => (h2.2.2 d).trans (h1.2.2 d)⟩

/-- An update that stays inside the site `(i1,j1,k1)` keeps every other site. -/
theorem SameAt_of_SameOutside {g g1 : GridObj} {i j k i1 j1 k1 : Nat}
    (h : g.SameOutside g1 i1 j1 k1) (hne : ¬ (i = i1 ∧ j = j1 ∧ k = k1)) :
    g.SameAt g1 i j k :=
  ⟨fun v => h.2.2.2.2.1 i j k v hne, h.2.2.2.2.2.1 i j k hne,
    fun d => h.2.2.2.2.2.2 i j k d hne⟩

/-- A loop of population assignments leaves the macroscopic arrays alone. -/
theorem macro_loop (g : GridObj) (lo hi : Nat) (body : Nat → GridObj → GridObj)
    (hbody : ∀ (n : Nat) (t : GridObj), (body n t).rho = t.rho ∧ (body n t).u = t.u) :
    (loop lo hi body g).rho = g.rho ∧ (loop lo hi body g).u = g.u :=
  loop_inv (fun t => t.rho = g.rho ∧ t.u = g.u) lo hi body g ⟨rfl, rfl⟩
    (fun n _ _ t ht => ⟨(hbody n t).1.trans ht.1, (hbody n t).2.trans ht.2⟩)

theorem macro_solid_step (cfg : Config) (N_lim M_lim K_lim i j k v : Nat) (g : GridObj) :
    (solid_step cfg N_lim M_lim K_lim i j k v g).rho = g.rho ∧
      (solid_step cfg N_lim M_lim K_lim i j k v g).u = g.u := by
  unfold solid_step
  simp only
  split_ifs <;> exact ⟨rfl, rfl⟩

theorem macro_solid_loop (cfg : Config) (N_lim M_lim K_lim i j k : Nat) (g : GridObj) :
    (loop 0 cfg.nVels (solid_step cfg N_lim M_lim K_lim i j k) g).rho = g.rho ∧
      (loop 0 cfg.nVels (solid_step cfg N_lim M_lim K_lim i j k) g).u = g.u :=
  macro_loop g 0 cfg.nVels _ (fun n t => macro_solid_step cfg N_lim M_lim K_lim i j k n t)

theorem macro_bc_applyZouHe (cfg : Config) (g : GridObj) (i j k : Nat) :
    (bc_applyZouHe cfg g i j k).rho = g.rho ∧ (bc_applyZouHe cfg g i j k).u = g.u :=
  macro_loop g 0 cfg.nVels _ (fun _ _ => ⟨rfl, rfl⟩)

theorem macro_bc_applyExtrapolation (cfg : Config) (g : GridObj) (i j k : Nat) :
    (bc_applyExtrapolation cfg g i j k).rho = g.rho ∧
      (bc_applyExtrapolation cfg g i j k).u = g.u := by
  unfold bc_applyExtrapolation
  split_ifs
  · apply macro_loop
    intro n t
    beta_reduce
    split_ifs <;> exact ⟨rfl, rfl⟩
  · apply macro_loop
    intro n t
    beta_reduce
    split_ifs <;> exact ⟨rfl, rfl⟩

/-- A site update touches the macroscopic arrays only through the regularised
inlet, hence only at a site labelled 7. -/
theorem macro_LBM_boundary_site (cfg : Config) (flag : Int) (N_lim M_lim K_lim i j k : Nat)
    (g : GridObj)
    (h : g.LatTyp i j k ≠ 7 ∨
      ¬ (cfg.INLET_ON ∧ ¬ cfg.INLET_DO_NOTHING ∧ cfg.INLET_REGULARISED)) :
    (LBM_boundary_site cfg flag N_lim M_lim K_lim i j k g).rho = g.rho ∧
      (LBM_boundary_site cfg flag N_lim M_lim K_lim i j k g).u = g.u := by
  unfold LBM_boundary_site
  split_ifs with h0 h7 h8
  · exact macro_solid_loop cfg N_lim M_lim K_lim i j k g
  · rcases h with h | h
    · exact absurd h7.1 h
    · unfold inlet_site
      split_ifs
      · exact macro_bc_applyZouHe cfg g i j k
      · exact ⟨rfl, rfl⟩
  · exact macro_bc_applyExtrapolation cfg g i j k
  · exact ⟨rfl, rfl⟩

/-- C20. The Solid bounce-back, the Zou-He inlet and the Outlet extrapolation
leave the density and velocity arrays as they are. Hence `LBM_boundary`, unless
built with the regularised inlet, leaves the density and velocity of every site
unchanged for every flag; and in every build it leaves them unchanged at every
site that is not labelled 7 (Inlet). -/
theorem LBM_boundary_macroscopic (cfg : Config) (flag : Int) (g : GridObj) :
    (∀ (N_lim M_lim K_lim i j k : Nat) (t : GridObj),
      (loop 0 cfg.nVels (solid_step cfg N_lim M_lim K_lim i j k) t).rho = t.rho ∧
      (loop 0 cfg.nVels (solid_step cfg N_lim M_lim K_lim i j k) t).u = t.u) ∧
    (∀ (i j k : Nat) (t : GridObj),
      (bc_applyZouHe cfg t i j k).rho = t.rho ∧ (bc_applyZouHe cfg t i j k).u = t.u) ∧
    (∀ (i j k : Nat) (t : GridObj),
      (bc_applyExtrapolation cfg t i j k).rho = t.rho ∧
      (bc_applyExtrapolation cfg t i j k).u = t.u) ∧
    (¬ (cfg.INLET_ON ∧ ¬ cfg.INLET_DO_NOTHING ∧ cfg.INLET_REGULARISED) →
      (LBM_boundary cfg flag g).rho = g.rho ∧ (LBM_boundary cfg flag g).u = g.u) ∧
    (∀ i j k : Nat, g.LatTyp i j k ≠ 7 →
      (LBM_boundary cfg flag g).rho i j k = g.rho i j k ∧
      ∀ d, (LBM_boundary cfg flag g).u i j k d = g.u i j k d) := by
  refine ⟨fun N_lim M_lim K_lim i j k t => macro_solid_loop cfg N_lim M_lim K_lim i j k t,
    fun i j k t => macro_bc_applyZouHe cfg t i j k,
    fun i j k t => macro_bc_applyExtrapolation cfg t i j k, ?_, ?_⟩
  · intro hnr
    rw [LBM_boundary_eq_sweep]
    apply sweep_inv (fun t => t.rho = g.rho ∧ t.u = g.u)
    · exact ⟨rfl, rfl⟩
    · intro i j k _ _ _ t ht
      obtain ⟨h1, h2⟩ := macro_LBM_boundary_site cfg flag g.XPos.length g.YPos.length
        g.ZPos.length i j k t (Or.inr hnr)
      exact ⟨h1.trans ht.1, h2.trans ht.2⟩
  · intro i j k hl
    rw [LBM_boundary_eq_sweep]
    have key := sweep_inv (fun t => t.LatTyp = g.LatTyp ∧ t.rho i j k = g.rho i j k ∧
        ∀ d, t.u i j k d = g.u i j k d) g.XPos.length g.YPos.length g.ZPos.length
      (LBM_boundary_site cfg flag g.XPos.length g.YPos.length g.ZPos.length) g
      ⟨rfl, rfl, fun _ => rfl⟩ (by
        intro i1 j1 k1 _ _ _ t ⟨h1, h2, h3⟩
        have hso := SameOutside_LBM_boundary_site cfg flag g.XPos.length g.YPos.length
          g.ZPos.length i1 j1 k1 t
        refine ⟨hso.2.2.2.1.trans h1, ?_⟩
        by_cases hp : i = i1 ∧ j = j1 ∧ k = k1
        · obtain ⟨rfl, rfl, rfl⟩ := hp
          obtain ⟨m1, m2⟩ := macro_LBM_boundary_site cfg flag g.XPos.length g.YPos.length
            g.ZPos.length i j k t (Or.inl (by rw [h1]; exact hl))
          rw [m1, m2]
          exact ⟨h2, h3⟩
        · obtain ⟨_, a2, a3⟩ := SameAt_of_SameOutside hso hp
          exact ⟨a2.trans h2, fun d => (a3 d).trans (h3 d)⟩)
    exact key.2

theorem LBM_boundary_macroscopic_witness :
    ¬ ((cfg2D 0).INLET_ON ∧ ¬ (cfg2D 0).INLET_DO_NOTHING ∧ (cfg2D 0).INLET_REGULARISED) ∧
      (LBM_boundary (cfg2D 0) 0 grid2D).rho = grid2D.rho ∧
      (LBM_boundary (cfg2D 0) 0 grid2D).u = grid2D.u :=
  ⟨by decide, (LBM_boundary_macroscopic (cfg2D 0) 0 grid2D).2.2.2.1 (by decide)⟩

/-! ## Outlet: which directions are extrapolated -/

/-- The populations of the outlet site after `bc_applyExtrapolation`, in closed
form: the extrapolated directions get the value of the fitted line at `2*dx`,
the others keep their value. -/
theorem bc_applyExtrapolation_f_self (cfg : Config) (g : GridObj) (i j k v : Nat) :
    (bc_applyExtrapolation cfg g i j k).f i j k v =
      if (if cfg.dims = 3 then v ∈ [1, 7, 9, 15, 16] else v ∈ [1, 5, 7]) then
        (g.f (toSize ((i : Int) - 1)) j k v - g.f (toSize ((i : Int) - 2)) j k v)
          / (cfg.dx - 0) * (2 * cfg.dx) + g.f (toSize ((i : Int) - 2)) j k v
      else g.f i j k v := by
  by_cases hd : cfg.dims = 3
  · by_cases hm : v ∈ [1, 7, 9, 15, 16]
    · rw [if_pos (show (if cfg.dims = 3 then v ∈ [1, 7, 9, 15, 16] else v ∈ [1, 5, 7]) by
        rw [if_pos hd]; exact hm)]
      unfold bc_applyExtrapolation
      simp only [if_pos hd, loop, range_1_17, List.foldl]
      simp only [List.mem_cons, List.mem_singleton, List.not_mem_nil, or_false] at hm
      rcases hm with h | h | h | h | h <;> subst h <;> simp [extrapolate, GridObj.setF]
    · rw [if_neg (show ¬ (if cfg.dims = 3 then v ∈ [1, 7, 9, 15, 16] else v ∈ [1, 5, 7]) by
        rw [if_pos hd]; exact hm)]
      unfold bc_applyExtrapolation
      simp only [if_pos hd, loop, range_1_17, List.foldl]
      simp only [List.mem_cons, List.mem_singleton, List.not_mem_nil, or_false, not_or] at hm
      simp [extrapolate, GridObj.setF, hm]
  · by_cases hm : v ∈ [1, 5, 7]
    · rw [if_pos (show (if cfg.dims = 3 then v ∈ [1, 7, 9, 15, 16] else v ∈ [1, 5, 7]) by
        rw [if_neg hd]; exact hm)]
      unfold bc_applyExtrapolation
      simp only [if_neg hd, loop, range_1_8, List.foldl]
      simp only [List.mem_cons, List.mem_singleton, List.not_mem_nil, or_false] at hm
      rcases hm with h | h | h <;> subst h <;> simp [extrapolate, GridObj.setF]
    · rw [if_neg (show ¬ (if cfg.dims = 3 then v ∈ [1, 7, 9, 15, 16] else v ∈ [1, 5, 7]) by
        rw [if_neg hd]; exact hm)]
      unfold bc_applyExtrapolation
      simp only [if_neg hd, loop, range_1_8, List.foldl]
      simp only [List.mem_cons, List.mem_singleton, List.not_mem_nil, or_false, not_or] at hm
      simp [extrapolate, GridObj.setF, hm]

theorem c_D3Q19_x_neg (v : Nat) : c_D3Q19 0 v = -1 ↔ v ∈ [1, 7, 9, 15, 16] := by
  unfold c_D3Q19
  simp only [List.mem_cons, List.mem_singleton, List.not_mem_nil, or_false]
  split_ifs with h1 h2
  · constructor <;> intro h
    · exact absurd h (by decide)
    · omega
  · exact ⟨fun _ => h2, fun _ => rfl⟩
  · constructor <;> intro h
    · exact absurd h (by decide)
    · exact absurd h h2

theorem c_D2Q9_x_neg (v : Nat) : c_D2Q9 0 v = -1 ↔ v ∈ [1, 5, 7] := by
  unfold c_D2Q9
  simp only [List.mem_cons, List.mem_singleton, List.not_mem_nil, or_false]
  split_ifs with h1 h2
  · constructor <;> intro h
    · exact absurd h (by decide)
    · omega
  · exact ⟨fun _ => by omega, fun _ => rfl⟩
  · constructor <;> intro h
    · exact absurd h (by decide)
    · omega

/-- C11 (amended). With the direction vectors read off the moment equations of
`bc_applyZouHe`, the directions `bc_applyExtrapolation` overwrites, {1,7,9,15,16}
in 3D and {1,5,7} in 2D, are exactly the directions whose x-component is `-1`:
they point into the domain across the right-hand outlet face, against its
outward normal `+x`. At an outlet site with `i >= 2` and `dx != 0` each of them
receives `2*f(i-1) - f(i-2)`, and every other direction keeps its population. -/
theorem bc_applyExtrapolation_directions (cfg : Config) (g : GridObj) (i j k v : Nat)
    (hl : (cfg.dims = 3 ∧ cfg.c = c_D3Q19) ∨ (cfg.dims ≠ 3 ∧ cfg.c = c_D2Q9))
    (hi : 2 ≤ i) (hi64 : i < 2 ^ 64) (hdx : cfg.dx ≠ 0) :
    ((if cfg.dims = 3 then v ∈ [1, 7, 9, 15, 16] else v ∈ [1, 5, 7]) ↔ cfg.c 0 v = -1) ∧
    (cfg.c 0 v = -1 → (bc_applyExtrapolation cfg g i j k).f i j k v
        = 2 * g.f (i - 1) j k v - g.f (i - 2) j k v) ∧
    (cfg.c 0 v ≠ -1 → (bc_applyExtrapolation cfg g i j k).f i j k v = g.f i j k v) := by
  have h1 : toSize ((i : Int) - 1) = i - 1 := toSize_sub i 1 (by omega) hi64
  have h2 : toSize ((i : Int) - 2) = i - 2 := toSize_sub i 2 (by omega) hi64
  have hiff : (if cfg.dims = 3 then v ∈ [1, 7, 9, 15, 16] else v ∈ [1, 5, 7]) ↔
      cfg.c 0 v = -1 := by
    rcases hl with ⟨hd, hc⟩ | ⟨hd, hc⟩
    · rw [if_pos hd, hc]; exact (c_D3Q19_x_neg v).symm
    · rw [if_neg hd, hc]; exact (c_D2Q9_x_neg v).symm
  refine ⟨hiff, ?_, ?_⟩
  · intro hc
    rw [bc_applyExtrapolation_f_self, if_pos (hiff.mpr hc), h1, h2]
    field_simp
    ring
  · intro hc
    rw [bc_applyExtrapolation_f_self, if_neg (fun hm => hc (hiff.mp hm))]

theorem bc_applyExtrapolation_directions_witness :
    ((cfg3D.dims = 3 ∧ cfg3D.c = c_D3Q19) ∨ (cfg3D.dims ≠ 3 ∧ cfg3D.c = c_D2Q9)) ∧
      cfg3D.c 0 9 = -1 ∧
      (bc_applyExtrapolation cfg3D grid3D 2 1 1).f 2 1 1 9
        = 2 * grid3D.f (2 - 1) 1 1 9 - grid3D.f (2 - 2) 1 1 9 :=
  ⟨Or.inl ⟨rfl, rfl⟩, by decide,
    (bc_applyExtrapolation_directions cfg3D grid3D 2 1 1 9 (Or.inl ⟨rfl, rfl⟩) (by decide)
      (by decide) (by norm_num [cfg3D])).2.1 (by decide)⟩

/-- C11 (counterexample). In 3D, direction 1 has x-component `-1`, so it does
not point out of the domain across the outlet face (outward normal `+x`), yet
`bc_applyExtrapolation` overwrites it; direction 0 has x-component `+1`, so it
does point out of the domain, yet it is left unchanged. -/
theorem bc_applyExtrapolation_not_outward :
    c_D3Q19 0 1 = -1 ∧
      (bc_applyExtrapolation cfg3D grid3D 2 1 1).f 2 1 1 1 ≠ grid3D.f 2 1 1 1 ∧
      c_D3Q19 0 0 = 1 ∧
      (bc_applyExtrapolation cfg3D grid3D 2 1 1).f 2 1 1 0 = grid3D.f 2 1 1 0 ∧
      ¬ (∀ v, v < 19 → (v ∈ [1, 7, 9, 15, 16] ↔ 0 < c_D3Q19 0 v)) := by
  refine ⟨by decide, ?_, by decide, ?_, ?_⟩
  · rw [bc_applyExtrapolation_f_self]
    have h1 : toSize (((2 : Nat) : Int) - 1) = 1 := by decide
    have h2 : toSize (((2 : Nat) : Int) - 2) = 0 := by decide
    rw [h1, h2]
    norm_num [cfg3D, grid3D]
  · rw [bc_applyExtrapolation_f_self]
    simp [cfg3D]
  · intro h
    exact absurd ((h 1 (by decide)).mp (by decide)) (by decide)

/-! ## Wall density: the divisor -/

/-- C19 (amended). For every prescribed inlet velocity with `u_0x != 1` and
every population input, the divisor `1 - u_0x` of the wall-density computations
of `bc_applyZouHe` and `bc_applyRegularised` is not zero, and each computed
wall density solves the density equation `rho * (1 - u_0x) = (known sum)`. -/
theorem wall_density_well_defined (cfg : Config) (ftmp : List ℚ) (hu : cfg.u_0x ≠ 1) :
    1 - cfg.u_0x ≠ 0 ∧
    rho_w_3D cfg ftmp * (1 - cfg.u_0x) =
      (rd ftmp 18 + rd ftmp 2 + rd ftmp 3 + rd ftmp 4 + rd ftmp 5 + rd ftmp 10
        + rd ftmp 11 + rd ftmp 12 + rd ftmp 13)
      + 2 * (rd ftmp 1 + rd ftmp 7 + rd ftmp 9 + rd ftmp 15 + rd ftmp 16) ∧
    rho_w_2D cfg ftmp * (1 - cfg.u_0x) =
      rd ftmp 8 + rd ftmp 2 + rd ftmp 3 + 2 * (rd ftmp 7 + rd ftmp 1 + rd ftmp 5) ∧
    rho_wall_3D cfg ftmp * (1 - cfg.u_0x) =
      rd ftmp 2 + rd ftmp 3 + rd ftmp 4 + rd ftmp 5 + rd ftmp 10 + rd ftmp 11
        + rd ftmp 12 + rd ftmp 13 + rd ftmp 18
      + 2 * (rd ftmp 1 + rd ftmp 7 + rd ftmp 9 + rd ftmp 15 + rd ftmp 16) ∧
    rho_wall_2D cfg ftmp * (1 - cfg.u_0x) =
      rd ftmp 2 + rd ftmp 3 + rd ftmp 8 + 2 * (rd ftmp 1 + rd ftmp 5 + rd ftmp 7) := by
  have hne : (1 - cfg.u_0x) ≠ 0 := fun h => hu (by linarith)
  refine ⟨hne, ?_, ?_, ?_, ?_⟩
  · unfold rho_w_3D; field_simp
  · unfold rho_w_2D; field_simp
  · unfold rho_wall_3D; field_simp
  · unfold rho_wall_2D; field_simp

theorem wall_density_well_defined_witness :
    (cfg2D 0).u_0x ≠ 1 ∧ 1 - (cfg2D 0).u_0x ≠ 0 ∧
      rho_w_2D (cfg2D 0) (ftmp_init (cfg2D 0) grid2D 0 1 0) * (1 - (cfg2D 0).u_0x) =
        rd (ftmp_init (cfg2D 0) grid2D 0 1 0) 8 + rd (ftmp_init (cfg2D 0) grid2D 0 1 0) 2
        + rd (ftmp_init (cfg2D 0) grid2D 0 1 0) 3
        + 2 * (rd (ftmp_init (cfg2D 0) grid2D 0 1 0) 7 + rd (ftmp_init (cfg2D 0) grid2D 0 1 0) 1
          + rd (ftmp_init (cfg2D 0) grid2D 0 1 0) 5) :=
  ⟨by norm_num [cfg2D],
    (wall_density_well_defined (cfg2D 0) (ftmp_init (cfg2D 0) grid2D 0 1 0)
      (by norm_num [cfg2D])).1,
    (wall_density_well_defined (cfg2D 0) (ftmp_init (cfg2D 0) grid2D 0 1 0)
      (by norm_num [cfg2D])).2.2.1⟩

/-- C19 (counterexample). With the prescribed velocity `u_0x = 1` the divisor
`1 - u_0x` of the wall-density computation is zero: for the spec's example
populations (known sum 107/100) no density solves `rho * (1 - u_0x) = 107/100`,
and the density computed by the 2D Zou-He block does not. -/
theorem wall_density_divides_by_zero :
    1 - cfg2D_unit.u_0x = 0 ∧
    (rd (ftmp_init cfg2D_unit grid2D 0 1 0) 8 + rd (ftmp_init cfg2D_unit grid2D 0 1 0) 2
      + rd (ftmp_init cfg2D_unit grid2D 0 1 0) 3
      + 2 * (rd (ftmp_init cfg2D_unit grid2D 0 1 0) 7 + rd (ftmp_init cfg2D_unit grid2D 0 1 0) 1
        + rd (ftmp_init cfg2D_unit grid2D 0 1 0) 5) = 107 / 100) ∧
    (∀ rho : ℚ, rho * (1 - cfg2D_unit.u_0x) ≠ 107 / 100) ∧
    rho_w_2D cfg2D_unit (ftmp_init cfg2D_unit grid2D 0 1 0) * (1 - cfg2D_unit.u_0x)
      ≠ 107 / 100 := by
  have h0 : 1 - cfg2D_unit.u_0x = 0 := by norm_num [cfg2D_unit]
  refine ⟨h0, ?_, ?_, ?_⟩
  · rw [ftmp_init_eq]
    have hn : cfg2D_unit.nVels = 9 := rfl
    rw [hn, range_9]
    norm_num [rd, grid2D]
  · intro rho
    rw [h0]; norm_num
  · rw [h0]; norm_num

/-! ## Regularised inlet: off-equilibrium formula -/

theorem rd_set (l : List ℚ) (m v : Nat) (x : ℚ) :
    rd (l.set m x) v = if m = v ∧ v < l.length then x else rd l v := by
  unfold rd
  rw [List.getD_eq_getElem?_getD, List.getD_eq_getElem?_getD, List.getElem?_set]
  by_cases h : m = v
  · subst h
    by_cases hl : m < l.length
    · simp [hl]
    · simp [hl, List.getElem?_eq_none (Nat.le_of_not_lt hl)]
  · simp [h]

theorem set_loop_length (n : Nat) (F : Nat → ℚ) (l0 : List ℚ) :
    (loop 0 n (fun i l => l.set i (F i)) l0).length = l0.length :=
  loop_inv (fun l => l.length = l0.length) 0 n _ l0 rfl
    (fun i _ _ l hl => by
      show (l.set i (F i)).length = l0.length
      rw [List.length_set]; exact hl)

/-- A loop `for i < n: ftmp[i] = F i` leaves `F v` at every index `v < n` of
the vector. -/
theorem rd_set_loop (n v : Nat) (F : Nat → ℚ) (l0 : List ℚ) :
    rd (loop 0 n (fun i l => l.set i (F i)) l0) v =
      if v < n ∧ v < l0.length then F v else rd l0 v := by
  induction n with
  | zero => simp [loop_zero_zero]
  | succ n ih =>
    rw [loop_zero_succ, rd_set, ih, set_loop_length]
    by_cases h1 : n = v
    · subst h1
      by_cases h2 : n < l0.length
      · simp [h2]
      · simp [h2]
    · by_cases h2 : v < n
      · have h3 : v < n + 1 := by omega
        simp [h1, h2, h3]
      · have h3 : ¬ v < n + 1 := by omega
        simp [h1, h2, h3]

theorem ftmp_init_length (cfg : Config) (g : GridObj) (i j k : Nat) :
    (ftmp_init cfg g i j k).length = cfg.nVels := by
  rw [ftmp_init_eq]; simp

theorem spec_neq_3D (cfg : Config) (Sxx Syy Szz Sxy Sxz Syz : ℚ) (v : Nat) :
    spec_neq cfg 3 (tensor_3D Sxx Syy Szz Sxy Sxz Syz) v =
      neq_3D cfg Sxx Syy Szz Sxy Sxz Syz v := by
  simp only [spec_neq, neq_3D, spec_Q, tensor_3D, Finset.sum_range_succ,
    Finset.sum_range_zero]
  simp only [Nat.reduceEqDiff, reduceIte, OfNat.ofNat_ne_zero, OfNat.zero_ne_ofNat,
    zero_ne_one, one_ne_zero, OfNat.ofNat_ne_one, OfNat.one_ne_ofNat]
  ring

theorem spec_neq_2D (cfg : Config) (Sxx Sxy Syy : ℚ) (v : Nat) :
    spec_neq cfg 2 (tensor_2D Sxx Sxy Syy) v = neq_2D cfg Sxx Sxy Syy v := by
  simp only [spec_neq, neq_2D, spec_Q, tensor_2D, Finset.sum_range_succ,
    Finset.sum_range_zero]
  simp only [Nat.reduceEqDiff, reduceIte, OfNat.ofNat_ne_zero, OfNat.zero_ne_ofNat,
    zero_ne_one, one_ne_zero, OfNat.ofNat_ne_one, OfNat.one_ne_ofNat]
  ring

/-- C16. For every direction `v < nVels` and every value of the tensor
components, the value the loop of `bc_applyRegularised` stores in `ftmp[v]` is
`(w_v / (2 cs^4)) * sum over a, b of Q_v,ab * Pi_ab`, with
`Q_v,ab = c_v,a c_v,b - cs^2 delta_ab` and `Pi` the symmetric tensor with the
given entries (3 x 3 in 3D, 2 x 2 in 2D); in particular for the components the
routine computes itself. -/
theorem bc_applyRegularised_neq_formula (cfg : Config) (ftmp0 : List ℚ) (v : Nat)
    (Sxx Syy Szz Sxy Sxz Syz : ℚ) (hlen : ftmp0.length = cfg.nVels) (hv : v < cfg.nVels) :
    rd (regularised_loop_3D cfg Sxx Syy Szz Sxy Sxz Syz ftmp0) v
      = spec_neq cfg 3 (tensor_3D Sxx Syy Szz Sxy Sxz Syz) v ∧
    rd (regularised_loop_2D cfg Sxx Sxy Syy ftmp0) v
      = spec_neq cfg 2 (tensor_2D Sxx Sxy Syy) v ∧
    rd (regularised3D cfg ftmp0).2 v
      = spec_neq cfg 3 (tensor_3D (Sxx_3D cfg ftmp0) (Syy_3D cfg ftmp0) (Szz_3D cfg ftmp0)
          (Sxy_3D ftmp0) (Sxz_3D ftmp0) (Syz_3D ftmp0)) v ∧
    rd (regularised2D cfg ftmp0).2 v
      = spec_neq cfg 2 (tensor_2D (Sxx_2D cfg ftmp0) (Sxy_2D ftmp0) (Syy_2D cfg ftmp0)) v := by
  have hv2 : v < cfg.nVels ∧ v < ftmp0.length := ⟨hv, by rw [hlen]; exact hv⟩
  refine ⟨?_, ?_, ?_, ?_⟩
  · unfold regularised_loop_3D
    rw [rd_set_loop, if_pos hv2, spec_neq_3D]
  · unfold regularised_loop_2D
    rw [rd_set_loop, if_pos hv2, spec_neq_2D]
  · unfold regularised3D regularised_loop_3D
    rw [rd_set_loop, if_pos hv2, spec_neq_3D]
  · unfold regularised2D regularised_loop_2D
    rw [rd_set_loop, if_pos hv2, spec_neq_2D]

theorem bc_applyRegularised_neq_formula_witness :
    (ftmp_init cfg3D_reg grid3D 0 1 1).length = cfg3D_reg.nVels ∧ 7 < cfg3D_reg.nVels ∧
      rd (regularised_loop_3D cfg3D_reg 1 2 3 4 5 6 (ftmp_init cfg3D_reg grid3D 0 1 1)) 7
        = spec_neq cfg3D_reg 3 (tensor_3D 1 2 3 4 5 6) 7 :=
  ⟨ftmp_init_length cfg3D_reg grid3D 0 1 1, by decide,
    (bc_applyRegularised_neq_formula cfg3D_reg (ftmp_init cfg3D_reg grid3D 0 1 1) 7
      1 2 3 4 5 6 (ftmp_init_length cfg3D_reg grid3D 0 1 1) (by decide)).1⟩

/-! ## Regularised inlet: postcondition -/

/-- A loop `for v < N: f(i,j,k,v) = F(current grid, v)` stores at `v < N` the
value `F` had on the grid reached after the first `v` passes. -/
theorem loop_setF_f (i j k N v : Nat) (F : GridObj → Nat → ℚ) (g : GridObj) :
    (loop 0 N (fun n acc => acc.setF i j k n (F acc n)) g).f i j k v =
      if v < N then F (loop 0 v (fun n acc => acc.setF i j k n (F acc n)) g) v
      else g.f i j k v := by
  induction N with
  | zero => simp [loop_zero_zero]
  | succ N ih =>
    rw [loop_zero_succ, setF_f]
    by_cases h1 : v = N
    · subst h1
      simp
    · rw [if_neg (fun hh => h1 hh.2.2.2), ih]
      by_cases h2 : v < N
      · rw [if_pos h2, if_pos (by omega)]
      · rw [if_neg h2, if_neg (by omega)]

theorem setRho_rho (g : GridObj) (i j k : Nat) (x : ℚ) (i1 j1 k1 : Nat) :
    (g.setRho i j k x).rho i1 j1 k1 =
      if i1 = i ∧ j1 = j ∧ k1 = k then x else g.rho i1 j1 k1 := rfl

theorem bc_applyRegularised_eq_3D (cfg : Config) (g : GridObj) (i j k : Nat)
    (hd : cfg.dims = 3) :
    bc_applyRegularised cfg g i j k =
      loop 0 cfg.nVels (fun v acc => acc.setF i j k v (cfg.LBM_collide acc i j k v +
          rd (regularised3D cfg (ftmp_init cfg g i j k)).2 v))
        ((((g.setRho i j k (regularised3D cfg (ftmp_init cfg g i j k)).1).setU
          i j k 0 cfg.u_0x).setU i j k 1 cfg.u_0y).setU i j k 2 cfg.u_0z) := by
  unfold bc_applyRegularised
  simp only [if_pos hd]

theorem bc_applyRegularised_eq_2D (cfg : Config) (g : GridObj) (i j k : Nat)
    (hd : ¬ cfg.dims = 3) :
    bc_applyRegularised cfg g i j k =
      loop 0 cfg.nVels (fun v acc => acc.setF i j k v (cfg.LBM_collide acc i j k v +
          rd (regularised2D cfg (ftmp_init cfg g i j k)).2 v))
        (((g.setRho i j k (regularised2D cfg (ftmp_init cfg g i j k)).1).setU
          i j k 0 cfg.u_0x).setU i j k 1 cfg.u_0y) := by
  unfold bc_applyRegularised
  simp only [if_neg hd]

/-- The macroscopic values of the inlet site after `bc_applyRegularised`. -/
theorem bc_applyRegularised_macro (cfg : Config) (g : GridObj) (i j k : Nat) :
    (bc_applyRegularised cfg g i j k).rho i j k =
      (if cfg.dims = 3 then rho_wall_3D cfg (ftmp_init cfg g i j k)
        else rho_wall_2D cfg (ftmp_init cfg g i j k)) ∧
    ∀ d, (bc_applyRegularised cfg g i j k).u i j k d =
      if d = 0 then cfg.u_0x else if d = 1 then cfg.u_0y
      else if d = 2 ∧ cfg.dims = 3 then cfg.u_0z else g.u i j k d := by
  by_cases hd : cfg.dims = 3
  · rw [bc_applyRegularised_eq_3D cfg g i j k hd]
    obtain ⟨hr, hu⟩ := macro_loop
      ((((g.setRho i j k (regularised3D cfg (ftmp_init cfg g i j k)).1).setU
          i j k 0 cfg.u_0x).setU i j k 1 cfg.u_0y).setU i j k 2 cfg.u_0z) 0 cfg.nVels
      (fun v acc => acc.setF i j k v (cfg.LBM_collide acc i j k v +
          rd (regularised3D cfg (ftmp_init cfg g i j k)).2 v)) (fun _ _ => ⟨rfl, rfl⟩)
    rw [hr, hu, if_pos hd]
    refine ⟨by simp [GridObj.setU, GridObj.setRho, regularised3D], ?_⟩
    intro d
    simp only [setU_u, true_and]
    by_cases h0 : d = 0
    · simp [h0]
    · by_cases h1 : d = 1
      · simp [h1]
      · by_cases h2 : d = 2
        · simp [h2, hd]
        · simp [h0, h1, h2, GridObj.setRho]
  · rw [bc_applyRegularised_eq_2D cfg g i j k hd]
    obtain ⟨hr, hu⟩ := macro_loop
      (((g.setRho i j k (regularised2D cfg (ftmp_init cfg g i j k)).1).setU
          i j k 0 cfg.u_0x).setU i j k 1 cfg.u_0y) 0 cfg.nVels
      (fun v acc => acc.setF i j k v (cfg.LBM_collide acc i j k v +
          rd (regularised2D cfg (ftmp_init cfg g i j k)).2 v)) (fun _ _ => ⟨rfl, rfl⟩)
    rw [hr, hu, if_neg hd]
    refine ⟨by simp [GridObj.setU, GridObj.setRho, regularised2D], ?_⟩
    intro d
    simp only [setU_u, true_and]
    by_cases h0 : d = 0
    · simp [h0]
    · by_cases h1 : d = 1
      · simp [h1]
      · simp [h0, h1, hd, GridObj.setRho]

/-- The final loop of `bc_applyRegularised`, started from `g4`: each population
`v < nVels` of the site receives the external equilibrium, evaluated on a grid
with the macroscopic arrays of `g4`, plus `ftmp[v]`. -/
theorem regularised_final_loop_f (cfg : Config) (ftmp : List ℚ) (g4 : GridObj)
    (i j k v : Nat) :
    ∃ acc : GridObj, acc.rho = g4.rho ∧ acc.u = g4.u ∧
      (loop 0 cfg.nVels (fun v acc => acc.setF i j k v (cfg.LBM_collide acc i j k v +
          rd ftmp v)) g4).f i j k v =
        if v < cfg.nVels then cfg.LBM_collide acc i j k v + rd ftmp v else g4.f i j k v := by
  have hm := macro_loop g4 0 v
    (fun v acc => acc.setF i j k v (cfg.LBM_collide acc i j k v + rd ftmp v))
    (fun _ _ => ⟨rfl, rfl⟩)
  refine ⟨loop 0 v (fun v acc => acc.setF i j k v (cfg.LBM_collide acc i j k v + rd ftmp v)) g4,
    hm.1, hm.2, ?_⟩
  rw [loop_setF_f i j k cfg.nVels v (fun acc n => cfg.LBM_collide acc i j k n + rd ftmp n) g4]

/-- The populations of the inlet site after `bc_applyRegularised`: the external
equilibrium, evaluated on a grid that already carries the macroscopic arrays of
the result, plus the regularised `ftmp[v]`. -/
theorem bc_applyRegularised_f_self (cfg : Config) (g : GridObj) (i j k v : Nat) :
    ∃ acc : GridObj, acc.rho = (bc_applyRegularised cfg g i j k).rho ∧
      acc.u = (bc_applyRegularised cfg g i j k).u ∧
      (bc_applyRegularised cfg g i j k).f i j k v =
        if v < cfg.nVels then
          cfg.LBM_collide acc i j k v +
            rd (if cfg.dims = 3 then regularised3D cfg (ftmp_init cfg g i j k)
              else regularised2D cfg (ftmp_init cfg g i j k)).2 v
        else g.f i j k v := by
  by_cases hd : cfg.dims = 3
  · rw [bc_applyRegularised_eq_3D cfg g i j k hd, if_pos hd]
    obtain ⟨acc, h1, h2, h3⟩ := regularised_final_loop_f cfg
      (regularised3D cfg (ftmp_init cfg g i j k)).2
      ((((g.setRho i j k (regularised3D cfg (ftmp_init cfg g i j k)).1).setU
          i j k 0 cfg.u_0x).setU i j k 1 cfg.u_0y).setU i j k 2 cfg.u_0z) i j k v
    obtain ⟨m1, m2⟩ := macro_loop
      ((((g.setRho i j k (regularised3D cfg (ftmp_init cfg g i j k)).1).setU
          i j k 0 cfg.u_0x).setU i j k 1 cfg.u_0y).setU i j k 2 cfg.u_0z) 0 cfg.nVels
      (fun v acc => acc.setF i j k v (cfg.LBM_collide acc i j k v +
          rd (regularised3D cfg (ftmp_init cfg g i j k)).2 v)) (fun _ _ => ⟨rfl, rfl⟩)
    exact ⟨acc, h1.trans m1.symm, h2.trans m2.symm, h3⟩
  · rw [bc_applyRegularised_eq_2D cfg g i j k hd, if_neg hd]
    obtain ⟨acc, h1, h2, h3⟩ := regularised_final_loop_f cfg
      (regularised2D cfg (ftmp_init cfg g i j k)).2
      (((g.setRho i j k (regularised2D cfg (ftmp_init cfg g i j k)).1).setU
          i j k 0 cfg.u_0x).setU i j k 1 cfg.u_0y) i j k v
    obtain ⟨m1, m2⟩ := macro_loop
      (((g.setRho i j k (regularised2D cfg (ftmp_init cfg g i j k)).1).setU
          i j k 0 cfg.u_0x).setU i j k 1 cfg.u_0y) 0 cfg.nVels
      (fun v acc => acc.setF i j k v (cfg.LBM_collide acc i j k v +
          rd (regularised2D cfg (ftmp_init cfg g i j k)).2 v)) (fun _ _ => ⟨rfl, rfl⟩)
    exact ⟨acc, h1.trans m1.symm, h2.trans m2.symm, h3⟩

/-- The sample equilibrium reads only the density and velocity of the site. -/
theorem sample_collide_local (c : Nat → Nat → Int) (w : Nat → ℚ) (t1 t2 : GridObj)
    (i j k v : Nat) (hr : t1.rho i j k = t2.rho i j k)
    (hu : ∀ d, t1.u i j k d = t2.u i j k d) :
    sample_collide c w t1 i j k v = sample_collide c w t2 i j k v := by
  unfold sample_collide
  rw [hr, hu 0, hu 1, hu 2]

/-- C17. After `bc_applyRegularised` at site `(i,j,k)` with `u_0x != 1`, for an
external equilibrium that reads only the density and velocity of the site: the
density of the site is the computed `rho_wall` (the solution of
`rho_wall * (1 - u_0x) = known sum`), its velocity is the prescribed
`(u_0x, u_0y)` and `u_0z` in 3D, and every population `v < nVels` is the
equilibrium evaluated on these overwritten values plus the regularised
off-equilibrium value. -/
theorem bc_applyRegularised_post (cfg : Config) (g : GridObj) (i j k : Nat)
    (hu : cfg.u_0x ≠ 1)
    (hcol : ∀ (t1 t2 : GridObj) (v : Nat), t1.rho i j k = t2.rho i j k →
      (∀ d, t1.u i j k d = t2.u i j k d) →
      cfg.LBM_collide t1 i j k v = cfg.LBM_collide t2 i j k v) :
    ((bc_applyRegularised cfg g i j k).rho i j k =
      (if cfg.dims = 3 then rho_wall_3D cfg (ftmp_init cfg g i j k)
        else rho_wall_2D cfg (ftmp_init cfg g i j k))) ∧
    ((if cfg.dims = 3 then rho_wall_3D cfg (ftmp_init cfg g i j k)
        else rho_wall_2D cfg (ftmp_init cfg g i j k)) * (1 - cfg.u_0x) =
      (if cfg.dims = 3 then
        rd (ftmp_init cfg g i j k) 2 + rd (ftmp_init cfg g i j k) 3
          + rd (ftmp_init cfg g i j k) 4 + rd (ftmp_init cfg g i j k) 5
          + rd (ftmp_init cfg g i j k) 10 + rd (ftmp_init cfg g i j k) 11
          + rd (ftmp_init cfg g i j k) 12 + rd (ftmp_init cfg g i j k) 13
          + rd (ftmp_init cfg g i j k) 18
          + 2 * (rd (ftmp_init cfg g i j k) 1 + rd (ftmp_init cfg g i j k) 7
            + rd (ftmp_init cfg g i j k) 9 + rd (ftmp_init cfg g i j k) 15
            + rd (ftmp_init cfg g i j k) 16)
      else
        rd (ftmp_init cfg g i j k) 2 + rd (ftmp_init cfg g i j k) 3
          + rd (ftmp_init cfg g i j k) 8
          + 2 * (rd (ftmp_init cfg g i j k) 1 + rd (ftmp_init cfg g i j k) 5
            + rd (ftmp_init cfg g i j k) 7))) ∧
    (bc_applyRegularised cfg g i j k).u i j k 0 = cfg.u_0x ∧
    (bc_applyRegularised cfg g i j k).u i j k 1 = cfg.u_0y ∧
    (cfg.dims = 3 → (bc_applyRegularised cfg g i j k).u i j k 2 = cfg.u_0z) ∧
    (∀ v, v < cfg.nVels →
      (bc_applyRegularised cfg g i j k).f i j k v =
        cfg.LBM_collide (bc_applyRegularised cfg g i j k) i j k v +
          (if cfg.dims = 3 then
            spec_neq cfg 3 (tensor_3D (Sxx_3D cfg (ftmp_init cfg g i j k))
              (Syy_3D cfg (ftmp_init cfg g i j k)) (Szz_3D cfg (ftmp_init cfg g i j k))
              (Sxy_3D (ftmp_init cfg g i j k)) (Sxz_3D (ftmp_init cfg g i j k))
              (Syz_3D (ftmp_init cfg g i j k))) v
          else
            spec_neq cfg 2 (tensor_2D (Sxx_2D cfg (ftmp_init cfg g i j k))
              (Sxy_2D (ftmp_init cfg g i j k)) (Syy_2D cfg (ftmp_init cfg g i j k))) v)) := by
  have hne : (1 - cfg.u_0x) ≠ 0 := fun h => hu (by linarith)
  obtain ⟨hrho, hvel⟩ := bc_applyRegularised_macro cfg g i j k
  refine ⟨hrho, ?_, ?_, ?_, ?_, ?_⟩
  · split_ifs
    · unfold rho_wall_3D; field_simp
    · unfold rho_wall_2D; field_simp
  · rw [hvel 0]; simp
  · rw [hvel 1]; simp
  · intro hd
    rw [hvel 2]; simp [hd]
  · intro v hv
    obtain ⟨acc, ha1, ha2, hf⟩ := bc_applyRegularised_f_self cfg g i j k v
    rw [hf, if_pos hv, hcol acc (bc_applyRegularised cfg g i j k) v (by rw [ha1])
      (fun d => by rw [ha2])]
    have hv2 : v < cfg.nVels ∧ v < (ftmp_init cfg g i j k).length :=
      ⟨hv, by rw [ftmp_init_length]; exact hv⟩
    split_ifs
    · unfold regularised3D regularised_loop_3D
      rw [rd_set_loop, if_pos hv2, spec_neq_3D]
    · unfold regularised2D regularised_loop_2D
      rw [rd_set_loop, if_pos hv2, spec_neq_2D]

theorem bc_applyRegularised_post_witness :
    (cfg2D_reg 0).u_0x ≠ 1 ∧
      (bc_applyRegularised (cfg2D_reg 0) grid2D 0 1 0).rho 0 1 0 =
        (if (cfg2D_reg 0).dims = 3 then
          rho_wall_3D (cfg2D_reg 0) (ftmp_init (cfg2D_reg 0) grid2D 0 1 0)
        else rho_wall_2D (cfg2D_reg 0) (ftmp_init (cfg2D_reg 0) grid2D 0 1 0)) ∧
      (bc_applyRegularised (cfg2D_reg 0) grid2D 0 1 0).u 0 1 0 0 = (cfg2D_reg 0).u_0x :=
  ⟨by norm_num [cfg2D_reg, cfg2D],
    (bc_applyRegularised_post (cfg2D_reg 0) grid2D 0 1 0 (by norm_num [cfg2D_reg, cfg2D])
      (fun t1 t2 v hr hu => sample_collide_local c_D2Q9 w_D2Q9 t1 t2 0 1 0 v hr hu)).1,
    (bc_applyRegularised_post (cfg2D_reg 0) grid2D 0 1 0 (by norm_num [cfg2D_reg, cfg2D])
      (fun t1 t2 v hr hu => sample_collide_local c_D2Q9 w_D2Q9 t1 t2 0 1 0 v hr hu)).2.2.1⟩

/-! ## Regularised inlet: the momentum-flux tensor -/

theorem getOpposite_9_unknown :
    getOpposite 9 0 = 1 ∧ getOpposite 9 4 = 5 ∧ getOpposite 9 6 = 7 := by decide

theorem getOpposite_19_unknown :
    getOpposite 19 0 = 1 ∧ getOpposite 19 6 = 7 ∧ getOpposite 19 8 = 9 ∧
      getOpposite 19 14 = 15 ∧ getOpposite 19 17 = 16 := by decide

set_option maxHeartbeats 1000000 in
/-- The closed-form tensor of the 2D regularised block against the spec's
definition, for the 9-direction set: `Sxx` agrees, `Sxy` and `Syy` differ by the
terms in the transverse velocity `u_0y` that the block leaves out. -/
theorem regularised_tensor_2D (cfg : Config) (ftmp : List ℚ)
    (hc : cfg.c = c_D2Q9) (hw : cfg.w = w_D2Q9) (hd : ¬ cfg.dims = 3) (hn : cfg.nVels = 9) :
    spec_Pi cfg ftmp (rho_wall_2D cfg ftmp) 0 0 = Sxx_2D cfg ftmp ∧
    spec_Pi cfg ftmp (rho_wall_2D cfg ftmp) 0 1 =
      Sxy_2D ftmp + rho_wall_2D cfg ftmp * cfg.u_0y * (1 / 3 - cfg.u_0x) ∧
    spec_Pi cfg ftmp (rho_wall_2D cfg ftmp) 1 1 =
      Syy_2D cfg ftmp - rho_wall_2D cfg ftmp * cfg.u_0y ^ 2 := by
  obtain ⟨o0, o4, o6⟩ := getOpposite_9_unknown
  simp only [spec_Pi, Sxx_2D, Sxy_2D, Syy_2D]
  generalize rho_wall_2D cfg ftmp = r
  simp only [hn, Finset.sum_range_succ, Finset.sum_range_zero, spec_f_neq, if_neg hd,
    spec_feq, hc, hw, o0, o4, o6]
  refine ⟨?_, ?_, ?_⟩ <;>
  · simp [c_D2Q9, w_D2Q9]
    ring

set_option maxHeartbeats 4000000 in
/-- The closed-form tensor of the 3D regularised block against the spec's
definition, for the 19-direction set: `Sxx` agrees, the other five components
differ by the terms in the transverse velocity `(u_0y, u_0z)` that the block
leaves out. -/
theorem regularised_tensor_3D (cfg : Config) (ftmp : List ℚ)
    (hc : cfg.c = c_D3Q19) (hw : cfg.w = w_D3Q19) (hd : cfg.dims = 3) (hn : cfg.nVels = 19) :
    spec_Pi cfg ftmp (rho_wall_3D cfg ftmp) 0 0 = Sxx_3D cfg ftmp ∧
    spec_Pi cfg ftmp (rho_wall_3D cfg ftmp) 1 1 =
      Syy_3D cfg ftmp - rho_wall_3D cfg ftmp * cfg.u_0y ^ 2 ∧
    spec_Pi cfg ftmp (rho_wall_3D cfg ftmp) 2 2 =
      Szz_3D cfg ftmp - rho_wall_3D cfg ftmp * cfg.u_0z ^ 2 ∧
    spec_Pi cfg ftmp (rho_wall_3D cfg ftmp) 0 1 =
      Sxy_3D ftmp + rho_wall_3D cfg ftmp * cfg.u_0y * (1 / 3 - cfg.u_0x) ∧
    spec_Pi cfg ftmp (rho_wall_3D cfg ftmp) 0 2 =
      Sxz_3D ftmp + rho_wall_3D cfg ftmp * cfg.u_0z * (1 / 3 - cfg.u_0x) ∧
    spec_Pi cfg ftmp (rho_wall_3D cfg ftmp) 1 2 =
      Syz_3D ftmp - rho_wall_3D cfg ftmp * cfg.u_0y * cfg.u_0z := by
  obtain ⟨o0, o6, o8, o14, o17⟩ := getOpposite_19_unknown
  simp only [spec_Pi, Sxx_3D, Syy_3D, Szz_3D, Sxy_3D, Sxz_3D, Syz_3D]
  generalize rho_wall_3D cfg ftmp = r
  simp only [hn, Finset.sum_range_succ, Finset.sum_range_zero, spec_f_neq, if_pos hd,
    spec_feq, hc, hw, o0, o6, o8, o14, o17]
  refine ⟨?_, ?_, ?_, ?_, ?_, ?_⟩ <;>
  · simp [c_D3Q19, w_D3Q19]
    ring

/-- C18 (evaluation of the code at the failing input). 2D regularised inlet
with the spec's example populations, `u_0x = 0.04` and transverse velocity
`u_0y = 0.1`: the block computes `Sxy = 1/50` and `Syy = 16/75`, whereas the
tensor defined by the spec has `Pi_xy = 1897/36000` and `Pi_yy = 647/3200`. -/
theorem regularised_tensor_2D_fails :
    Sxy_2D (ftmp_init (cfg2D_reg (1 / 10)) grid2D 0 1 0) = 1 / 50 ∧
    spec_Pi (cfg2D_reg (1 / 10)) (ftmp_init (cfg2D_reg (1 / 10)) grid2D 0 1 0)
      (rho_wall_2D (cfg2D_reg (1 / 10)) (ftmp_init (cfg2D_reg (1 / 10)) grid2D 0 1 0)) 0 1
      = 1897 / 36000 ∧
    Syy_2D (cfg2D_reg (1 / 10)) (ftmp_init (cfg2D_reg (1 / 10)) grid2D 0 1 0) = 16 / 75 ∧
    spec_Pi (cfg2D_reg (1 / 10)) (ftmp_init (cfg2D_reg (1 / 10)) grid2D 0 1 0)
      (rho_wall_2D (cfg2D_reg (1 / 10)) (ftmp_init (cfg2D_reg (1 / 10)) grid2D 0 1 0)) 1 1
      = 647 / 3200 ∧
    Sxy_2D (ftmp_init (cfg2D_reg (1 / 10)) grid2D 0 1 0) ≠
      spec_Pi (cfg2D_reg (1 / 10)) (ftmp_init (cfg2D_reg (1 / 10)) grid2D 0 1 0)
        (rho_wall_2D (cfg2D_reg (1 / 10)) (ftmp_init (cfg2D_reg (1 / 10)) grid2D 0 1 0)) 0 1 := by
  obtain ⟨_, hxy, hyy⟩ := regularised_tensor_2D (cfg2D_reg (1 / 10))
    (ftmp_init (cfg2D_reg (1 / 10)) grid2D 0 1 0) rfl rfl (by decide) rfl
  have hl : ftmp_init (cfg2D_reg (1 / 10)) grid2D 0 1 0 =
      [0, 1 / 10, 3 / 25, 11 / 100, 0, 9 / 100, 0, 2 / 25, 3 / 10] := by
    rw [ftmp_init_eq]
    have hn : (cfg2D_reg (1 / 10)).nVels = 9 := rfl
    rw [hn, range_9]
    simp [grid2D]
  have hux : (cfg2D_reg (1 / 10)).u_0x = 1 / 25 := rfl
  have huy : (cfg2D_reg (1 / 10)).u_0y = 1 / 10 := rfl
  have hrho : rho_wall_2D (cfg2D_reg (1 / 10)) (ftmp_init (cfg2D_reg (1 / 10)) grid2D 0 1 0)
      = 107 / 96 := by
    rw [hl]; unfold rho_wall_2D; rw [hux]; norm_num [rd]
  have hSxy : Sxy_2D (ftmp_init (cfg2D_reg (1 / 10)) grid2D 0 1 0) = 1 / 50 := by
    rw [hl]; unfold Sxy_2D; norm_num [rd]
  have hSyy : Syy_2D (cfg2D_reg (1 / 10)) (ftmp_init (cfg2D_reg (1 / 10)) grid2D 0 1 0)
      = 16 / 75 := by
    unfold Syy_2D; rw [hrho, hl, hux]; norm_num [rd]
  have hPxy : spec_Pi (cfg2D_reg (1 / 10)) (ftmp_init (cfg2D_reg (1 / 10)) grid2D 0 1 0)
      (rho_wall_2D (cfg2D_reg (1 / 10)) (ftmp_init (cfg2D_reg (1 / 10)) grid2D 0 1 0)) 0 1
      = 1897 / 36000 := by
    rw [hxy, hSxy, hrho, hux, huy]; norm_num
  have hPyy : spec_Pi (cfg2D_reg (1 / 10)) (ftmp_init (cfg2D_reg (1 / 10)) grid2D 0 1 0)
      (rho_wall_2D (cfg2D_reg (1 / 10)) (ftmp_init (cfg2D_reg (1 / 10)) grid2D 0 1 0)) 1 1
      = 647 / 3200 := by
    rw [hyy, hSyy, hrho, huy]; norm_num
  refine ⟨hSxy, hPxy, hSyy, hPyy, ?_⟩
  rw [hSxy, hPxy]; norm_num

/-! ## The sweep as a fold over the sites -/

theorem foldl_flatMap_eq {α β σ : Type} (l : List α) (F : α → List β) (op : σ → β → σ)
    (s : σ) :
    (l.flatMap F).foldl op s = l.foldl (fun acc a => (F a).foldl op acc) s := by
  induction l generalizing s with
  | nil => rfl
  | cons a l ih => simp [List.flatMap_cons, List.foldl_append, ih]

theorem loop_eq_foldl_range {σ : Type} (n : Nat) (body : Nat → σ → σ) (s : σ) :
    loop 0 n body s = (List.range n).foldl (fun acc m => body m acc) s := by
  unfold loop
  rw [List.range_eq_range', Nat.sub_zero]

/-- The triple loop visits the sites in the order of `grid_sites`. -/
theorem sweep_eq_foldl (N M K : Nat) (U : Nat → Nat → Nat → GridObj → GridObj)
    (g : GridObj) :
    sweep N M K U g = (grid_sites N M K).foldl (fun acc p => U p.1 p.2.1 p.2.2 acc) g := by
  unfold sweep grid_sites
  rw [foldl_flatMap_eq, loop_eq_foldl_range]
  congr 1
  funext gi i
  rw [foldl_flatMap_eq, loop_eq_foldl_range]
  congr 1
  funext gj j
  rw [List.foldl_map, loop_eq_foldl_range]

theorem LBM_boundary_eq_sweep_in_order (cfg : Config) (flag : Int) (g : GridObj) :
    LBM_boundary cfg flag g =
      sweep_in_order cfg flag (grid_sites g.XPos.length g.YPos.length g.ZPos.length) g := by
  rw [LBM_boundary_eq_sweep, sweep_eq_foldl]
  rfl

theorem mem_grid_sites (N M K : Nat) (p : Nat × Nat × Nat) :
    p ∈ grid_sites N M K ↔ p.1 < N ∧ p.2.1 < M ∧ p.2.2 < K := by
  obtain ⟨i, j, k⟩ := p
  unfold grid_sites
  simp only [List.mem_flatMap, List.mem_range, List.mem_map, Prod.mk.injEq]
  constructor
  · rintro ⟨i1, hi1, j1, hj1, k1, hk1, rfl, rfl, rfl⟩
    exact ⟨hi1, hj1, hk1⟩
  · rintro ⟨hi, hj, hk⟩
    exact ⟨i, hi, j, hj, k, hk, rfl, rfl, rfl⟩

/-- Two grids with the same position arrays and labels that agree at every
site are equal. -/
theorem GridObj_eq_of_SameAt (g1 g2 : GridObj) (hx : g2.XPos = g1.XPos)
    (hy : g2.YPos = g1.YPos) (hz : g2.ZPos = g1.ZPos) (hl : g2.LatTyp = g1.LatTyp)
    (hat : ∀ i j k, g1.SameAt g2 i j k) : g2 = g1 := by
  obtain ⟨x1, y1, z1, l1, f1, r1, u1⟩ := g1
  obtain ⟨x2, y2, z2, l2, f2, r2, u2⟩ := g2
  simp only at hx hy hz hl
  subst hx hy hz hl
  have hf : f2 = f1 := by
    funext i j k v; exact (hat i j k).1 v
  have hr : r2 = r1 := by
    funext i j k; exact (hat i j k).2.1
  have hu : u2 = u1 := by
    funext i j k d; exact (hat i j k).2.2 d
  subst hf hr hu
  rfl

/-- Folding over a permuted list gives the same result when the steps taken
from the list commute on the states that satisfy an invariant of the steps. -/
theorem foldl_perm_of_inv {α β : Type} (op : β → α → β) (Inv : β → Prop) (G : α → Prop)
    (hinv : ∀ z x, G x → Inv z → Inv (op z x))
    (hcomm : ∀ z x y, G x → G y → Inv z → op (op z x) y = op (op z y) x)
    {l1 l2 : List α} (hp : l1.Perm l2) :
    (∀ x ∈ l1, G x) → ∀ z, Inv z → l1.foldl op z = l2.foldl op z := by
  induction hp with
  | nil => intro _ _ _; rfl
  | cons x _ ih =>
    intro hG z hz
    simp only [List.foldl_cons]
    exact ih (fun a ha => hG a (List.mem_cons_of_mem _ ha)) _
      (hinv z x (hG x (List.mem_cons_self _ _)) hz)
  | swap x y l =>
    intro hG z hz
    simp only [List.foldl_cons]
    rw [hcomm z y x (hG y (List.mem_cons_self _ _))
      (hG x (List.mem_cons_of_mem _ (List.mem_cons_self _ _))) hz]
  | trans h1 _ ih1 ih2 =>
    intro hG z hz
    rw [ih1 hG z hz]
    exact ih2 (fun a ha => hG a (h1.mem_iff.mpr ha)) z hz

/-! ## Locality of the site updates -/

/-- The populations of a Solid site after its direction loop, in closed form:
direction `v < nVels` receives the opposite population of its streaming source
when the source is on the grid and labelled 1 or 2, and keeps its value
otherwise. -/
theorem solid_loop_f_self (cfg : Config) (N_lim M_lim K_lim i j k v : Nat) (g : GridObj)
    (hsolid : g.LatTyp i j k = 0) :
    (loop 0 cfg.nVels (solid_step cfg N_lim M_lim K_lim i j k) g).f i j k v =
      if v < cfg.nVels ∧ toSize ((i : Int) + cfg.c 0 v) < N_lim ∧
          toSize ((j : Int) + cfg.c 1 v) < M_lim ∧ toSize ((k : Int) + cfg.c 2 v) < K_lim ∧
          (g.LatTyp (toSize ((i : Int) + cfg.c 0 v)) (toSize ((j : Int) + cfg.c 1 v))
              (toSize ((k : Int) + cfg.c 2 v)) = 1 ∨
            g.LatTyp (toSize ((i : Int) + cfg.c 0 v)) (toSize ((j : Int) + cfg.c 1 v))
              (toSize ((k : Int) + cfg.c 2 v)) = 2) then
        g.f (toSize ((i : Int) + cfg.c 0 v)) (toSize ((j : Int) + cfg.c 1 v))
          (toSize ((k : Int) + cfg.c 2 v)) (getOpposite cfg.nVels v)
      else g.f i j k v := by
  split_ifs with h
  · obtain ⟨hv, hx, hy, hz, hfl⟩ := h
    exact solid_loop_bounces cfg N_lim M_lim K_lim i j k v _ _ _ g hv rfl rfl rfl hx hy hz
      hsolid hfl
  · have key := loop_inv (fun t => t.LatTyp = g.LatTyp ∧ t.f i j k v = g.f i j k v) 0 cfg.nVels
      (solid_step cfg N_lim M_lim K_lim i j k) g ⟨rfl, rfl⟩ (by
        intro n _ hn t ht
        refine ⟨(solid_step_LatTyp cfg N_lim M_lim K_lim i j k n t).trans ht.1, ?_⟩
        by_cases hnv : v = n
        · subst hnv
          have hstep : solid_step cfg N_lim M_lim K_lim i j k v t = t := by
            unfold solid_step
            simp only
            rw [ht.1]
            split_ifs with h1 h2
            · rfl
            · exfalso
              apply h
              refine ⟨hn, ?_, ?_, ?_, h2⟩ <;> omega
            · rfl
          rw [hstep]; exact ht.2
        · rw [solid_step_f_other_dir cfg N_lim M_lim K_lim i j k n v t i j k hnv]; exact ht.2)
    exact key.2

/-- Locality of a site update: on two grids with the same labels that agree at
the site itself, at every site carrying none of the labels 0, 7, 8 and, for a
selected Outlet site, at its two upstream sites, the update leaves the same
populations, density and velocity at the site; the external equilibrium is
assumed to read only the density and velocity of the site. -/
theorem LBM_boundary_site_local (cfg : Config) (flag : Int) (N_lim M_lim K_lim i j k : Nat)
    (z z1 : GridObj) (hl : z1.LatTyp = z.LatTyp) (hsame : z.SameAt z1 i j k)
    (hrd : ∀ i1 j1 k1 v, z.LatTyp i1 j1 k1 ≠ 0 ∧ z.LatTyp i1 j1 k1 ≠ 7 ∧
      z.LatTyp i1 j1 k1 ≠ 8 → z1.f i1 j1 k1 v = z.f i1 j1 k1 v)
    (hup : z.LatTyp i j k = 8 → (flag = 0 ∨ flag = 3 ∨ flag = 4) →
      ∀ v, z1.f (toSize ((i : Int) - 1)) j k v = z.f (toSize ((i : Int) - 1)) j k v ∧
        z1.f (toSize ((i : Int) - 2)) j k v = z.f (toSize ((i : Int) - 2)) j k v)
    (hcol : ∀ (t1 t2 : GridObj) (v : Nat), t1.rho i j k = t2.rho i j k →
      (∀ d, t1.u i j k d = t2.u i j k d) →
      cfg.LBM_collide t1 i j k v = cfg.LBM_collide t2 i j k v) :
    (LBM_boundary_site cfg flag N_lim M_lim K_lim i j k z).SameAt
      (LBM_boundary_site cfg flag N_lim M_lim K_lim i j k z1) i j k := by
  obtain ⟨hf, hrho, hu⟩ := hsame
  unfold LBM_boundary_site
  rw [hl]
  split_ifs with h0 h7 h8
  · -- Solid
    obtain ⟨m1, m2⟩ := macro_solid_loop cfg N_lim M_lim K_lim i j k z
    obtain ⟨n1, n2⟩ := macro_solid_loop cfg N_lim M_lim K_lim i j k z1
    refine ⟨fun v => ?_, by rw [m1, n1]; exact hrho, fun d => by rw [m2, n2]; exact hu d⟩
    rw [solid_loop_f_self cfg N_lim M_lim K_lim i j k v z h0.1,
      solid_loop_f_self cfg N_lim M_lim K_lim i j k v z1 (by rw [hl]; exact h0.1), hl]
    split_ifs with hc
    · apply hrd
      rcases hc.2.2.2.2 with h | h <;> rw [h] <;> decide
    · exact hf v
  · -- Inlet
    unfold inlet_site
    split_ifs with hz hr
    · obtain ⟨m1, m2⟩ := macro_bc_applyZouHe cfg z i j k
      obtain ⟨n1, n2⟩ := macro_bc_applyZouHe cfg z1 i j k
      refine ⟨fun v => ?_, by rw [m1, n1]; exact hrho, fun d => by rw [m2, n2]; exact hu d⟩
      rw [bc_applyZouHe_f, bc_applyZouHe_f]
      have hfun : z1.f i j k = z.f i j k := funext hf
      rw [hfun]
    · have hfun : z1.f i j k = z.f i j k := funext hf
      have hft : ftmp_init cfg z1 i j k = ftmp_init cfg z i j k := by
        rw [ftmp_init_eq, ftmp_init_eq, hfun]
      obtain ⟨a1, a2⟩ := bc_applyRegularised_macro cfg z i j k
      obtain ⟨b1, b2⟩ := bc_applyRegularised_macro cfg z1 i j k
      have hrr : (bc_applyRegularised cfg z1 i j k).rho i j k =
          (bc_applyRegularised cfg z i j k).rho i j k := by rw [a1, b1, hft]
      have huu : ∀ d, (bc_applyRegularised cfg z1 i j k).u i j k d =
          (bc_applyRegularised cfg z i j k).u i j k d := by
        intro d; rw [a2 d, b2 d, hu d]
      refine ⟨fun v => ?_, hrr, huu⟩
      obtain ⟨acc, c1, c2, c3⟩ := bc_applyRegularised_f_self cfg z i j k v
      obtain ⟨acc1, d1, d2, d3⟩ := bc_applyRegularised_f_self cfg z1 i j k v
      rw [c3, d3, hft, hf v]
      have hcc : cfg.LBM_collide acc1 i j k v = cfg.LBM_collide acc i j k v :=
        hcol acc1 acc v (by rw [c1, d1]; exact hrr) (fun d => by rw [c2, d2]; exact huu d)
      rw [hcc]
    · exact ⟨hf, hrho, hu⟩
  · -- Outlet
    obtain ⟨m1, m2⟩ := macro_bc_applyExtrapolation cfg z i j k
    obtain ⟨n1, n2⟩ := macro_bc_applyExtrapolation cfg z1 i j k
    refine ⟨fun v => ?_, by rw [m1, n1]; exact hrho, fun d => by rw [m2, n2]; exact hu d⟩
    rw [bc_applyExtrapolation_f_self, bc_applyExtrapolation_f_self,
      (hup h8.1 h8.2 v).1, (hup h8.1 h8.2 v).2, hf v]
  · exact ⟨hf, hrho, hu⟩

/-- After two site updates at distinct sites `x` then `y`, the site `x` holds
what its own update produced on the initial grid. -/
theorem LBM_boundary_site_two (cfg : Config) (flag : Int) (g : GridObj)
    (xi xj xk yi yj yk : Nat) (z : GridObj) (hz : z.LatTyp = g.LatTyp)
    (hxy : ¬ (xi = yi ∧ xj = yj ∧ xk = yk))
    (hy : yi < g.XPos.length)
    (hcol : ∀ (t1 t2 : GridObj) (i j k v : Nat), t1.rho i j k = t2.rho i j k →
      (∀ d, t1.u i j k d = t2.u i j k d) →
      cfg.LBM_collide t1 i j k v = cfg.LBM_collide t2 i j k v)
    (hout : g.LatTyp xi xj xk = 8 → (flag = 0 ∨ flag = 3 ∨ flag = 4) →
      g.Unwritten (toSize ((xi : Int) - 1)) xj xk ∧
      g.Unwritten (toSize ((xi : Int) - 2)) xj xk) :
    (LBM_boundary_site cfg flag g.XPos.length g.YPos.length g.ZPos.length xi xj xk z).SameAt
      (LBM_boundary_site cfg flag g.XPos.length g.YPos.length g.ZPos.length xi xj xk
        (LBM_boundary_site cfg flag g.XPos.length g.YPos.length g.ZPos.length yi yj yk z))
      xi xj xk := by
  have hso := SameOutside_LBM_boundary_site cfg flag g.XPos.length g.YPos.length
    g.ZPos.length yi yj yk z
  have hrd : ∀ i1 j1 k1 v, z.LatTyp i1 j1 k1 ≠ 0 ∧ z.LatTyp i1 j1 k1 ≠ 7 ∧
      z.LatTyp i1 j1 k1 ≠ 8 →
      (LBM_boundary_site cfg flag g.XPos.length g.YPos.length g.ZPos.length yi yj yk z).f
        i1 j1 k1 v = z.f i1 j1 k1 v := by
    intro i1 j1 k1 v hlab
    by_cases hp : i1 = yi ∧ j1 = yj ∧ k1 = yk
    · obtain ⟨rfl, rfl, rfl⟩ := hp
      rw [LBM_boundary_site_unlabelled cfg flag _ _ _ i1 j1 k1 z hlab.1 hlab.2.1 hlab.2.2]
    · exact hso.2.2.2.2.1 i1 j1 k1 v hp
  apply LBM_boundary_site_local cfg flag _ _ _ xi xj xk z _ hso.2.2.2.1
    (SameAt_of_SameOutside hso hxy) hrd
  · intro h8 hflag v
    rw [hz] at h8
    obtain ⟨u1, u2⟩ := hout h8 hflag
    constructor
    · rcases u1 with hoff | hlab
      · exact hso.2.2.2.2.1 _ _ _ v (fun hh => by omega)
      · exact hrd _ _ _ v (by rw [hz]; exact hlab)
    · rcases u2 with hoff | hlab
      · exact hso.2.2.2.2.1 _ _ _ v (fun hh => by omega)
      · exact hrd _ _ _ v (by rw [hz]; exact hlab)
  · intro t1 t2 v hr hu
    exact hcol t1 t2 xi xj xk v hr hu

/-- Two site updates at sites of the grid commute, provided the two upstream
sites of every selected Outlet site are sites that no update writes. -/
theorem LBM_boundary_site_comm (cfg : Config) (flag : Int) (g : GridObj)
    (xi xj xk yi yj yk : Nat) (z : GridObj) (hz : z.LatTyp = g.LatTyp)
    (hx : xi < g.XPos.length) (hy : yi < g.XPos.length)
    (hcol : ∀ (t1 t2 : GridObj) (i j k v : Nat), t1.rho i j k = t2.rho i j k →
      (∀ d, t1.u i j k d = t2.u i j k d) →
      cfg.LBM_collide t1 i j k v = cfg.LBM_collide t2 i j k v)
    (houtx : g.LatTyp xi xj xk = 8 → (flag = 0 ∨ flag = 3 ∨ flag = 4) →
      g.Unwritten (toSize ((xi : Int) - 1)) xj xk ∧
      g.Unwritten (toSize ((xi : Int) - 2)) xj xk)
    (houty : g.LatTyp yi yj yk = 8 → (flag = 0 ∨ flag = 3 ∨ flag = 4) →
      g.Unwritten (toSize ((yi : Int) - 1)) yj yk ∧
      g.Unwritten (toSize ((yi : Int) - 2)) yj yk) :
    LBM_boundary_site cfg flag g.XPos.length g.YPos.length g.ZPos.length yi yj yk
        (LBM_boundary_site cfg flag g.XPos.length g.YPos.length g.ZPos.length xi xj xk z) =
      LBM_boundary_site cfg flag g.XPos.length g.YPos.length g.ZPos.length xi xj xk
        (LBM_boundary_site cfg flag g.XPos.length g.YPos.length g.ZPos.length yi yj yk z) := by
  by_cases hxy : xi = yi ∧ xj = yj ∧ xk = yk
  · obtain ⟨rfl, rfl, rfl⟩ := hxy
    rfl
  have hyx : ¬ (yi = xi ∧ yj = xj ∧ yk = xk) :=
    fun hh => hxy ⟨hh.1.symm, hh.2.1.symm, hh.2.2.symm⟩
  have sx := SameOutside_LBM_boundary_site cfg flag g.XPos.length g.YPos.length
    g.ZPos.length xi xj xk z
  have sy := SameOutside_LBM_boundary_site cfg flag g.XPos.length g.YPos.length
    g.ZPos.length yi yj yk z
  have syx := SameOutside_LBM_boundary_site cfg flag g.XPos.length g.YPos.length
    g.ZPos.length yi yj yk
    (LBM_boundary_site cfg flag g.XPos.length g.YPos.length g.ZPos.length xi xj xk z)
  have sxy := SameOutside_LBM_boundary_site cfg flag g.XPos.length g.YPos.length
    g.ZPos.length xi xj xk
    (LBM_boundary_site cfg flag g.XPos.length g.YPos.length g.ZPos.length yi yj yk z)
  have tx := LBM_boundary_site_two cfg flag g xi xj xk yi yj yk z hz hxy hy hcol houtx
  have ty := LBM_boundary_site_two cfg flag g yi yj yk xi xj xk z hz hyx hx hcol houty
  apply GridObj_eq_of_SameAt
  · exact (syx.1.trans sx.1).trans (sxy.1.trans sy.1).symm
  · exact (syx.2.1.trans sx.2.1).trans (sxy.2.1.trans sy.2.1).symm
  · exact (syx.2.2.1.trans sx.2.2.1).trans (sxy.2.2.1.trans sy.2.2.1).symm
  · exact (syx.2.2.2.1.trans sx.2.2.2.1).trans (sxy.2.2.2.1.trans sy.2.2.2.1).symm
  · intro i j k
    by_cases hpx : i = xi ∧ j = xj ∧ k = xk
    · obtain ⟨rfl, rfl, rfl⟩ := hpx
      -- right side is the update of x on (U y z); left side keeps (U x z) at x
      have h1 := SameAt_of_SameOutside syx hxy
      -- goal: (U x (U y z)).SameAt (U y (U x z)) x
      refine ⟨fun v => ?_, ?_, fun d => ?_⟩
      · rw [h1.1 v, tx.1 v]
      · rw [h1.2.1, tx.2.1]
      · rw [h1.2.2 d, tx.2.2 d]
    · by_cases hpy : i = yi ∧ j = yj ∧ k = yk
      · obtain ⟨rfl, rfl, rfl⟩ := hpy
        have h1 := SameAt_of_SameOutside sxy hyx
        refine ⟨fun v => ?_, ?_, fun d => ?_⟩
        · rw [ty.1 v, h1.1 v]
        · rw [ty.2.1, h1.2.1]
        · rw [ty.2.2 d, h1.2.2 d]
      · have a1 := SameAt_of_SameOutside sx hpx
        have a2 := SameAt_of_SameOutside syx hpy
        have b1 := SameAt_of_SameOutside sy hpy
        have b2 := SameAt_of_SameOutside sxy hpx
        refine ⟨fun v => ?_, ?_, fun d => ?_⟩
        · rw [a2.1 v, a1.1 v, b2.1 v, b1.1 v]
        · rw [a2.2.1, a1.2.1, b2.2.1, b1.2.1]
        · rw [a2.2.2 d, a1.2.2 d, b2.2.2 d, b1.2.2 d]

/-! ## Order of the sweep -/

/-- C15 (amended). Each site update of `LBM_boundary` writes only its own site.
If the external equilibrium reads only the density and velocity of the site,
and if, whenever the flag selects the Outlet update, the two upstream sites
`(i-1,j,k)` and `(i-2,j,k)` of every Outlet site of the grid are sites that no
update writes (beyond the grid, or labelled none of 0, 7, 8), then visiting the
sites of the grid in any order yields the same final state as the reference
order. -/
theorem LBM_boundary_order_independent (cfg : Config) (flag : Int) (g : GridObj)
    (order : List (Nat × Nat × Nat))
    (hperm : order.Perm (grid_sites g.XPos.length g.YPos.length g.ZPos.length))
    (hcol : ∀ (t1 t2 : GridObj) (i j k v : Nat), t1.rho i j k = t2.rho i j k →
      (∀ d, t1.u i j k d = t2.u i j k d) →
      cfg.LBM_collide t1 i j k v = cfg.LBM_collide t2 i j k v)
    (hout : (flag = 0 ∨ flag = 3 ∨ flag = 4) → ∀ i j k, i < g.XPos.length →
      j < g.YPos.length → k < g.ZPos.length → g.LatTyp i j k = 8 →
      g.Unwritten (toSize ((i : Int) - 1)) j k ∧ g.Unwritten (toSize ((i : Int) - 2)) j k) :
    (∀ (i j k : Nat) (t : GridObj), t.SameOutside
      (LBM_boundary_site cfg flag g.XPos.length g.YPos.length g.ZPos.length i j k t) i j k) ∧
    sweep_in_order cfg flag order g = LBM_boundary cfg flag g := by
  refine ⟨fun i j k t => SameOutside_LBM_boundary_site cfg flag _ _ _ i j k t, ?_⟩
  rw [LBM_boundary_eq_sweep_in_order]
  unfold sweep_in_order
  apply foldl_perm_of_inv
    (fun acc p => LBM_boundary_site cfg flag g.XPos.length g.YPos.length g.ZPos.length
      p.1 p.2.1 p.2.2 acc)
    (fun t => t.LatTyp = g.LatTyp)
    (fun p => p.1 < g.XPos.length ∧ p.2.1 < g.YPos.length ∧ p.2.2 < g.ZPos.length)
    (fun z p _ hz => (SameOutside_LBM_boundary_site cfg flag _ _ _ p.1 p.2.1 p.2.2
      z).2.2.2.1.trans hz)
    (fun z x y hx hy hz =>
      LBM_boundary_site_comm cfg flag g x.1 x.2.1 x.2.2 y.1 y.2.1 y.2.2 z hz hx.1 hy.1 hcol
        (fun h8 hf => hout hf x.1 x.2.1 x.2.2 hx.1 hx.2.1 hx.2.2 h8)
        (fun h8 hf => hout hf y.1 y.2.1 y.2.2 hy.1 hy.2.1 hy.2.2 h8))
    hperm
  · intro p hp
    exact (mem_grid_sites _ _ _ p).mp (hperm.mem_iff.mp hp)
  · rfl

theorem LBM_boundary_order_independent_witness :
    [(3, 0, 0), (1, 0, 0), (0, 0, 0), (2, 0, 0)].Perm
        (grid_sites grid_channel.XPos.length grid_channel.YPos.length
          grid_channel.ZPos.length) ∧
      sweep_in_order (cfg2D 0) 0 [(3, 0, 0), (1, 0, 0), (0, 0, 0), (2, 0, 0)] grid_channel
        = LBM_boundary (cfg2D 0) 0 grid_channel :=
  ⟨by decide,
    (LBM_boundary_order_independent (cfg2D 0) 0 grid_channel
      [(3, 0, 0), (1, 0, 0), (0, 0, 0), (2, 0, 0)] (by decide)
      (fun t1 t2 i j k v hr hu => sample_collide_local c_D2Q9 w_D2Q9 t1 t2 i j k v hr hu)
      (by
        intro _ i j k hi hj hk h8
        have hi4 : i < 4 := hi
        have hj1 : j < 1 := hj
        have hk1 : k < 1 := hk
        interval_cases i <;> interval_cases j <;> interval_cases k
        · exact absurd h8 (by decide)
        · exact absurd h8 (by decide)
        · exact absurd h8 (by decide)
        · exact ⟨Or.inr (by decide), Or.inr (by decide)⟩)).2⟩

/-- C15 (counterexample). On the 3 x 1 x 1 grid Fluid - Solid - Outlet with
flag 0, the reference order gives `f(2,0,0,1) = -1/10`, whereas visiting the
same three sites in descending order gives `f(2,0,0,1) = 21/10`: the Outlet
update at `i = 2` reads `f(1,0,0,1)`, which the Solid update at `i = 1`
writes. -/
theorem LBM_boundary_order_matters :
    [(2, 0, 0), (1, 0, 0), (0, 0, 0)].Perm
        (grid_sites grid_line.XPos.length grid_line.YPos.length grid_line.ZPos.length) ∧
      (LBM_boundary (cfg2D 0) 0 grid_line).f 2 0 0 1 = -1 / 10 ∧
      (sweep_in_order (cfg2D 0) 0 [(2, 0, 0), (1, 0, 0), (0, 0, 0)] grid_line).f 2 0 0 1
        = 21 / 10 ∧
      sweep_in_order (cfg2D 0) 0 [(2, 0, 0), (1, 0, 0), (0, 0, 0)] grid_line
        ≠ LBM_boundary (cfg2D 0) 0 grid_line := by
  have hsites : grid_sites grid_line.XPos.length grid_line.YPos.length grid_line.ZPos.length
      = [(0, 0, 0), (1, 0, 0), (2, 0, 0)] := by decide
  have h12 : toSize (((2 : Nat) : Int) - 1) = 1 := by decide
  have h02 : toSize (((2 : Nat) : Int) - 2) = 0 := by decide
  have hsx : toSize (((1 : Nat) : Int) + (cfg2D 0).c 0 1) = 0 := by decide
  have hsy : toSize (((0 : Nat) : Int) + (cfg2D 0).c 1 1) = 0 := by decide
  have hsz : toSize (((0 : Nat) : Int) + (cfg2D 0).c 2 1) = 0 := by decide
  -- the three site updates
  have u0 : ∀ t : GridObj, t.LatTyp = grid_line.LatTyp →
      LBM_boundary_site (cfg2D 0) 0 3 1 1 0 0 0 t = t := by
    intro t ht
    apply LBM_boundary_site_unlabelled <;> rw [ht] <;> decide
  have u1 : ∀ t : GridObj, t.LatTyp = grid_line.LatTyp →
      LBM_boundary_site (cfg2D 0) 0 3 1 1 1 0 0 t =
        loop 0 (cfg2D 0).nVels (solid_step (cfg2D 0) 3 1 1 1 0 0) t := by
    intro t ht
    unfold LBM_boundary_site
    rw [ht, if_pos ⟨by decide, Or.inl rfl⟩]
  have u2 : ∀ t : GridObj, t.LatTyp = grid_line.LatTyp →
      LBM_boundary_site (cfg2D 0) 0 3 1 1 2 0 0 t = bc_applyExtrapolation (cfg2D 0) t 2 0 0 := by
    intro t ht
    unfold LBM_boundary_site
    rw [ht, if_neg (fun hh => absurd hh.1 (by decide)),
      if_neg (fun hh => absurd hh.1 (by decide)), if_pos ⟨by decide, Or.inl rfl⟩]
  have hin : (if (cfg2D 0).dims = 3 then 1 ∈ [1, 7, 9, 15, 16] else 1 ∈ [1, 5, 7]) := by
    decide
  have hdx : (cfg2D 0).dx = 1 := rfl
  -- reference order
  have href : (LBM_boundary (cfg2D 0) 0 grid_line).f 2 0 0 1 = -1 / 10 := by
    rw [LBM_boundary_eq_sweep_in_order, hsites]
    show (LBM_boundary_site (cfg2D 0) 0 3 1 1 2 0 0 (LBM_boundary_site (cfg2D 0) 0 3 1 1 1 0 0
      (LBM_boundary_site (cfg2D 0) 0 3 1 1 0 0 0 grid_line))).f 2 0 0 1 = -1 / 10
    rw [u0 grid_line rfl, u1 grid_line rfl]
    have hs := SameOutside_loop grid_line 1 0 0 0 (cfg2D 0).nVels
      (solid_step (cfg2D 0) 3 1 1 1 0 0)
      (fun n (t : GridObj) => SameOutside_solid_step (cfg2D 0) 3 1 1 1 0 0 n t)
    have hb := solid_loop_bounces (cfg2D 0) 3 1 1 1 0 0 1 0 0 0 grid_line (by decide)
      hsx hsy hsz (by decide) (by decide) (by decide) (by decide) (Or.inl (by decide))
    generalize loop 0 (cfg2D 0).nVels (solid_step (cfg2D 0) 3 1 1 1 0 0) grid_line = g1
      at hs hb
    have hop : getOpposite (cfg2D 0).nVels 1 = 0 := by decide
    rw [hop] at hb
    rw [u2 g1 hs.2.2.2.1, bc_applyExtrapolation_f_self, if_pos hin, h12, h02, hb,
      hs.2.2.2.2.1 0 0 0 1 (by decide), hdx]
    norm_num [grid_line]
  have hrev : (sweep_in_order (cfg2D 0) 0 [(2, 0, 0), (1, 0, 0), (0, 0, 0)] grid_line).f
      2 0 0 1 = 21 / 10 := by
    show (LBM_boundary_site (cfg2D 0) 0 3 1 1 0 0 0 (LBM_boundary_site (cfg2D 0) 0 3 1 1 1 0 0
      (LBM_boundary_site (cfg2D 0) 0 3 1 1 2 0 0 grid_line))).f 2 0 0 1 = 21 / 10
    have s1 := SameOutside_LBM_boundary_site (cfg2D 0) 0 3 1 1 1 0 0
      (LBM_boundary_site (cfg2D 0) 0 3 1 1 2 0 0 grid_line)
    have s0 := SameOutside_LBM_boundary_site (cfg2D 0) 0 3 1 1 0 0 0
      (LBM_boundary_site (cfg2D 0) 0 3 1 1 1 0 0
        (LBM_boundary_site (cfg2D 0) 0 3 1 1 2 0 0 grid_line))
    rw [s0.2.2.2.2.1 2 0 0 1 (by decide), s1.2.2.2.2.1 2 0 0 1 (by decide),
      u2 grid_line rfl, bc_applyExtrapolation_f_self, if_pos hin, h12, h02, hdx]
    norm_num [grid_line]
  refine ⟨by decide, href, hrev, ?_⟩
  intro heq
  rw [heq, href] at hrev
  norm_num at hrev

/-! ## Only labelled boundary sites are written -/

/-- C21. For every grid and every flag, `LBM_boundary` never changes the label
array and leaves every population at every site whose label is none of 0
(Solid), 7 (Inlet), 8 (Outlet) equal to its prior value; in particular at every
Fluid site (label 1 or 2). -/
theorem LBM_boundary_writes_labelled_only (cfg : Config) (flag : Int) (g : GridObj) :
    (LBM_boundary cfg flag g).LatTyp = g.LatTyp ∧
    (∀ i j k v : Nat, g.LatTyp i j k ≠ 0 → g.LatTyp i j k ≠ 7 → g.LatTyp i j k ≠ 8 →
      (LBM_boundary cfg flag g).f i j k v = g.f i j k v) ∧
    (∀ i j k v : Nat, g.LatTyp i j k = 1 ∨ g.LatTyp i j k = 2 →
      (LBM_boundary cfg flag g).f i j k v = g.f i j k v) := by
  have key := sweep_inv (fun t => t.LatTyp = g.LatTyp ∧
      ∀ i j k v : Nat, g.LatTyp i j k ≠ 0 → g.LatTyp i j k ≠ 7 → g.LatTyp i j k ≠ 8 →
        t.f i j k v = g.f i j k v)
    g.XPos.length g.YPos.length g.ZPos.length
    (LBM_boundary_site cfg flag g.XPos.length g.YPos.length g.ZPos.length) g
    ⟨rfl, fun _ _ _ _ _ _ _ => rfl⟩ (by
      intro i1 j1 k1 _ _ _ t ⟨hl, hf⟩
      have hso := SameOutside_LBM_boundary_site cfg flag g.XPos.length g.YPos.length
        g.ZPos.length i1 j1 k1 t
      refine ⟨hso.2.2.2.1.trans hl, ?_⟩
      intro i j k v h0 h7 h8
      by_cases hp : i = i1 ∧ j = j1 ∧ k = k1
      · obtain ⟨rfl, rfl, rfl⟩ := hp
        rw [LBM_boundary_site_unlabelled cfg flag _ _ _ i j k t (by rw [hl]; exact h0)
          (by rw [hl]; exact h7) (by rw [hl]; exact h8)]
        exact hf i j k v h0 h7 h8
      · rw [hso.2.2.2.2.1 i j k v hp]
        exact hf i j k v h0 h7 h8)
  rw [← LBM_boundary_eq_sweep] at key
  refine ⟨key.1, key.2, ?_⟩
  intro i j k v h
  apply key.2 i j k v <;> rcases h with h | h <;> rw [h] <;> decide

theorem LBM_boundary_writes_labelled_only_witness :
    (grid2D.LatTyp 1 1 0 = 1 ∨ grid2D.LatTyp 1 1 0 = 2) ∧
      (LBM_boundary (cfg2D 0) 0 grid2D).f 1 1 0 4 = grid2D.f 1 1 0 4 :=
  ⟨by decide, (LBM_boundary_writes_labelled_only (cfg2D 0) 0 grid2D).2.2 1 1 0 4 (by decide)⟩

/-! ## Grid utilities -/

/-- C24. For every `x`, `upToZero x` is `max x 0`: it is `0` when `x < 0`, it is
`x` when `x >= 0`, and it is never negative. -/
theorem upToZero_eq_max {α : Type} [LinearOrder α] [Zero α] (x : α) :
    upToZero x = max x 0 ∧ (x < 0 → upToZero x = 0) ∧ (0 ≤ x → upToZero x = x) ∧
      0 ≤ upToZero x := by
  unfold upToZero
  by_cases h : x < 0
  · rw [if_pos h]
    exact ⟨(max_eq_right h.le).symm, fun _ => rfl, fun h0 => absurd h (not_lt.mpr h0), le_refl 0⟩
  · rw [if_neg h]
    exact ⟨(max_eq_left (not_lt.mp h)).symm, fun h0 => absurd h0 h, fun _ => rfl, not_lt.mp h⟩

theorem upToZero_eq_max_witness :
    (-3 : Int) < 0 ∧ upToZero (-3 : Int) = 0 ∧ (0 : ℚ) ≤ 5 / 2 ∧ upToZero (5 / 2 : ℚ) = 5 / 2 :=
  ⟨by decide, (upToZero_eq_max (-3 : Int)).2.1 (by decide), by norm_num,
    (upToZero_eq_max (5 / 2 : ℚ)).2.2.1 (by norm_num)⟩

/-- C25. For every `x` and `limit`, `downToLimit x limit` is `min x limit`: it
is `x` when `x <= limit`, it is `limit` when `x > limit`, and it never exceeds
`limit`. -/
theorem downToLimit_eq_min {α : Type} [LinearOrder α] (x limit : α) :
    downToLimit x limit = min x limit ∧ (x ≤ limit → downToLimit x limit = x) ∧
      (x > limit → downToLimit x limit = limit) ∧ downToLimit x limit ≤ limit := by
  unfold downToLimit
  by_cases h : x > limit
  · rw [if_pos h]
    exact ⟨(min_eq_right (le_of_lt h)).symm, fun h0 => absurd h (not_lt.mpr h0), fun _ => rfl,
      le_refl _⟩
  · rw [if_neg h]
    exact ⟨(min_eq_left (not_lt.mp h)).symm, fun _ => rfl, fun h0 => absurd h0 h, not_lt.mp h⟩

theorem downToLimit_eq_min_witness :
    (7 : Int) > 4 ∧ downToLimit (7 : Int) 4 = 4 ∧ (1 / 2 : ℚ) ≤ 3 ∧
      downToLimit (1 / 2 : ℚ) 3 = 1 / 2 :=
  ⟨by decide, (downToLimit_eq_min (7 : Int) 4).2.2.1 (by decide), by norm_num,
    (downToLimit_eq_min (1 / 2 : ℚ) 3).2.1 (by norm_num)⟩

theorem factorial_fuel (n fuel : Nat) (h : n < fuel) :
    factorial fuel (n : Int) = some ((Nat.factorial n : Nat) : Int) := by
  induction n generalizing fuel with
  | zero =>
    obtain ⟨m, rfl⟩ : ∃ m, fuel = m + 1 := ⟨fuel - 1, by omega⟩
    simp [factorial]
  | succ n ih =>
    obtain ⟨m, rfl⟩ : ∃ m, fuel = m + 1 := ⟨fuel - 1, by omega⟩
    have hne : ((n + 1 : Nat) : Int) ≠ 0 := by omega
    have hsub : ((n + 1 : Nat) : Int) - 1 = (n : Int) := by omega
    unfold factorial
    rw [if_neg hne, hsub, ih m (by omega)]
    simp [Nat.factorial_succ]

theorem factorial_unsigned_fuel (w n fuel : Nat) (hn : n < 2 ^ w) (h : n < fuel) :
    factorial_unsigned w fuel n = some (Nat.factorial n % 2 ^ w) := by
  induction n generalizing fuel with
  | zero =>
    obtain ⟨m, rfl⟩ : ∃ m, fuel = m + 1 := ⟨fuel - 1, by omega⟩
    simp [factorial_unsigned]
  | succ n ih =>
    obtain ⟨m, rfl⟩ : ∃ m, fuel = m + 1 := ⟨fuel - 1, by omega⟩
    have hsub : (n + 1 + 2 ^ w - 1) % 2 ^ w = n := by
      have e : n + 1 + 2 ^ w - 1 = n + 2 ^ w := by omega
      rw [e, Nat.add_mod_right, Nat.mod_eq_of_lt (by omega)]
    unfold factorial_unsigned
    rw [if_neg (by omega), hsub, ih m (by omega) (by omega)]
    simp only [Option.map_some', Nat.factorial_succ, Option.some.injEq]
    rw [Nat.mul_mod, Nat.mod_mod, ← Nat.mul_mod]

theorem factorial_negative (fuel : Nat) (z : Int) (hz : z < 0) : factorial fuel z = none := by
  induction fuel generalizing z with
  | zero => rfl
  | succ m ih =>
    unfold factorial
    rw [if_neg (by omega), ih (z - 1) (by omega)]
    rfl

/-- C23. For every non-negative integer `n`, `factorial(n)` reaches its base
case after `n + 1` calls (so it terminates, and more fuel changes nothing) and
returns `n!`: exactly over the unbounded integers, and modulo `2 ^ w` at a
`w`-bit unsigned type for `n < 2 ^ w`; `factorial(0)` is `1`. (At a negative
unbounded integer the recursion never reaches its base case.) -/
theorem factorial_correct (n : Nat) :
    factorial (n + 1) (n : Int) = some ((Nat.factorial n : Nat) : Int) ∧
    (∀ fuel, n < fuel → factorial fuel (n : Int) = some ((Nat.factorial n : Nat) : Int)) ∧
    factorial 1 0 = some 1 ∧
    (∀ w fuel, n < 2 ^ w → n < fuel →
      factorial_unsigned w fuel n = some (Nat.factorial n % 2 ^ w)) ∧
    (∀ fuel, factorial fuel (-1 - (n : Int)) = none) :=
  ⟨factorial_fuel n (n + 1) (Nat.lt_succ_self n), fun fuel h => factorial_fuel n fuel h, rfl,
    fun w fuel hn h => factorial_unsigned_fuel w n fuel hn h,
    fun fuel => factorial_negative fuel _ (by omega)⟩

theorem factorial_correct_witness :
    factorial 6 5 = some 120 ∧ (6 : Nat) < 2 ^ 8 ∧ 6 < 7 ∧
      factorial_unsigned 8 7 6 = some (720 % 2 ^ 8) :=
  ⟨(factorial_correct 5).1, by decide, by decide,
    (factorial_correct 6).2.2.2.1 8 7 (by decide) (by decide)⟩

/-! ## Off-grid detection with unsigned indices -/

theorem solid_step_off_grid (cfg : Config) (N_lim M_lim K_lim i j k v : Nat) (g : GridObj)
    (h : toSize ((i : Int) + cfg.c 0 v) ≥ N_lim ∨ toSize ((j : Int) + cfg.c 1 v) ≥ M_lim ∨
      toSize ((k : Int) + cfg.c 2 v) ≥ K_lim) :
    solid_step cfg N_lim M_lim K_lim i j k v g = g := by
  unfold solid_step
  simp only
  rw [if_pos]
  rcases h with h | h | h
  · exact Or.inl (Or.inl h)
  · exact Or.inr (Or.inl (Or.inl h))
  · exact Or.inr (Or.inr (Or.inl (Or.inl h)))

/-- C27. The neighbour index of the Solid branch is `src = (i + c) mod 2^64`, so
the test `src < 0` never holds. Still, for every extent `N` (a `size_t` value),
every `0 <= i < N` and every offset `c` in {-1, 0, 1}, the test `src >= N` holds
exactly when the integer `i + c` lies outside `[0, N)`; a neighbour at index
`-1` has `src = 2^64 - 1 >= N`. When the neighbour of direction `v` is off the
grid along some axis, the direction's pass of the Solid loop changes nothing and
the population `f(i,j,k,v)` is retained by the Solid update. -/
theorem solid_off_grid_detection (N i : Nat) (c : Int) (hN : N < 2 ^ 64) (hi : i < N)
    (hc : c = -1 ∨ c = 0 ∨ c = 1) :
    ¬ (toSize ((i : Int) + c) < 0) ∧
    (toSize ((i : Int) + c) ≥ N ↔ ((i : Int) + c < 0 ∨ (N : Int) ≤ (i : Int) + c)) ∧
    ((i : Int) + c = -1 → toSize ((i : Int) + c) = 2 ^ 64 - 1 ∧ toSize ((i : Int) + c) ≥ N) ∧
    (∀ (cfg : Config) (g : GridObj) (M K j k v : Nat), cfg.c 0 v = c →
      ((i : Int) + c < 0 ∨ (N : Int) ≤ (i : Int) + c) →
      solid_step cfg N M K i j k v g = g ∧
      (loop 0 cfg.nVels (solid_step cfg N M K i j k) g).f i j k v = g.f i j k v) := by
  have hiff : toSize ((i : Int) + c) ≥ N ↔ ((i : Int) + c < 0 ∨ (N : Int) ≤ (i : Int) + c) := by
    unfold toSize
    rcases hc with rfl | rfl | rfl <;> omega
  refine ⟨Nat.not_lt_zero _, hiff, ?_, ?_⟩
  · intro h
    rw [h]
    refine ⟨by decide, ?_⟩
    have e : toSize (-1) = 2 ^ 64 - 1 := by decide
    rw [e]; omega
  · intro cfg g M K j k v hcv hoff
    have hsrc : toSize ((i : Int) + cfg.c 0 v) ≥ N := by rw [hcv]; exact hiff.mpr hoff
    exact ⟨solid_step_off_grid cfg N M K i j k v g (Or.inl hsrc),
      solid_loop_retains cfg N M K i j k v g (Or.inl (Or.inl hsrc))⟩

theorem solid_off_grid_detection_witness :
    (3 : Nat) < 2 ^ 64 ∧ (0 : Nat) < 3 ∧ c_D2Q9 0 1 = -1 ∧
      toSize (((0 : Nat) : Int) + (-1)) = 2 ^ 64 - 1 ∧
      solid_step (cfg2D 0) 3 3 1 0 1 0 1 grid2D = grid2D :=
  ⟨by decide, by decide, by decide,
    ((solid_off_grid_detection 3 0 (-1) (by decide) (by decide) (Or.inl rfl)).2.2.1
      (by decide)).1,
    ((solid_off_grid_detection 3 0 (-1) (by decide) (by decide) (Or.inl rfl)).2.2.2
      (cfg2D 0) grid2D 3 1 1 0 1 (by decide) (Or.inl (by decide))).1⟩

/-! ## Zou-He: bounce-back of the off-equilibrium part along the wall normal -/

theorem spec_feq_normal_3D (cfg : Config) (rho : ℚ) (hd : cfg.dims = 3) (hc : cfg.c = c_D3Q19)
    (hw : cfg.w 1 = cfg.w 0) :
    spec_feq cfg rho 0 - spec_feq cfg rho 1 = 6 * cfg.w 0 * rho * cfg.u_0x := by
  have c00 : c_D3Q19 0 0 = 1 := by decide
  have c10 : c_D3Q19 1 0 = 0 := by decide
  have c20 : c_D3Q19 2 0 = 0 := by decide
  have c01 : c_D3Q19 0 1 = -1 := by decide
  have c11 : c_D3Q19 1 1 = 0 := by decide
  have c21 : c_D3Q19 2 1 = 0 := by decide
  simp only [spec_feq, hc, if_pos hd, c00, c10, c20, c01, c11, c21, hw]
  push_cast
  ring

theorem spec_feq_normal_2D (cfg : Config) (rho : ℚ) (hd : ¬ cfg.dims = 3) (hc : cfg.c = c_D2Q9)
    (hw : cfg.w 1 = cfg.w 0) :
    spec_feq cfg rho 0 - spec_feq cfg rho 1 = 6 * cfg.w 0 * rho * cfg.u_0x := by
  have c00 : c_D2Q9 0 0 = 1 := by decide
  have c10 : c_D2Q9 1 0 = 0 := by decide
  have c01 : c_D2Q9 0 1 = -1 := by decide
  have c11 : c_D2Q9 1 1 = 0 := by decide
  simp only [spec_feq, hc, if_neg hd, c00, c10, c01, c11, hw]
  push_cast
  ring

theorem bc_applyZouHe_normal_3D (cfg : Config) (g : GridObj) (i j k : Nat)
    (hd : cfg.dims = 3) (hn : cfg.nVels = 19) :
    (bc_applyZouHe cfg g i j k).f i j k 0 - (bc_applyZouHe cfg g i j k).f i j k 1 =
      (1 / 3) * rho_w_3D cfg (ftmp_init cfg g i j k) * cfg.u_0x := by
  rw [ftmp_init_eq, hn]
  simp only [bc_applyZouHe_f, hn, hd, if_true, true_and, Nat.reduceLT]
  simp only [range_19, List.map, zouHe3D_explicit]
  generalize rho_w_3D cfg _ = r
  simp only [rd, List.getD_cons_succ, List.getD_cons_zero]
  ring

theorem bc_applyZouHe_normal_2D (cfg : Config) (g : GridObj) (i j k : Nat)
    (hd : ¬ cfg.dims = 3) (hn : cfg.nVels = 9) :
    (bc_applyZouHe cfg g i j k).f i j k 0 - (bc_applyZouHe cfg g i j k).f i j k 1 =
      (2 / 3) * rho_w_2D cfg (ftmp_init cfg g i j k) * cfg.u_0x := by
  rw [ftmp_init_eq, hn]
  simp only [bc_applyZouHe_f, hn, hd, if_false, if_true, true_and, Nat.reduceLT]
  simp only [range_9, List.map, zouHe2D_explicit]
  generalize rho_w_2D cfg _ = r
  simp only [rd, List.getD_cons_succ, List.getD_cons_zero]
  ring

/-- C28. After `bc_applyZouHe`, for every input, the populations of directions 0
and 1 (the wall normal) satisfy `f0 - feq_0 = f1 - feq_1`, with `feq` the
standard second-order equilibrium at the computed `rho_w` and the prescribed
velocity, and `f0 - f1 = (2 w_0 / cs^2) rho_w u_0x`: that is
`(1/3) rho_w u_0x` in 3D (19 directions, `w_0 = w_1 = 1/18`) and
`(2/3) rho_w u_0x` in 2D (9 directions, `w_0 = w_1 = 1/9`), with `cs^2 = 1/3`. -/
theorem bc_applyZouHe_normal_bounce_back (cfg : Config) (g : GridObj) (i j k : Nat)
    (hcs : cfg.cs_sq = 1 / 3) :
    (cfg.dims = 3 → cfg.nVels = 19 → cfg.c = c_D3Q19 → cfg.w 0 = 1 / 18 → cfg.w 1 = 1 / 18 →
      (bc_applyZouHe cfg g i j k).f i j k 0
          - spec_feq cfg (rho_w_3D cfg (ftmp_init cfg g i j k)) 0 =
        (bc_applyZouHe cfg g i j k).f i j k 1
          - spec_feq cfg (rho_w_3D cfg (ftmp_init cfg g i j k)) 1 ∧
      (bc_applyZouHe cfg g i j k).f i j k 0 - (bc_applyZouHe cfg g i j k).f i j k 1 =
        (2 * cfg.w 0 / cfg.cs_sq) * rho_w_3D cfg (ftmp_init cfg g i j k) * cfg.u_0x ∧
      (bc_applyZouHe cfg g i j k).f i j k 0 - (bc_applyZouHe cfg g i j k).f i j k 1 =
        (1 / 3) * rho_w_3D cfg (ftmp_init cfg g i j k) * cfg.u_0x) ∧
    (cfg.dims ≠ 3 → cfg.nVels = 9 → cfg.c = c_D2Q9 → cfg.w 0 = 1 / 9 → cfg.w 1 = 1 / 9 →
      (bc_applyZouHe cfg g i j k).f i j k 0
          - spec_feq cfg (rho_w_2D cfg (ftmp_init cfg g i j k)) 0 =
        (bc_applyZouHe cfg g i j k).f i j k 1
          - spec_feq cfg (rho_w_2D cfg (ftmp_init cfg g i j k)) 1 ∧
      (bc_applyZouHe cfg g i j k).f i j k 0 - (bc_applyZouHe cfg g i j k).f i j k 1 =
        (2 * cfg.w 0 / cfg.cs_sq) * rho_w_2D cfg (ftmp_init cfg g i j k) * cfg.u_0x ∧
      (bc_applyZouHe cfg g i j k).f i j k 0 - (bc_applyZouHe cfg g i j k).f i j k 1 =
        (2 / 3) * rho_w_2D cfg (ftmp_init cfg g i j k) * cfg.u_0x) := by
  constructor
  · intro hd hn hc hw0 hw1
    have hf := bc_applyZouHe_normal_3D cfg g i j k hd hn
    have he := spec_feq_normal_3D cfg (rho_w_3D cfg (ftmp_init cfg g i j k)) hd hc
      (hw1.trans hw0.symm)
    rw [hw0] at he
    refine ⟨?_, ?_, hf⟩
    · linear_combination hf - he
    · rw [hf, hw0, hcs]; norm_num
  · intro hd hn hc hw0 hw1
    have hf := bc_applyZouHe_normal_2D cfg g i j k hd hn
    have he := spec_feq_normal_2D cfg (rho_w_2D cfg (ftmp_init cfg g i j k)) hd hc
      (hw1.trans hw0.symm)
    rw [hw0] at he
    refine ⟨?_, ?_, hf⟩
    · linear_combination hf - he
    · rw [hf, hw0, hcs]; norm_num

theorem bc_applyZouHe_normal_bounce_back_witness :
    (cfg2D (1 / 10)).cs_sq = 1 / 3 ∧ (cfg2D (1 / 10)).dims ≠ 3 ∧
      (bc_applyZouHe (cfg2D (1 / 10)) grid2D 0 1 0).f 0 1 0 0
        - (bc_applyZouHe (cfg2D (1 / 10)) grid2D 0 1 0).f 0 1 0 1 =
      (2 / 3) * rho_w_2D (cfg2D (1 / 10)) (ftmp_init (cfg2D (1 / 10)) grid2D 0 1 0)
        * (cfg2D (1 / 10)).u_0x :=
  ⟨rfl, by decide,
    ((bc_applyZouHe_normal_bounce_back (cfg2D (1 / 10)) grid2D 0 1 0 rfl).2 (by decide) rfl rfl
      (by norm_num [cfg2D, w_D2Q9]) (by norm_num [cfg2D, w_D2Q9])).2.2⟩

/-! ## The inlet strategy -/

/-- The state in which the sweep reaches a site of the grid: it has the labels
of `g` and the site's prior populations, density and velocity, and the site's
final values are those left by the update of the site. -/
theorem LBM_boundary_arrival (cfg : Config) (flag : Int) (g : GridObj) (i j k : Nat)
    (hi : i < g.XPos.length) (hj : j < g.YPos.length) (hk : k < g.ZPos.length) :
    ∃ g1 : GridObj, g1.LatTyp = g.LatTyp ∧ g.SameAt g1 i j k ∧
      (LBM_boundary_site cfg flag g.XPos.length g.YPos.length g.ZPos.length
        i j k g1).SameAt (LBM_boundary cfg flag g) i j k := by
  have key := sweep_at_site (fun t => t.LatTyp = g.LatTyp ∧ g.SameAt t i j k)
    (fun t => ∃ g1 : GridObj, g1.LatTyp = g.LatTyp ∧ g.SameAt g1 i j k ∧
      (LBM_boundary_site cfg flag g.XPos.length g.YPos.length g.ZPos.length
        i j k g1).SameAt t i j k)
    g.XPos.length g.YPos.length g.ZPos.length
    (LBM_boundary_site cfg flag g.XPos.length g.YPos.length g.ZPos.length) g i j k
    hi hj hk ⟨rfl, SameAt_refl g i j k⟩
    (by
      intro i1 j1 k1 hne t ⟨hl, hsame⟩
      have hso := SameOutside_LBM_boundary_site cfg flag g.XPos.length g.YPos.length
        g.ZPos.length i1 j1 k1 t
      exact ⟨hso.2.2.2.1.trans hl, SameAt_trans hsame (SameAt_of_SameOutside hso
        (fun hh => hne ⟨hh.1.symm, hh.2.1.symm, hh.2.2.symm⟩))⟩)
    (fun t ht => ⟨t, ht.1, ht.2, SameAt_refl _ i j k⟩)
    (by
      intro i1 j1 k1 hne t ⟨g1, hl, hsame, hfin⟩
      have hso := SameOutside_LBM_boundary_site cfg flag g.XPos.length g.YPos.length
        g.ZPos.length i1 j1 k1 t
      exact ⟨g1, hl, hsame, SameAt_trans hfin (SameAt_of_SameOutside hso
        (fun hh => hne ⟨hh.1.symm, hh.2.1.symm, hh.2.2.symm⟩))⟩)
  rw [← LBM_boundary_eq_sweep] at key
  exact key

theorem inlet_site_eq_apply (cfg : Config) (i j k : Nat) (g : GridObj) :
    inlet_site cfg i j k g = inlet_apply (inlet_strategy cfg) cfg i j k g := by
  unfold inlet_site inlet_strategy
  split_ifs <;> rfl

theorem inlet_strategy_cases (cfg : Config) :
    (inlet_strategy cfg = InletStrategy.zouHe ↔
      (cfg.INLET_ON ∧ ¬ cfg.INLET_DO_NOTHING ∧ ¬ cfg.INLET_REGULARISED)) ∧
    (inlet_strategy cfg = InletStrategy.regularised ↔
      (cfg.INLET_ON ∧ ¬ cfg.INLET_DO_NOTHING ∧ cfg.INLET_REGULARISED)) ∧
    (inlet_strategy cfg = InletStrategy.doNothing ↔
      (¬ cfg.INLET_ON ∨ cfg.INLET_DO_NOTHING)) ∧
    (((cfg.INLET_ON ∧ ¬ cfg.INLET_DO_NOTHING ∧ ¬ cfg.INLET_REGULARISED) ∧
        ¬ (cfg.INLET_ON ∧ ¬ cfg.INLET_DO_NOTHING ∧ cfg.INLET_REGULARISED) ∧
        ¬ (¬ cfg.INLET_ON ∨ cfg.INLET_DO_NOTHING)) ∨
      (¬ (cfg.INLET_ON ∧ ¬ cfg.INLET_DO_NOTHING ∧ ¬ cfg.INLET_REGULARISED) ∧
        (cfg.INLET_ON ∧ ¬ cfg.INLET_DO_NOTHING ∧ cfg.INLET_REGULARISED) ∧
        ¬ (¬ cfg.INLET_ON ∨ cfg.INLET_DO_NOTHING)) ∨
      (¬ (cfg.INLET_ON ∧ ¬ cfg.INLET_DO_NOTHING ∧ ¬ cfg.INLET_REGULARISED) ∧
        ¬ (cfg.INLET_ON ∧ ¬ cfg.INLET_DO_NOTHING ∧ cfg.INLET_REGULARISED) ∧
        (¬ cfg.INLET_ON ∨ cfg.INLET_DO_NOTHING))) := by
  unfold inlet_strategy
  cases cfg.INLET_ON <;> cases cfg.INLET_DO_NOTHING <;> cases cfg.INLET_REGULARISED <;> decide

/-- C29. The inlet strategy is fixed by the build: it is Zou-He iff the inlet is
on, not do-nothing and not regularised; the regularised reconstruction iff the
inlet is on, not do-nothing and regularised; and nothing iff the inlet is off or
do-nothing; exactly one of the three conditions holds. At an Inlet site of the
grid selected by the flag (0, 2 or 4), `LBM_boundary` reaches the site in a state
`g1` with the site's prior values and leaves at the site the values produced
from `g1` by the chosen strategy; with the do-nothing outcome the site's
populations, density and velocity are unchanged. -/
theorem LBM_boundary_inlet_strategy (cfg : Config) (flag : Int) (g : GridObj) (i j k : Nat)
    (hi : i < g.XPos.length) (hj : j < g.YPos.length) (hk : k < g.ZPos.length)
    (h7 : g.LatTyp i j k = 7) (hf : flag = 0 ∨ flag = 2 ∨ flag = 4) :
    (inlet_strategy cfg = InletStrategy.zouHe ↔
      (cfg.INLET_ON ∧ ¬ cfg.INLET_DO_NOTHING ∧ ¬ cfg.INLET_REGULARISED)) ∧
    (inlet_strategy cfg = InletStrategy.regularised ↔
      (cfg.INLET_ON ∧ ¬ cfg.INLET_DO_NOTHING ∧ cfg.INLET_REGULARISED)) ∧
    (inlet_strategy cfg = InletStrategy.doNothing ↔
      (¬ cfg.INLET_ON ∨ cfg.INLET_DO_NOTHING)) ∧
    (((cfg.INLET_ON ∧ ¬ cfg.INLET_DO_NOTHING ∧ ¬ cfg.INLET_REGULARISED) ∧
        ¬ (cfg.INLET_ON ∧ ¬ cfg.INLET_DO_NOTHING ∧ cfg.INLET_REGULARISED) ∧
        ¬ (¬ cfg.INLET_ON ∨ cfg.INLET_DO_NOTHING)) ∨
      (¬ (cfg.INLET_ON ∧ ¬ cfg.INLET_DO_NOTHING ∧ ¬ cfg.INLET_REGULARISED) ∧
        (cfg.INLET_ON ∧ ¬ cfg.INLET_DO_NOTHING ∧ cfg.INLET_REGULARISED) ∧
        ¬ (¬ cfg.INLET_ON ∨ cfg.INLET_DO_NOTHING)) ∨
      (¬ (cfg.INLET_ON ∧ ¬ cfg.INLET_DO_NOTHING ∧ ¬ cfg.INLET_REGULARISED) ∧
        ¬ (cfg.INLET_ON ∧ ¬ cfg.INLET_DO_NOTHING ∧ cfg.INLET_REGULARISED) ∧
        (¬ cfg.INLET_ON ∨ cfg.INLET_DO_NOTHING))) ∧
    (∃ g1 : GridObj, g1.LatTyp = g.LatTyp ∧ g.SameAt g1 i j k ∧
      (inlet_apply (inlet_strategy cfg) cfg i j k g1).SameAt (LBM_boundary cfg flag g) i j k ∧
      (inlet_strategy cfg = InletStrategy.zouHe →
        (bc_applyZouHe cfg g1 i j k).SameAt (LBM_boundary cfg flag g) i j k) ∧
      (inlet_strategy cfg = InletStrategy.regularised →
        (bc_applyRegularised cfg g1 i j k).SameAt (LBM_boundary cfg flag g) i j k)) ∧
    (inlet_strategy cfg = InletStrategy.doNothing →
      g.SameAt (LBM_boundary cfg flag g) i j k) := by
  obtain ⟨c1, c2, c3, c4⟩ := inlet_strategy_cases cfg
  obtain ⟨g1, hl, hsame, hfin⟩ := LBM_boundary_arrival cfg flag g i j k hi hj hk
  have h0' : ¬ (g1.LatTyp i j k = 0 ∧ (flag = 0 ∨ flag = 1)) := by
    rw [hl, h7]; exact fun hh => absurd hh.1 (by decide)
  have h7' : g1.LatTyp i j k = 7 ∧ (flag = 0 ∨ flag = 2 ∨ flag = 4) := by
    rw [hl]; exact ⟨h7, hf⟩
  unfold LBM_boundary_site at hfin
  rw [if_neg h0', if_pos h7', inlet_site_eq_apply] at hfin
  refine ⟨c1, c2, c3, c4, ⟨g1, hl, hsame, hfin, ?_, ?_⟩, ?_⟩
  · intro hs
    rw [hs] at hfin
    exact hfin
  · intro hs
    rw [hs] at hfin
    exact hfin
  · intro hs
    rw [hs] at hfin
    exact SameAt_trans hsame hfin

theorem LBM_boundary_inlet_strategy_witness :
    grid2D.LatTyp 0 1 0 = 7 ∧ inlet_strategy cfg2D_idle = InletStrategy.doNothing ∧
      grid2D.SameAt (LBM_boundary cfg2D_idle 0 grid2D) 0 1 0 :=
  ⟨by decide, by decide,
    (LBM_boundary_inlet_strategy cfg2D_idle 0 grid2D 0 1 0 (by decide) (by decide) (by decide)
      (by decide) (Or.inl rfl)).2.2.2.2.2 (by decide)⟩

/-! ## Grid utilities: strided copy -/

theorem memcpy_spec {α : Type} (dest src : List α) (d s n : Nat)
    (h1 : d + n ≤ dest.length) (h2 : s + n ≤ src.length) :
    ∃ dest1 : List α, memcpy dest src d s n = some (dest1, src) ∧
      dest1.length = dest.length ∧
      (∀ b, b < n → dest1[d + b]? = src[s + b]?) ∧
      (∀ m, m < d ∨ d + n ≤ m → dest1[m]? = dest[m]?) := by
  refine ⟨dest.take d ++ (src.drop s).take n ++ dest.drop (d + n), ?_, ?_, ?_, ?_⟩
  · unfold memcpy
    rw [if_pos ⟨h1, h2⟩]
  · simp only [List.length_append, List.length_take, List.length_drop]
    omega
  · intro b hb
    have hl1 : (dest.take d ++ (src.drop s).take n).length = d + n := by
      simp only [List.length_append, List.length_take, List.length_drop]
      omega
    have hl0 : (dest.take d).length = d := by
      simp only [List.length_take]
      omega
    rw [List.getElem?_append_left (by omega), List.getElem?_append_right (by omega), hl0,
      List.getElem?_take_of_lt (by omega), List.getElem?_drop]
    congr 1
    omega
  · intro m hm
    have hl1 : (dest.take d ++ (src.drop s).take n).length = d + n := by
      simp only [List.length_append, List.length_take, List.length_drop]
      omega
    have hl0 : (dest.take d).length = d := by
      simp only [List.length_take]
      omega
    rcases hm with hm | hm
    · rw [List.getElem?_append_left (by omega), List.getElem?_append_left (by omega),
        List.getElem?_take_of_lt hm]
    · rw [List.getElem?_append_right (by omega), hl1, List.getElem?_drop]
      congr 1
      omega

/-- The state of the loop of `stridedCopy` after `n <= count` passes. -/
theorem stridedCopy_loop {α : Type} (dest src : List α)
    (block offset stride count buf_offset : Nat)
    (hd : buf_offset + count * block ≤ dest.length) (hdl : dest.length < 2 ^ 64)
    (hs : ∀ i, i < count → offset + stride * i + block ≤ src.length)
    (hsl : src.length < 2 ^ 64) (n : Nat) (hn : n ≤ count) :
    ∃ dn : List α,
      loop 0 n (fun i st =>
        st.bind (fun (m : (List α × List α) × Nat) =>
          (memcpy m.1.1 m.1.2 m.2 (offset + (stride * i) % 2 ^ 64) block).map
            (fun m1 => (m1, (m.2 + block) % 2 ^ 64))))
        (some ((dest, src), buf_offset)) = some ((dn, src), buf_offset + n * block) ∧
      dn.length = dest.length ∧
      (∀ i b, i < n → b < block →
        dn[buf_offset + i * block + b]? = src[offset + i * stride + b]?) ∧
      (∀ m, m < buf_offset ∨ buf_offset + n * block ≤ m → dn[m]? = dest[m]?) := by
  induction n with
  | zero =>
    exact ⟨dest, by rw [loop_zero_zero]; simp, rfl, fun i b hi _ => absurd hi (by omega),
      fun _ _ => rfl⟩
  | succ n ih =>
    obtain ⟨dn, hloop, hlen, hcopy, hframe⟩ := ih (by omega)
    have hmul : (n + 1) * block ≤ count * block := Nat.mul_le_mul_right block hn
    have hsn := hs n (by omega)
    have hstride : (stride * n) % 2 ^ 64 = stride * n := Nat.mod_eq_of_lt (by omega)
    have hnb : (n + 1) * block = n * block + block := by ring
    obtain ⟨d1, hm, hlen1, hcopy1, hframe1⟩ := memcpy_spec dn src (buf_offset + n * block)
      (offset + stride * n) block (by omega) hsn
    refine ⟨d1, ?_, hlen1.trans hlen, ?_, ?_⟩
    · rw [loop_zero_succ, hloop]
      simp only [Option.some_bind, hstride, hm, Option.map_some']
      have hbo : (buf_offset + n * block + block) % 2 ^ 64 = buf_offset + (n + 1) * block :=
        by rw [Nat.mod_eq_of_lt (by omega)]; omega
      rw [hbo]
    · intro i b hi hb
      by_cases hin : i = n
      · subst hin
        rw [Nat.add_assoc, Nat.add_assoc] at *
        have e1 : buf_offset + (i * block + b) = buf_offset + i * block + b := by omega
        rw [e1, hcopy1 b hb, Nat.mul_comm i stride]
        congr 1
        omega
      · have hlt : i < n := by omega
        have hib : (i + 1) * block ≤ n * block := Nat.mul_le_mul_right block hlt
        have hib2 : (i + 1) * block = i * block + block := by ring
        rw [hframe1 _ (Or.inl (by omega))]
        exact hcopy i b hlt hb
    · intro m hm1
      rcases hm1 with hm1 | hm1
      · rw [hframe1 m (Or.inl (by omega))]
        exact hframe m (Or.inl hm1)
      · rw [hframe1 m (Or.inr (by omega))]
        exact hframe m (Or.inr (by omega))

/-- C22. For two distinct buffers that are large enough (the `count` blocks fit
into `dest` from `buf_offset` on, every source block lies inside `src`, and
both lengths are `size_t` values), `stridedCopy` returns, and afterwards
`dest[buf_offset + i*block + b] = src[offset + i*stride + b]` for every
`i < count` and `b < block`, every other element of `dest` and every element of
`src` is unchanged, and `dest` keeps its length. -/
theorem stridedCopy_copies {α : Type} (dest src : List α)
    (block offset stride count buf_offset : Nat)
    (hd : buf_offset + count * block ≤ dest.length) (hdl : dest.length < 2 ^ 64)
    (hs : ∀ i, i < count → offset + stride * i + block ≤ src.length)
    (hsl : src.length < 2 ^ 64) :
    ∃ dest1 : List α,
      stridedCopy dest src block offset stride count buf_offset = some (dest1, src) ∧
      dest1.length = dest.length ∧
      (∀ i b, i < count → b < block →
        dest1[buf_offset + i * block + b]? = src[offset + i * stride + b]? ∧
        ∃ x, src[offset + i * stride + b]? = some x) ∧
      (∀ m, m < buf_offset ∨ buf_offset + count * block ≤ m → dest1[m]? = dest[m]?) := by
  obtain ⟨dn, hloop, hlen, hcopy, hframe⟩ := stridedCopy_loop dest src block offset stride
    count buf_offset hd hdl hs hsl count (le_refl count)
  refine ⟨dn, ?_, hlen, ?_, hframe⟩
  · unfold stridedCopy
    rw [hloop]
    rfl
  · intro i b hi hb
    refine ⟨hcopy i b hi hb, ?_⟩
    have hsi := hs i hi
    have hlt : offset + i * stride + b < src.length := by
      rw [Nat.mul_comm i stride]; omega
    exact ⟨src[offset + i * stride + b], List.getElem?_eq_getElem hlt⟩

theorem stridedCopy_copies_witness :
    stridedCopy [0, 0, 0, 0, 0, 0] [10, 11, 12, 13, 14, 15, 16, 17] 2 1 3 2 1
      = some ([0, 11, 12, 14, 15, 0], [10, 11, 12, 13, 14, 15, 16, 17]) ∧
    ∃ dest1 : List Nat,
      stridedCopy [0, 0, 0, 0, 0, 0] [10, 11, 12, 13, 14, 15, 16, 17] 2 1 3 2 1
        = some (dest1, [10, 11, 12, 13, 14, 15, 16, 17]) ∧
      dest1.length = 6 :=
  ⟨by decide,
    (stridedCopy_copies [0, 0, 0, 0, 0, 0] [10, 11, 12, 13, 14, 15, 16, 17] 2 1 3 2 1
      (by decide) (by decide) (by decide) (by decide)).imp (fun _ h => ⟨h.1, h.2.1⟩)⟩

/-! ## Grid utilities: coarse and fine indices -/

/-- C26. For every coarse index `(ci, cj, ck)` and all level origins, the block
returned by `getFineIndices` contains a fine index (its first entry, the even
corner of the block) that `getCoarseIndices` maps back to `(ci, cj, ck)`; the
block has `2^dims` entries; and when the coarse index is not below the origin
along any axis, every fine index of the block is mapped back to it. -/
theorem getCoarseIndices_getFineIndices (dims : Nat) (ci xs cj ys ck zs : Int) :
    (∃ p ∈ getFineIndices dims ci xs cj ys ck zs,
      getCoarseIndices p.1 xs p.2.1 ys p.2.2 zs = (ci, cj, ck)) ∧
    (getFineIndices dims ci xs cj ys ck zs).head? =
      some (2 * (ci - xs), 2 * (cj - ys), 2 * (ck - zs)) ∧
    getCoarseIndices (2 * (ci - xs)) xs (2 * (cj - ys)) ys (2 * (ck - zs)) zs = (ci, cj, ck) ∧
    (dims = 2 ∨ dims = 3 → (getFineIndices dims ci xs cj ys ck zs).length = 2 ^ dims) ∧
    (xs ≤ ci → ys ≤ cj → zs ≤ ck → ∀ p ∈ getFineIndices dims ci xs cj ys ck zs,
      getCoarseIndices p.1 xs p.2.1 ys p.2.2 zs = (ci, cj, ck)) := by
  have hround : ∀ c s : Int, Int.tdiv (2 * (c - s)) 2 + s = c := by
    intro c s
    rw [Int.mul_tdiv_cancel_left _ (by decide)]
    omega
  have hround1 : ∀ c s : Int, s ≤ c → Int.tdiv (2 * (c - s) + 1) 2 + s = c := by
    intro c s h
    rw [Int.tdiv_eq_ediv (by omega) (by decide)]
    omega
  have h0 : getCoarseIndices (2 * (ci - xs)) xs (2 * (cj - ys)) ys (2 * (ck - zs)) zs
      = (ci, cj, ck) := by
    unfold getCoarseIndices
    rw [hround, hround, hround]
  have hhead : (getFineIndices dims ci xs cj ys ck zs).head? =
      some (2 * (ci - xs), 2 * (cj - ys), 2 * (ck - zs)) := by
    unfold getFineIndices
    by_cases hd : dims = 3 <;> simp [hd]
  refine ⟨?_, hhead, h0, ?_, ?_⟩
  · refine ⟨(2 * (ci - xs), 2 * (cj - ys), 2 * (ck - zs)), ?_, h0⟩
    exact List.mem_of_mem_head? hhead
  · intro hd
    unfold getFineIndices
    rcases hd with hd | hd <;> subst hd <;> simp
  · intro hx hy hz p hp
    unfold getFineIndices at hp
    unfold getCoarseIndices
    by_cases hd : dims = 3
    · simp only [hd, if_true, List.flatMap_cons, List.flatMap_nil, List.map_cons, List.map_nil,
        List.append_nil, List.cons_append, List.nil_append, List.mem_cons, List.mem_nil_iff,
        or_false] at hp
      rcases hp with rfl | rfl | rfl | rfl | rfl | rfl | rfl | rfl <;>
        simp only [add_zero, hround, hround1 _ _ hx, hround1 _ _ hy, hround1 _ _ hz]
    · simp only [hd, if_false, List.flatMap_cons, List.flatMap_nil, List.map_cons, List.map_nil,
        List.append_nil, List.cons_append, List.nil_append, List.mem_cons, List.mem_nil_iff,
        or_false] at hp
      rcases hp with rfl | rfl | rfl | rfl <;>
        simp only [add_zero, hround, hround1 _ _ hx, hround1 _ _ hy, hround1 _ _ hz]

theorem getCoarseIndices_getFineIndices_witness :
    ((3 : Nat) = 2 ∨ (3 : Nat) = 3) ∧ (getFineIndices 3 5 2 7 3 4 4).length = 2 ^ 3 ∧
      (2 : Int) ≤ 5 ∧ (3 : Int) ≤ 7 ∧ (4 : Int) ≤ 4 ∧
      getCoarseIndices 7 2 9 3 1 4 = (5, 7, 4) :=
  ⟨by decide, (getCoarseIndices_getFineIndices 3 5 2 7 3 4 4).2.2.2.1 (Or.inr rfl),
    by decide, by decide, by decide,
    (getCoarseIndices_getFineIndices 3 5 2 7 3 4 4).2.2.2.2 (by decide) (by decide) (by decide)
      (7, 9, 1) (by decide)⟩

/-! ## Bounds-checked embedding: agreement with the unchecked one -/

theorem foldl_bind_none {σ : Type} (body : Nat → σ → Option σ) (l : List Nat) :
    l.foldl (fun acc n => acc.bind (body n)) none = none := by
  induction l with
  | nil => rfl
  | cons a l ih => simpa using ih

theorem foldl_chk_eq_some {σ : Type} (P : σ → Prop) (body : Nat → σ → Option σ)
    (body1 : Nat → σ → σ) (l : List Nat) (s : σ) (h0 : P s)
    (hP : ∀ n, n ∈ l → ∀ t, P t → P (body1 n t))
    (h : ∀ n, n ∈ l → ∀ t, P t → body n t = some (body1 n t)) :
    l.foldl (fun acc n => acc.bind (body n)) (some s) =
      some (l.foldl (fun acc n => body1 n acc) s) := by
  induction l generalizing s with
  | nil => rfl
  | cons a l ih =>
    simp only [List.foldl_cons, Option.some_bind]
    rw [h a (List.mem_cons_self _ _) s h0]
    exact ih _ (hP a (List.mem_cons_self _ _) s h0)
      (fun n hn t ht => hP n (List.mem_cons_of_mem _ hn) t ht)
      (fun n hn t ht => h n (List.mem_cons_of_mem _ hn) t ht)

/-- A checked loop whose passes all succeed, under an invariant `P`, returns the
state of the unchecked loop. -/
theorem loop_chk_eq_some {σ : Type} (P : σ → Prop) (lo hi : Nat) (body : Nat → σ → Option σ)
    (body1 : Nat → σ → σ) (s : σ) (h0 : P s)
    (hP : ∀ n, lo ≤ n → n < hi → ∀ t, P t → P (body1 n t))
    (h : ∀ n, lo ≤ n → n < hi → ∀ t, P t → body n t = some (body1 n t)) :
    loop_chk lo hi body s = some (loop lo hi body1 s) := by
  unfold loop_chk loop
  apply foldl_chk_eq_some P body body1 _ s h0
  · intro n hn t ht
    rw [List.mem_range'_1] at hn
    exact hP n hn.1 (by omega) t ht
  · intro n hn t ht
    rw [List.mem_range'_1] at hn
    exact h n hn.1 (by omega) t ht

/-- A checked loop whose first pass fails returns `none`. -/
theorem loop_chk_first_none {σ : Type} (lo hi : Nat) (body : Nat → σ → Option σ) (s : σ)
    (hlt : lo < hi) (hb : body lo s = none) : loop_chk lo hi body s = none := by
  unfold loop_chk loop
  obtain ⟨m, hm⟩ : ∃ m, hi - lo = m + 1 := ⟨hi - lo - 1, by omega⟩
  rw [hm, List.range'_succ]
  simp only [List.foldl_cons, Option.some_bind, hb]
  exact foldl_bind_none body _

theorem readF_on_grid (g : GridObj) (nVels i j k v : Nat) (hi : i < g.XPos.length)
    (hj : j < g.YPos.length) (hk : k < g.ZPos.length) (hv : v < nVels) :
    g.readF nVels (i : Int) j k v = some (g.f i j k v) := by
  unfold GridObj.readF
  rw [if_pos ⟨by omega, by omega, hj, hk, hv⟩]
  simp

theorem writeF_on_grid (g : GridObj) (nVels i j k v : Nat) (y : ℚ) (hi : i < g.XPos.length)
    (hj : j < g.YPos.length) (hk : k < g.ZPos.length) (hv : v < nVels) :
    g.writeF nVels (i : Int) j k v y = some (g.setF i j k v y) := by
  unfold GridObj.writeF
  rw [if_pos ⟨by omega, by omega, hj, hk, hv⟩]
  simp

theorem readF_negative (g : GridObj) (nVels : Nat) (x : Int) (j k v : Nat) (hx : x < 0) :
    g.readF nVels x j k v = none := by
  unfold GridObj.readF
  rw [if_neg (fun h => by omega)]

theorem rd_chk_eq (ftmp : List ℚ) (n : Nat) (h : n < ftmp.length) :
    rd_chk ftmp n = some (rd ftmp n) := by
  unfold rd_chk rd
  rw [List.getD_eq_getElem?_getD, List.getElem?_eq_getElem h]
  rfl

theorem ftmp_init_chk_eq (cfg : Config) (g : GridObj) (i j k : Nat) (hi : i < g.XPos.length)
    (hj : j < g.YPos.length) (hk : k < g.ZPos.length) :
    ftmp_init_chk cfg g i j k = some (ftmp_init cfg g i j k) := by
  unfold ftmp_init_chk ftmp_init
  apply loop_chk_eq_some (fun _ => True) 0 cfg.nVels _ _ [] trivial (fun _ _ _ _ _ => trivial)
  intro n _ hn t _
  rw [readF_on_grid g cfg.nVels i j k n hi hj hk hn]
  rfl

theorem ftmp_store_chk_eq (cfg : Config) (ftmp : List ℚ) (g : GridObj) (i j k : Nat)
    (hi : i < g.XPos.length) (hj : j < g.YPos.length) (hk : k < g.ZPos.length)
    (hlen : cfg.nVels ≤ ftmp.length) :
    ftmp_store_chk cfg ftmp i j k g = some (ftmp_store cfg ftmp i j k g) := by
  unfold ftmp_store_chk ftmp_store
  apply loop_chk_eq_some
    (fun t => t.XPos = g.XPos ∧ t.YPos = g.YPos ∧ t.ZPos = g.ZPos) 0 cfg.nVels _
    (fun n acc => acc.setF i j k n (rd ftmp n)) g ⟨rfl, rfl, rfl⟩ (fun _ _ _ t ht => ht)
  intro n _ hn t ht
  rw [rd_chk_eq ftmp n (by omega), Option.some_bind]
  exact writeF_on_grid t cfg.nVels i j k n _ (by rw [ht.1]; exact hi) (by rw [ht.2.1]; exact hj)
    (by rw [ht.2.2]; exact hk) hn

theorem extrapolate_chk_eq (cfg : Config) (g : GridObj) (i j k v : Nat)
    (h2 : 2 ≤ i) (hi : i < g.XPos.length) (hN : g.XPos.length < 2 ^ 64)
    (hj : j < g.YPos.length) (hk : k < g.ZPos.length) (hv : v < cfg.nVels) :
    extrapolate_chk cfg i j k v g = some (extrapolate cfg i j k v g) := by
  have e1 : ((i : Int) - 1) = ((i - 1 : Nat) : Int) := by omega
  have e2 : ((i : Int) - 2) = ((i - 2 : Nat) : Int) := by omega
  have t1 : toSize ((i : Int) - 1) = i - 1 := by rw [e1]; exact toSize_ofNat _ (by omega)
  have t2 : toSize ((i : Int) - 2) = i - 2 := by rw [e2]; exact toSize_ofNat _ (by omega)
  unfold extrapolate_chk extrapolate
  rw [e1, e2] at *
  rw [readF_on_grid g cfg.nVels (i - 1) j k v (by omega) hj hk hv,
    readF_on_grid g cfg.nVels (i - 2) j k v (by omega) hj hk hv]
  simp only [Option.some_bind]
  rw [writeF_on_grid g cfg.nVels i j k v _ hi hj hk hv, t1, t2]

theorem bc_applyExtrapolation_chk_eq (cfg : Config) (g : GridObj) (i j k : Nat)
    (hnv : (cfg.dims = 3 ∧ cfg.nVels = 19) ∨ (cfg.dims = 2 ∧ cfg.nVels = 9))
    (h2 : 2 ≤ i) (hi : i < g.XPos.length) (hN : g.XPos.length < 2 ^ 64)
    (hj : j < g.YPos.length) (hk : k < g.ZPos.length) :
    bc_applyExtrapolation_chk cfg g i j k = some (bc_applyExtrapolation cfg g i j k) := by
  have hpres : ∀ (v : Nat) (t : GridObj),
      t.XPos = g.XPos ∧ t.YPos = g.YPos ∧ t.ZPos = g.ZPos →
      (extrapolate cfg i j k v t).XPos = g.XPos ∧ (extrapolate cfg i j k v t).YPos = g.YPos ∧
        (extrapolate cfg i j k v t).ZPos = g.ZPos := fun _ _ ht => ht
  unfold bc_applyExtrapolation_chk bc_applyExtrapolation
  rcases hnv with ⟨hd, hn⟩ | ⟨hd, hn⟩
  · rw [if_pos hd, if_pos hd]
    apply loop_chk_eq_some
      (fun t => t.XPos = g.XPos ∧ t.YPos = g.YPos ∧ t.ZPos = g.ZPos) 1 17 _ _ g
      ⟨rfl, rfl, rfl⟩
    · intro v _ _ t ht
      beta_reduce
      split_ifs
      · exact hpres v t ht
      · exact ht
    · intro v _ hv t ht
      beta_reduce
      split_ifs
      · exact extrapolate_chk_eq cfg t i j k v h2 (by rw [ht.1]; exact hi)
          (by rw [ht.1]; exact hN) (by rw [ht.2.1]; exact hj) (by rw [ht.2.2]; exact hk)
          (by omega)
      · rfl
  · have hd3 : ¬ cfg.dims = 3 := by omega
    rw [if_neg hd3, if_neg hd3]
    apply loop_chk_eq_some
      (fun t => t.XPos = g.XPos ∧ t.YPos = g.YPos ∧ t.ZPos = g.ZPos) 1 8 _ _ g
      ⟨rfl, rfl, rfl⟩
    · intro v _ _ t ht
      beta_reduce
      split_ifs
      · exact hpres v t ht
      · exact ht
    · intro v _ hv t ht
      beta_reduce
      split_ifs
      · exact extrapolate_chk_eq cfg t i j k v h2 (by rw [ht.1]; exact hi)
          (by rw [ht.1]; exact hN) (by rw [ht.2.1]; exact hj) (by rw [ht.2.2]; exact hk)
          (by omega)
      · rfl

/-- Without a guard, `bc_applyExtrapolation` at a site with `i < 2` reads the
population cell of x-index `i - 2 < 0`: the checked routine fails. -/
theorem bc_applyExtrapolation_chk_none (cfg : Config) (g : GridObj) (i j k : Nat)
    (hi : i < 2) : bc_applyExtrapolation_chk cfg g i j k = none := by
  have hex : extrapolate_chk cfg i j k 1 g = none := by
    unfold extrapolate_chk
    rw [readF_negative g cfg.nVels ((i : Int) - 2) j k 1 (by omega)]
    cases g.readF cfg.nVels ((i : Int) - 1) j k 1 <;> rfl
  unfold bc_applyExtrapolation_chk
  split_ifs
  · apply loop_chk_first_none 1 17 _ g (by decide)
    beta_reduce
    rw [if_pos (Or.inl rfl)]
    exact hex
  · apply loop_chk_first_none 1 8 _ g (by decide)
    beta_reduce
    rw [if_pos (Or.inr (Or.inl rfl))]
    exact hex

theorem in_ftmp_of_length (ftmp : List ℚ) (ns : List Nat) (h : ∀ n ∈ ns, n < ftmp.length) :
    in_ftmp ftmp ns = true := by
  unfold in_ftmp
  rw [List.all_eq_true]
  intro n hn
  exact decide_eq_true (h n hn)

theorem zouHe3D_chk_eq (cfg : Config) (ftmp : List ℚ) (h : ftmp.length = 19) :
    zouHe3D_chk cfg ftmp = some (zouHe3D cfg ftmp) := by
  unfold zouHe3D_chk
  rw [in_ftmp_of_length _ _ (by rw [h]; decide)]
  rfl

theorem zouHe2D_chk_eq (cfg : Config) (ftmp : List ℚ) (h : ftmp.length = 9) :
    zouHe2D_chk cfg ftmp = some (zouHe2D cfg ftmp) := by
  unfold zouHe2D_chk
  rw [in_ftmp_of_length _ _ (by rw [h]; decide)]
  rfl

theorem zouHe3D_length (cfg : Config) (ftmp : List ℚ) :
    (zouHe3D cfg ftmp).length = ftmp.length := by
  simp [zouHe3D]

theorem zouHe2D_length (cfg : Config) (ftmp : List ℚ) :
    (zouHe2D cfg ftmp).length = ftmp.length := by
  simp [zouHe2D]

theorem bc_applyZouHe_chk_eq (cfg : Config) (g : GridObj) (i j k : Nat)
    (hnv : (cfg.dims = 3 ∧ cfg.nVels = 19) ∨ (cfg.dims = 2 ∧ cfg.nVels = 9))
    (hi : i < g.XPos.length) (hj : j < g.YPos.length) (hk : k < g.ZPos.length) :
    bc_applyZouHe_chk cfg g i j k = some (bc_applyZouHe cfg g i j k) := by
  have hlen := ftmp_init_length cfg g i j k
  unfold bc_applyZouHe_chk bc_applyZouHe
  rw [ftmp_init_chk_eq cfg g i j k hi hj hk, Option.some_bind]
  rcases hnv with ⟨hd, hn⟩ | ⟨hd, hn⟩
  · simp only [if_pos hd]
    rw [zouHe3D_chk_eq cfg _ (hlen.trans hn), Option.some_bind]
    exact ftmp_store_chk_eq cfg _ g i j k hi hj hk
      (by rw [zouHe3D_length, hlen])
  · have hd3 : ¬ cfg.dims = 3 := by omega
    simp only [if_neg hd3]
    rw [zouHe2D_chk_eq cfg _ (hlen.trans hn), Option.some_bind]
    exact ftmp_store_chk_eq cfg _ g i j k hi hj hk
      (by rw [zouHe2D_length, hlen])

theorem set_loop_chk_eq (n : Nat) (F : Nat → ℚ) (l0 : List ℚ) (h : n ≤ l0.length) :
    loop_chk 0 n (fun i ftmp => set_chk ftmp i (F i)) l0 =
      some (loop 0 n (fun i ftmp => ftmp.set i (F i)) l0) := by
  apply loop_chk_eq_some (fun l => l.length = l0.length) 0 n _
    (fun i ftmp => ftmp.set i (F i)) l0 rfl
  · intro i _ _ l hl
    show (l.set i (F i)).length = l0.length
    rw [List.length_set]; exact hl
  · intro i _ hi l hl
    unfold set_chk
    rw [if_pos (by omega)]

theorem regularised3D_chk_eq (cfg : Config) (ftmp : List ℚ) (h : ftmp.length = 19)
    (hn : cfg.nVels = 19) :
    regularised3D_chk cfg ftmp = some (regularised3D cfg ftmp) := by
  unfold regularised3D_chk regularised_loop_3D_chk
  rw [in_ftmp_of_length _ _ (by rw [h]; decide), if_pos rfl,
    set_loop_chk_eq cfg.nVels _ ftmp (by omega)]
  rfl

theorem regularised2D_chk_eq (cfg : Config) (ftmp : List ℚ) (h : ftmp.length = 9)
    (hn : cfg.nVels = 9) :
    regularised2D_chk cfg ftmp = some (regularised2D cfg ftmp) := by
  unfold regularised2D_chk regularised_loop_2D_chk
  rw [in_ftmp_of_length _ _ (by rw [h]; decide), if_pos rfl,
    set_loop_chk_eq cfg.nVels _ ftmp (by omega)]
  rfl

theorem regularised3D_length (cfg : Config) (ftmp : List ℚ) :
    (regularised3D cfg ftmp).2.length = ftmp.length :=
  set_loop_length cfg.nVels _ ftmp

theorem regularised2D_length (cfg : Config) (ftmp : List ℚ) :
    (regularised2D cfg ftmp).2.length = ftmp.length :=
  set_loop_length cfg.nVels _ ftmp

/-- The checked final loop of `bc_applyRegularised`. -/
theorem regularised_final_loop_chk_eq (cfg : Config) (ftmp : List ℚ) (g g4 : GridObj)
    (i j k : Nat) (hx : g4.XPos = g.XPos) (hy : g4.YPos = g.YPos) (hz : g4.ZPos = g.ZPos)
    (hi : i < g.XPos.length) (hj : j < g.YPos.length) (hk : k < g.ZPos.length)
    (hlen : cfg.nVels ≤ ftmp.length) :
    loop_chk 0 cfg.nVels (fun v acc =>
        (rd_chk ftmp v).bind (fun x =>
          acc.writeF cfg.nVels (i : Int) j k v (cfg.LBM_collide acc i j k v + x))) g4 =
      some (loop 0 cfg.nVels (fun v acc =>
        acc.setF i j k v (cfg.LBM_collide acc i j k v + rd ftmp v)) g4) := by
  apply loop_chk_eq_some
    (fun t => t.XPos = g.XPos ∧ t.YPos = g.YPos ∧ t.ZPos = g.ZPos) 0 cfg.nVels _
    (fun v acc => acc.setF i j k v (cfg.LBM_collide acc i j k v + rd ftmp v)) g4
    ⟨hx, hy, hz⟩ (fun _ _ _ t ht => ht)
  intro n _ hn t ht
  rw [rd_chk_eq ftmp n (by omega), Option.some_bind]
  exact writeF_on_grid t cfg.nVels i j k n _ (by rw [ht.1]; exact hi) (by rw [ht.2.1]; exact hj)
    (by rw [ht.2.2]; exact hk) hn

theorem bc_applyRegularised_chk_eq (cfg : Config) (g : GridObj) (i j k : Nat)
    (hnv : (cfg.dims = 3 ∧ cfg.nVels = 19) ∨ (cfg.dims = 2 ∧ cfg.nVels = 9))
    (hi : i < g.XPos.length) (hj : j < g.YPos.length) (hk : k < g.ZPos.length) :
    bc_applyRegularised_chk cfg g i j k = some (bc_applyRegularised cfg g i j k) := by
  have hlen := ftmp_init_length cfg g i j k
  unfold bc_applyRegularised_chk
  rw [ftmp_init_chk_eq cfg g i j k hi hj hk, Option.some_bind]
  rcases hnv with ⟨hd, hn⟩ | ⟨hd, hn⟩
  · rw [bc_applyRegularised_eq_3D cfg g i j k hd]
    simp only [if_pos hd]
    rw [regularised3D_chk_eq cfg _ (hlen.trans hn) hn, Option.some_bind]
    exact regularised_final_loop_chk_eq cfg _ g _ i j k rfl rfl rfl hi hj hk
      (by rw [regularised3D_length, hlen])
  · have hd3 : ¬ cfg.dims = 3 := by omega
    rw [bc_applyRegularised_eq_2D cfg g i j k hd3]
    simp only [if_neg hd3]
    rw [regularised2D_chk_eq cfg _ (hlen.trans hn) hn, Option.some_bind]
    exact regularised_final_loop_chk_eq cfg _ g _ i j k rfl rfl rfl hi hj hk
      (by rw [regularised2D_length, hlen])

theorem getOpposite_lt (nVels v : Nat) (hn : nVels = 9 ∨ nVels = 19) (hv : v < nVels) :
    getOpposite nVels v < nVels := by
  rcases hn with h | h <;> subst h <;> revert v <;> decide

theorem solid_step_chk_eq (cfg : Config) (N_lim M_lim K_lim i j k v : Nat) (g : GridObj)
    (hn : cfg.nVels = 9 ∨ cfg.nVels = 19) (hv : v < cfg.nVels)
    (hN : g.XPos.length = N_lim) (hM : g.YPos.length = M_lim) (hK : g.ZPos.length = K_lim)
    (hi : i < N_lim) (hj : j < M_lim) (hk : k < K_lim) :
    solid_step_chk cfg N_lim M_lim K_lim i j k v g =
      some (solid_step cfg N_lim M_lim K_lim i j k v g) := by
  unfold solid_step_chk solid_step
  simp only
  split_ifs with h1 h2
  · rfl
  · simp only [not_or, not_le, ge_iff_le, not_lt] at h1
    rw [readF_on_grid g cfg.nVels _ _ _ _ (by rw [hN]; exact h1.1.1)
      (by rw [hM]; exact h1.2.1.1) (by rw [hK]; exact h1.2.2.1.1)
      (getOpposite_lt cfg.nVels v hn hv), Option.some_bind]
    exact writeF_on_grid g cfg.nVels i j k v _ (by rw [hN]; exact hi) (by rw [hM]; exact hj)
      (by rw [hK]; exact hk) hv
  · rfl

theorem LBM_boundary_site_chk_eq (cfg : Config) (flag : Int) (g t : GridObj) (i j k : Nat)
    (hnv : (cfg.dims = 3 ∧ cfg.nVels = 19) ∨ (cfg.dims = 2 ∧ cfg.nVels = 9))
    (hN : g.XPos.length < 2 ^ 64)
    (hout : ∀ i j k, i < g.XPos.length → j < g.YPos.length → k < g.ZPos.length →
      g.LatTyp i j k = 8 → 2 ≤ i)
    (ht : t.XPos = g.XPos ∧ t.YPos = g.YPos ∧ t.ZPos = g.ZPos ∧ t.LatTyp = g.LatTyp)
    (hi : i < g.XPos.length) (hj : j < g.YPos.length) (hk : k < g.ZPos.length) :
    LBM_boundary_site_chk cfg flag g.XPos.length g.YPos.length g.ZPos.length i j k t =
      some (LBM_boundary_site cfg flag g.XPos.length g.YPos.length g.ZPos.length i j k t) := by
  have hn : cfg.nVels = 9 ∨ cfg.nVels = 19 := by
    rcases hnv with h | h
    · exact Or.inr h.2
    · exact Or.inl h.2
  have hti : i < t.XPos.length := by rw [ht.1]; exact hi
  have htj : j < t.YPos.length := by rw [ht.2.1]; exact hj
  have htk : k < t.ZPos.length := by rw [ht.2.2.1]; exact hk
  unfold LBM_boundary_site_chk LBM_boundary_site
  split_ifs with h0 h7 h8
  · apply loop_chk_eq_some
      (fun s => s.XPos = g.XPos ∧ s.YPos = g.YPos ∧ s.ZPos = g.ZPos) 0 cfg.nVels _
      (solid_step cfg g.XPos.length g.YPos.length g.ZPos.length i j k) t
      ⟨ht.1, ht.2.1, ht.2.2.1⟩
    · intro v _ _ s hs
      have hso := SameOutside_solid_step cfg g.XPos.length g.YPos.length g.ZPos.length
        i j k v s
      exact ⟨hso.1.trans hs.1, hso.2.1.trans hs.2.1, hso.2.2.1.trans hs.2.2⟩
    · intro v _ hv s hs
      exact solid_step_chk_eq cfg _ _ _ i j k v s hn hv (by rw [hs.1]) (by rw [hs.2.1])
        (by rw [hs.2.2]) hi hj hk
  · unfold inlet_site_chk inlet_site
    split_ifs
    · exact bc_applyZouHe_chk_eq cfg t i j k hnv hti htj htk
    · exact bc_applyRegularised_chk_eq cfg t i j k hnv hti htj htk
    · rfl
  · have h2 : 2 ≤ i := hout i j k hi hj hk (by rw [← ht.2.2.2]; exact h8.1)
    exact bc_applyExtrapolation_chk_eq cfg t i j k hnv h2 hti (by rw [ht.1]; exact hN) htj htk
  · rfl

/-- C30. For every grid whose population array has `N*M*K*nVels` entries with
`nVels` matching the dimensionality (19 in 3D, 9 in 2D), whose x-extent is a
`size_t` value and whose Outlet-labelled sites all have `i >= 2`, and for every
flag, the bounds-checked `LBM_boundary` never takes an out-of-range branch: it
returns the state of the unchecked routine. `bc_applyExtrapolation` has no guard
of its own: at a site with `i < 2` the checked routine fails, on the read of the
cell of x-index `i - 2 < 0`. -/
theorem LBM_boundary_in_bounds (cfg : Config) (flag : Int) (g : GridObj)
    (hnv : (cfg.dims = 3 ∧ cfg.nVels = 19) ∨ (cfg.dims = 2 ∧ cfg.nVels = 9))
    (hN : g.XPos.length < 2 ^ 64)
    (hout : ∀ i j k, i < g.XPos.length → j < g.YPos.length → k < g.ZPos.length →
      g.LatTyp i j k = 8 → 2 ≤ i) :
    LBM_boundary_chk cfg flag g = some (LBM_boundary cfg flag g) ∧
    (∀ (t : GridObj) (i j k : Nat), i < 2 →
      t.readF cfg.nVels ((i : Int) - 2) j k 1 = none ∧
      bc_applyExtrapolation_chk cfg t i j k = none) := by
  refine ⟨?_, fun t i j k hi => ⟨readF_negative t cfg.nVels _ j k 1 (by omega),
    bc_applyExtrapolation_chk_none cfg t i j k hi⟩⟩
  have hstep : ∀ i j k, i < g.XPos.length → j < g.YPos.length → k < g.ZPos.length →
      ∀ t : GridObj, (t.XPos = g.XPos ∧ t.YPos = g.YPos ∧ t.ZPos = g.ZPos ∧
        t.LatTyp = g.LatTyp) →
      (LBM_boundary_site cfg flag g.XPos.length g.YPos.length g.ZPos.length i j k t).XPos
          = g.XPos ∧
      (LBM_boundary_site cfg flag g.XPos.length g.YPos.length g.ZPos.length i j k t).YPos
          = g.YPos ∧
      (LBM_boundary_site cfg flag g.XPos.length g.YPos.length g.ZPos.length i j k t).ZPos
          = g.ZPos ∧
      (LBM_boundary_site cfg flag g.XPos.length g.YPos.length g.ZPos.length i j k t).LatTyp
          = g.LatTyp := by
    intro i j k _ _ _ t ht
    have hso := SameOutside_LBM_boundary_site cfg flag g.XPos.length g.YPos.length
      g.ZPos.length i j k t
    exact ⟨hso.1.trans ht.1, hso.2.1.trans ht.2.1, hso.2.2.1.trans ht.2.2.1,
      hso.2.2.2.1.trans ht.2.2.2⟩
  unfold LBM_boundary_chk LBM_boundary
  simp only
  apply loop_chk_eq_some (fun t => t.XPos = g.XPos ∧ t.YPos = g.YPos ∧ t.ZPos = g.ZPos ∧
    t.LatTyp = g.LatTyp) 0 g.XPos.length _
    (fun i gi => loop 0 g.YPos.length (fun j gj => loop 0 g.ZPos.length (fun k gk =>
      LBM_boundary_site cfg flag g.XPos.length g.YPos.length g.ZPos.length i j k gk) gj) gi)
    g ⟨rfl, rfl, rfl, rfl⟩
  · intro i _ hi t ht
    exact loop_inv _ 0 g.YPos.length _ t ht (fun j _ hj t1 ht1 =>
      loop_inv _ 0 g.ZPos.length _ t1 ht1 (fun k _ hk t2 ht2 => hstep i j k hi hj hk t2 ht2))
  · intro i _ hi t ht
    apply loop_chk_eq_some (fun t => t.XPos = g.XPos ∧ t.YPos = g.YPos ∧ t.ZPos = g.ZPos ∧
      t.LatTyp = g.LatTyp) 0 g.YPos.length _
      (fun j gj => loop 0 g.ZPos.length (fun k gk =>
        LBM_boundary_site cfg flag g.XPos.length g.YPos.length g.ZPos.length i j k gk) gj)
      t ht
    · intro j _ hj t1 ht1
      exact loop_inv _ 0 g.ZPos.length _ t1 ht1 (fun k _ hk t2 ht2 => hstep i j k hi hj hk t2 ht2)
    · intro j _ hj t1 ht1
      apply loop_chk_eq_some (fun t => t.XPos = g.XPos ∧ t.YPos = g.YPos ∧ t.ZPos = g.ZPos ∧
        t.LatTyp = g.LatTyp) 0 g.ZPos.length _
        (fun k gk =>
          LBM_boundary_site cfg flag g.XPos.length g.YPos.length g.ZPos.length i j k gk)
        t1 ht1
      · intro k _ hk t2 ht2
        exact hstep i j k hi hj hk t2 ht2
      · intro k _ hk t2 ht2
        exact LBM_boundary_site_chk_eq cfg flag g t2 i j k hnv hN hout ht2 hi hj hk

theorem LBM_boundary_in_bounds_witness :
    (((cfg2D 0).dims = 3 ∧ (cfg2D 0).nVels = 19) ∨ ((cfg2D 0).dims = 2 ∧ (cfg2D 0).nVels = 9)) ∧
      grid2D.XPos.length < 2 ^ 64 ∧ grid2D.LatTyp 2 1 0 = 8 ∧
      LBM_boundary_chk (cfg2D 0) 0 grid2D = some (LBM_boundary (cfg2D 0) 0 grid2D) ∧
      bc_applyExtrapolation_chk (cfg2D 0) grid2D 1 1 0 = none :=
  ⟨Or.inr ⟨rfl, rfl⟩, by decide, by decide,
    (LBM_boundary_in_bounds (cfg2D 0) 0 grid2D (Or.inr ⟨rfl, rfl⟩) (by decide) (by
      intro i j k hi hj hk h8
      have hi3 : i < 3 := hi
      by_contra hlt
      have hcases : i = 0 ∨ i = 1 := by omega
      rcases hcases with rfl | rfl
      · exact absurd h8 (by simp [grid2D, sample_labels])
      · simp only [grid2D, sample_labels] at h8
        split_ifs at h8 <;> omega)).1,
    ((LBM_boundary_in_bounds (cfg2D 0) 0 grid2D (Or.inr ⟨rfl, rfl⟩) (by decide) (by
      intro i j k hi hj hk h8
      have hi3 : i < 3 := hi
      by_contra hlt
      have hcases : i = 0 ∨ i = 1 := by omega
      rcases hcases with rfl | rfl
      · exact absurd h8 (by simp [grid2D, sample_labels])
      · simp only [grid2D, sample_labels] at h8
        split_ifs at h8 <;> omega)).2 grid2D 1 1 0 (by decide)).2⟩

/-! ## Zou-He: the stale unknowns -/

/-- A known direction keeps its population under `bc_applyZouHe`. -/
theorem bc_applyZouHe_known (cfg : Config) (g : GridObj) (i j k v : Nat)
    (hv : v ∉ (if cfg.dims = 3 then [0, 6, 8, 14, 17] else [0, 4, 6])) :
    (bc_applyZouHe cfg g i j k).f i j k v = g.f i j k v := by
  rw [bc_applyZouHe_f]
  split_ifs with hs hd
  · rw [if_pos hd] at hv
    rw [zouHe3D_rd_other cfg _ v hv, rd_map_range _ _ _ hs.2.2.2]
  · rw [if_neg hd] at hv
    rw [zouHe2D_rd_other cfg _ v hv, rd_map_range _ _ _ hs.2.2.2]
  · rfl

/-- The populations written by `bc_applyZouHe` are the same for two grids that
agree, at the site, on the known directions. -/
theorem bc_applyZouHe_indep (cfg : Config) (g g2 : GridObj) (i j k v : Nat)
    (hnv : (cfg.dims = 3 ∧ cfg.nVels = 19) ∨ (cfg.dims ≠ 3 ∧ cfg.nVels = 9))
    (h : ∀ n, n ∉ (if cfg.dims = 3 then [0, 6, 8, 14, 17] else [0, 4, 6]) →
      g2.f i j k n = g.f i j k n)
    (hv : v < cfg.nVels) :
    (bc_applyZouHe cfg g2 i j k).f i j k v = (bc_applyZouHe cfg g i j k).f i j k v := by
  have hs : i = i ∧ j = j ∧ k = k ∧ v < cfg.nVels := ⟨rfl, rfl, rfl, hv⟩
  rw [bc_applyZouHe_f, bc_applyZouHe_f, if_pos hs, if_pos hs]
  rcases hnv with ⟨hd, hn⟩ | ⟨hd, hn⟩
  · rw [if_pos hd] at h
    rw [if_pos hd, if_pos hd, hn]
    simp only [range_19, List.map, zouHe3D_explicit, rho_w_3D_explicit]
    rw [h 1 (by decide), h 2 (by decide), h 3 (by decide), h 4 (by decide), h 5 (by decide),
      h 7 (by decide), h 9 (by decide), h 10 (by decide), h 11 (by decide), h 12 (by decide),
      h 13 (by decide), h 15 (by decide), h 16 (by decide), h 18 (by decide)]
  · rw [if_neg hd] at h
    rw [if_neg hd, if_neg hd, hn]
    simp only [range_9, List.map, zouHe2D_explicit, rho_w_2D_explicit]
    rw [h 1 (by decide), h 2 (by decide), h 3 (by decide), h 5 (by decide), h 7 (by decide),
      h 8 (by decide)]

/-- C31. With the 19-direction set in 3D or the 9-direction set in 2D, the
populations that `bc_applyZouHe` writes at the site depend only on the known
populations of the site (and the prescribed velocity of the build): two grids
that agree there on every direction outside {0,6,8,14,17} (3D) or {0,4,6} (2D)
get the same populations. Hence applying `bc_applyZouHe` twice at a site gives
the same state as applying it once. -/
theorem bc_applyZouHe_idempotent (cfg : Config) (g : GridObj) (i j k : Nat)
    (hnv : (cfg.dims = 3 ∧ cfg.nVels = 19) ∨ (cfg.dims ≠ 3 ∧ cfg.nVels = 9)) :
    (∀ g2 : GridObj,
      (∀ n, n ∉ (if cfg.dims = 3 then [0, 6, 8, 14, 17] else [0, 4, 6]) →
        g2.f i j k n = g.f i j k n) →
      ∀ v, v < cfg.nVels →
        (bc_applyZouHe cfg g2 i j k).f i j k v = (bc_applyZouHe cfg g i j k).f i j k v) ∧
    bc_applyZouHe cfg (bc_applyZouHe cfg g i j k) i j k = bc_applyZouHe cfg g i j k := by
  refine ⟨fun g2 h v hv => bc_applyZouHe_indep cfg g g2 i j k v hnv h hv, ?_⟩
  have hso := SameOutside_bc_applyZouHe cfg (bc_applyZouHe cfg g i j k) i j k
  have hm := macro_bc_applyZouHe cfg (bc_applyZouHe cfg g i j k) i j k
  apply GridObj_eq_of_SameAt _ _ hso.1 hso.2.1 hso.2.2.1 hso.2.2.2.1
  intro i1 j1 k1
  refine ⟨?_, by rw [hm.1], fun d => by rw [hm.2]⟩
  intro v
  by_cases hp : i1 = i ∧ j1 = j ∧ k1 = k
  · obtain ⟨rfl, rfl, rfl⟩ := hp
    by_cases hv : v < cfg.nVels
    · exact bc_applyZouHe_indep cfg g (bc_applyZouHe cfg g i1 j1 k1) i1 j1 k1 v hnv
        (fun n hn => bc_applyZouHe_known cfg g i1 j1 k1 n hn) hv
    · rw [bc_applyZouHe_f, if_neg (fun hh => hv hh.2.2.2)]
  · exact hso.2.2.2.2.1 i1 j1 k1 v hp

theorem bc_applyZouHe_idempotent_witness :
    (((cfg2D (1 / 10)).dims = 3 ∧ (cfg2D (1 / 10)).nVels = 19) ∨
      ((cfg2D (1 / 10)).dims ≠ 3 ∧ (cfg2D (1 / 10)).nVels = 9)) ∧
    bc_applyZouHe (cfg2D (1 / 10)) (bc_applyZouHe (cfg2D (1 / 10)) grid2D 0 1 0) 0 1 0
      = bc_applyZouHe (cfg2D (1 / 10)) grid2D 0 1 0 :=
  ⟨Or.inr ⟨by decide, rfl⟩,
    (bc_applyZouHe_idempotent (cfg2D (1 / 10)) grid2D 0 1 0 (Or.inr ⟨by decide, rfl⟩)).2⟩

/-! ## Regularised inlet: moments of the off-equilibrium part -/

theorem neq_3D_mass (cfg : Config) (h : cfg.moment_conditions 3)
    (Sxx Syy Szz Sxy Sxz Syz : ℚ) :
    ∑ v ∈ Finset.range cfg.nVels, neq_3D cfg Sxx Syy Szz Sxy Sxz Syz v = 0 := by
  obtain ⟨h0, _, h2, _⟩ := h
  have m00 := h2 0 0 (by decide) (by decide)
  have m11 := h2 1 1 (by decide) (by decide)
  have m22 := h2 2 2 (by decide) (by decide)
  have m01 := h2 0 1 (by decide) (by decide)
  have m02 := h2 0 2 (by decide) (by decide)
  have m12 := h2 1 2 (by decide) (by decide)
  simp only [if_true, Nat.reduceEqDiff, if_false, mul_one, mul_zero, zero_ne_one,
    OfNat.zero_ne_ofNat, OfNat.one_ne_ofNat] at m00 m11 m22 m01 m02 m12
  have key : ∀ v, neq_3D cfg Sxx Syy Szz Sxy Sxz Syz v =
      (2 * cfg.cs_sq ^ 2)⁻¹ * Sxx * (cfg.w v * (cfg.c 0 v : ℚ) * (cfg.c 0 v : ℚ))
      + (2 * cfg.cs_sq ^ 2)⁻¹ * Syy * (cfg.w v * (cfg.c 1 v : ℚ) * (cfg.c 1 v : ℚ))
      + (2 * cfg.cs_sq ^ 2)⁻¹ * Szz * (cfg.w v * (cfg.c 2 v : ℚ) * (cfg.c 2 v : ℚ))
      + (2 * cfg.cs_sq ^ 2)⁻¹ * (2 * Sxy) * (cfg.w v * (cfg.c 0 v : ℚ) * (cfg.c 1 v : ℚ))
      + (2 * cfg.cs_sq ^ 2)⁻¹ * (2 * Sxz) * (cfg.w v * (cfg.c 0 v : ℚ) * (cfg.c 2 v : ℚ))
      + (2 * cfg.cs_sq ^ 2)⁻¹ * (2 * Syz) * (cfg.w v * (cfg.c 1 v : ℚ) * (cfg.c 2 v : ℚ))
      - (2 * cfg.cs_sq ^ 2)⁻¹ * (cfg.cs_sq * (Sxx + Syy + Szz)) * cfg.w v := by
    intro v
    unfold neq_3D
    ring
  simp only [key, Finset.sum_add_distrib, Finset.sum_sub_distrib, ← Finset.mul_sum,
    h0, m00, m11, m22, m01, m02, m12]
  ring

theorem neq_3D_momentum (cfg : Config) (h : cfg.moment_conditions 3)
    (Sxx Syy Szz Sxy Sxz Syz : ℚ) (e : Nat) (he : e < 3) :
    ∑ v ∈ Finset.range cfg.nVels,
      (cfg.c e v : ℚ) * neq_3D cfg Sxx Syy Szz Sxy Sxz Syz v = 0 := by
  obtain ⟨_, h1, _, h3⟩ := h
  have m00 := h3 0 0 e (by decide) (by decide) he
  have m11 := h3 1 1 e (by decide) (by decide) he
  have m22 := h3 2 2 e (by decide) (by decide) he
  have m01 := h3 0 1 e (by decide) (by decide) he
  have m02 := h3 0 2 e (by decide) (by decide) he
  have m12 := h3 1 2 e (by decide) (by decide) he
  have m := h1 e he
  have key : ∀ v, (cfg.c e v : ℚ) * neq_3D cfg Sxx Syy Szz Sxy Sxz Syz v =
      (2 * cfg.cs_sq ^ 2)⁻¹ * Sxx
          * (cfg.w v * (cfg.c 0 v : ℚ) * (cfg.c 0 v : ℚ) * (cfg.c e v : ℚ))
      + (2 * cfg.cs_sq ^ 2)⁻¹ * Syy
          * (cfg.w v * (cfg.c 1 v : ℚ) * (cfg.c 1 v : ℚ) * (cfg.c e v : ℚ))
      + (2 * cfg.cs_sq ^ 2)⁻¹ * Szz
          * (cfg.w v * (cfg.c 2 v : ℚ) * (cfg.c 2 v : ℚ) * (cfg.c e v : ℚ))
      + (2 * cfg.cs_sq ^ 2)⁻¹ * (2 * Sxy)
          * (cfg.w v * (cfg.c 0 v : ℚ) * (cfg.c 1 v : ℚ) * (cfg.c e v : ℚ))
      + (2 * cfg.cs_sq ^ 2)⁻¹ * (2 * Sxz)
          * (cfg.w v * (cfg.c 0 v : ℚ) * (cfg.c 2 v : ℚ) * (cfg.c e v : ℚ))
      + (2 * cfg.cs_sq ^ 2)⁻¹ * (2 * Syz)
          * (cfg.w v * (cfg.c 1 v : ℚ) * (cfg.c 2 v : ℚ) * (cfg.c e v : ℚ))
      - (2 * cfg.cs_sq ^ 2)⁻¹ * (cfg.cs_sq * (Sxx + Syy + Szz))
          * (cfg.w v * (cfg.c e v : ℚ)) := by
    intro v
    unfold neq_3D
    ring
  simp only [key, Finset.sum_add_distrib, Finset.sum_sub_distrib, ← Finset.mul_sum,
    m, m00, m11, m22, m01, m02, m12]
  ring

theorem neq_2D_mass (cfg : Config) (h : cfg.moment_conditions 2) (Sxx Sxy Syy : ℚ) :
    ∑ v ∈ Finset.range cfg.nVels, neq_2D cfg Sxx Sxy Syy v = 0 := by
  obtain ⟨h0, _, h2, _⟩ := h
  have m00 := h2 0 0 (by decide) (by decide)
  have m11 := h2 1 1 (by decide) (by decide)
  have m01 := h2 0 1 (by decide) (by decide)
  simp only [if_true, Nat.reduceEqDiff, if_false, mul_one, mul_zero, zero_ne_one]
    at m00 m11 m01
  have key : ∀ v, neq_2D cfg Sxx Sxy Syy v =
      (2 * cfg.cs_sq ^ 2)⁻¹ * Sxx * (cfg.w v * (cfg.c 0 v : ℚ) * (cfg.c 0 v : ℚ))
      + (2 * cfg.cs_sq ^ 2)⁻¹ * Syy * (cfg.w v * (cfg.c 1 v : ℚ) * (cfg.c 1 v : ℚ))
      + (2 * cfg.cs_sq ^ 2)⁻¹ * (2 * Sxy) * (cfg.w v * (cfg.c 0 v : ℚ) * (cfg.c 1 v : ℚ))
      - (2 * cfg.cs_sq ^ 2)⁻¹ * (cfg.cs_sq * (Sxx + Syy)) * cfg.w v := by
    intro v
    unfold neq_2D
    ring
  simp only [key, Finset.sum_add_distrib, Finset.sum_sub_distrib, ← Finset.mul_sum,
    h0, m00, m11, m01]
  ring

theorem neq_2D_momentum (cfg : Config) (h : cfg.moment_conditions 2) (Sxx Sxy Syy : ℚ)
    (e : Nat) (he : e < 2) :
    ∑ v ∈ Finset.range cfg.nVels, (cfg.c e v : ℚ) * neq_2D cfg Sxx Sxy Syy v = 0 := by
  obtain ⟨_, h1, _, h3⟩ := h
  have m00 := h3 0 0 e (by decide) (by decide) he
  have m11 := h3 1 1 e (by decide) (by decide) he
  have m01 := h3 0 1 e (by decide) (by decide) he
  have m := h1 e he
  have key : ∀ v, (cfg.c e v : ℚ) * neq_2D cfg Sxx Sxy Syy v =
      (2 * cfg.cs_sq ^ 2)⁻¹ * Sxx
          * (cfg.w v * (cfg.c 0 v : ℚ) * (cfg.c 0 v : ℚ) * (cfg.c e v : ℚ))
      + (2 * cfg.cs_sq ^ 2)⁻¹ * Syy
          * (cfg.w v * (cfg.c 1 v : ℚ) * (cfg.c 1 v : ℚ) * (cfg.c e v : ℚ))
      + (2 * cfg.cs_sq ^ 2)⁻¹ * (2 * Sxy)
          * (cfg.w v * (cfg.c 0 v : ℚ) * (cfg.c 1 v : ℚ) * (cfg.c e v : ℚ))
      - (2 * cfg.cs_sq ^ 2)⁻¹ * (cfg.cs_sq * (Sxx + Syy))
          * (cfg.w v * (cfg.c e v : ℚ)) := by
    intro v
    unfold neq_2D
    ring
  simp only [key, Finset.sum_add_distrib, Finset.sum_sub_distrib, ← Finset.mul_sum,
    m, m00, m11, m01]
  ring

/-- The 9-direction set with weights 4/9, 1/9, 1/36 and `cs^2 = 1/3` satisfies the
moment conditions in two dimensions. -/
theorem moment_conditions_D2Q9 (cfg : Config) (hn : cfg.nVels = 9) (hc : cfg.c = c_D2Q9)
    (hw : cfg.w = w_D2Q9) (hcs : cfg.cs_sq = 1 / 3) : cfg.moment_conditions 2 := by
  unfold Config.moment_conditions
  rw [hn, hc, hw, hcs]
  refine ⟨?_, ?_, ?_, ?_⟩
  · simp [Finset.sum_range_succ, w_D2Q9]
    norm_num
  · intro a ha
    interval_cases a <;> simp [Finset.sum_range_succ, c_D2Q9, w_D2Q9]
  · intro a b ha hb
    interval_cases a <;> interval_cases b <;>
      simp [Finset.sum_range_succ, c_D2Q9, w_D2Q9] <;> norm_num
  · intro a b e ha hb he
    interval_cases a <;> interval_cases b <;> interval_cases e <;>
      simp [Finset.sum_range_succ, c_D2Q9, w_D2Q9]

set_option maxHeartbeats 8000000 in
/-- The 19-direction set with weights 1/3, 1/18, 1/36 and `cs^2 = 1/3` satisfies
the moment conditions in three dimensions. -/
theorem moment_conditions_D3Q19 (cfg : Config) (hn : cfg.nVels = 19) (hc : cfg.c = c_D3Q19)
    (hw : cfg.w = w_D3Q19) (hcs : cfg.cs_sq = 1 / 3) : cfg.moment_conditions 3 := by
  unfold Config.moment_conditions
  rw [hn, hc, hw, hcs]
  refine ⟨?_, ?_, ?_, ?_⟩
  · simp [Finset.sum_range_succ, w_D3Q19]
    norm_num
  · intro a ha
    interval_cases a <;> simp [Finset.sum_range_succ, c_D3Q19, w_D3Q19]
  · intro a b ha hb
    interval_cases a <;> interval_cases b <;>
      simp [Finset.sum_range_succ, c_D3Q19, w_D3Q19] <;> norm_num
  · intro a b e ha hb he
    interval_cases a <;> interval_cases b <;> interval_cases e <;>
      simp [Finset.sum_range_succ, c_D3Q19, w_D3Q19]

/-- The populations of the inlet site after `bc_applyRegularised`, for an
external equilibrium that reads only the density and velocity of the site: the
equilibrium on the final state plus the regularised off-equilibrium value. -/
theorem bc_applyRegularised_f_neq (cfg : Config) (g : GridObj) (i j k v : Nat)
    (hv : v < cfg.nVels)
    (hcol : ∀ (t1 t2 : GridObj) (n : Nat), t1.rho i j k = t2.rho i j k →
      (∀ d, t1.u i j k d = t2.u i j k d) →
      cfg.LBM_collide t1 i j k n = cfg.LBM_collide t2 i j k n) :
    (bc_applyRegularised cfg g i j k).f i j k v =
      cfg.LBM_collide (bc_applyRegularised cfg g i j k) i j k v +
        (if cfg.dims = 3 then
          neq_3D cfg (Sxx_3D cfg (ftmp_init cfg g i j k)) (Syy_3D cfg (ftmp_init cfg g i j k))
            (Szz_3D cfg (ftmp_init cfg g i j k)) (Sxy_3D (ftmp_init cfg g i j k))
            (Sxz_3D (ftmp_init cfg g i j k)) (Syz_3D (ftmp_init cfg g i j k)) v
        else
          neq_2D cfg (Sxx_2D cfg (ftmp_init cfg g i j k)) (Sxy_2D (ftmp_init cfg g i j k))
            (Syy_2D cfg (ftmp_init cfg g i j k)) v) := by
  obtain ⟨acc, h1, h2, h3⟩ := bc_applyRegularised_f_self cfg g i j k v
  have hlen : v < (ftmp_init cfg g i j k).length := by rw [ftmp_init_length]; exact hv
  rw [h3, if_pos hv, hcol acc (bc_applyRegularised cfg g i j k) v (by rw [h1])
    (fun d => by rw [h2])]
  congr 1
  by_cases hd : cfg.dims = 3
  · rw [if_pos hd, if_pos hd]
    show rd (regularised_loop_3D cfg _ _ _ _ _ _ (ftmp_init cfg g i j k)) v = _
    unfold regularised_loop_3D
    rw [rd_set_loop, if_pos ⟨hv, hlen⟩]
  · rw [if_neg hd, if_neg hd]
    show rd (regularised_loop_2D cfg _ _ _ (ftmp_init cfg g i j k)) v = _
    unfold regularised_loop_2D
    rw [rd_set_loop, if_pos ⟨hv, hlen⟩]

/-- C32. For any direction set whose weights satisfy the moment conditions
(`sum w = 1`, `sum w c_a = 0`, `sum w c_a c_b = cs^2 delta_ab`,
`sum w c_a c_b c_e = 0`) and for every value of the tensor components, the
regularised values `ftmp[v]` of `bc_applyRegularised` sum to zero and have zero
first moment along each axis, in 3D and in 2D. Hence, for an external
equilibrium that reads only the density and velocity of the site, the zeroth
and first moments of the populations written to the inlet node are those of the
equilibrium term alone. -/
theorem regularised_neq_no_mass_no_momentum (cfg : Config) :
    (cfg.moment_conditions 3 → ∀ Sxx Syy Szz Sxy Sxz Syz : ℚ,
      ∑ v ∈ Finset.range cfg.nVels, neq_3D cfg Sxx Syy Szz Sxy Sxz Syz v = 0 ∧
      ∀ a, a < 3 → ∑ v ∈ Finset.range cfg.nVels,
        (cfg.c a v : ℚ) * neq_3D cfg Sxx Syy Szz Sxy Sxz Syz v = 0) ∧
    (cfg.moment_conditions 2 → ∀ Sxx Sxy Syy : ℚ,
      ∑ v ∈ Finset.range cfg.nVels, neq_2D cfg Sxx Sxy Syy v = 0 ∧
      ∀ a, a < 2 → ∑ v ∈ Finset.range cfg.nVels,
        (cfg.c a v : ℚ) * neq_2D cfg Sxx Sxy Syy v = 0) ∧
    (∀ (g : GridObj) (i j k : Nat),
      cfg.moment_conditions (if cfg.dims = 3 then 3 else 2) →
      (∀ (t1 t2 : GridObj) (n : Nat), t1.rho i j k = t2.rho i j k →
        (∀ d, t1.u i j k d = t2.u i j k d) →
        cfg.LBM_collide t1 i j k n = cfg.LBM_collide t2 i j k n) →
      ∑ v ∈ Finset.range cfg.nVels, (bc_applyRegularised cfg g i j k).f i j k v =
        ∑ v ∈ Finset.range cfg.nVels,
          cfg.LBM_collide (bc_applyRegularised cfg g i j k) i j k v ∧
      ∀ a, a < (if cfg.dims = 3 then 3 else 2) →
        ∑ v ∈ Finset.range cfg.nVels,
          (cfg.c a v : ℚ) * (bc_applyRegularised cfg g i j k).f i j k v =
        ∑ v ∈ Finset.range cfg.nVels,
          (cfg.c a v : ℚ) * cfg.LBM_collide (bc_applyRegularised cfg g i j k) i j k v) := by
  refine ⟨fun h Sxx Syy Szz Sxy Sxz Syz => ⟨neq_3D_mass cfg h Sxx Syy Szz Sxy Sxz Syz,
      fun a ha => neq_3D_momentum cfg h Sxx Syy Szz Sxy Sxz Syz a ha⟩,
    fun h Sxx Sxy Syy => ⟨neq_2D_mass cfg h Sxx Sxy Syy,
      fun a ha => neq_2D_momentum cfg h Sxx Sxy Syy a ha⟩, ?_⟩
  intro g i j k hm hcol
  have hf : ∀ v ∈ Finset.range cfg.nVels, (bc_applyRegularised cfg g i j k).f i j k v = _ :=
    fun v hv => bc_applyRegularised_f_neq cfg g i j k v (Finset.mem_range.mp hv) hcol
  have hcf : ∀ (a : Nat), ∀ v ∈ Finset.range cfg.nVels,
      (cfg.c a v : ℚ) * (bc_applyRegularised cfg g i j k).f i j k v = _ :=
    fun a v hv => congrArg (fun x => (cfg.c a v : ℚ) * x) (hf v hv)
  by_cases hd : cfg.dims = 3
  · rw [if_pos hd] at hm
    simp only [if_pos hd] at hf hcf ⊢
    constructor
    · rw [Finset.sum_congr rfl hf, Finset.sum_add_distrib, neq_3D_mass cfg hm, add_zero]
    · intro a ha
      rw [Finset.sum_congr rfl (hcf a)]
      simp only [mul_add, Finset.sum_add_distrib]
      rw [neq_3D_momentum cfg hm _ _ _ _ _ _ a ha, add_zero]
  · rw [if_neg hd] at hm
    simp only [if_neg hd] at hf hcf ⊢
    constructor
    · rw [Finset.sum_congr rfl hf, Finset.sum_add_distrib, neq_2D_mass cfg hm, add_zero]
    · intro a ha
      rw [Finset.sum_congr rfl (hcf a)]
      simp only [mul_add, Finset.sum_add_distrib]
      rw [neq_2D_momentum cfg hm _ _ _ a ha, add_zero]

theorem regularised_neq_no_mass_no_momentum_witness :
    (cfg2D_reg (1 / 10)).moment_conditions 2 ∧ cfg3D_reg.moment_conditions 3 ∧
      (∑ v ∈ Finset.range (cfg2D_reg (1 / 10)).nVels,
        neq_2D (cfg2D_reg (1 / 10)) (1 / 7) (1 / 50) (16 / 75) v = 0) ∧
      (∑ v ∈ Finset.range cfg3D_reg.nVels,
        (cfg3D_reg.c 1 v : ℚ) * neq_3D cfg3D_reg 1 2 3 4 5 6 v = 0) ∧
      (∑ v ∈ Finset.range (cfg2D_reg (1 / 10)).nVels,
          (bc_applyRegularised (cfg2D_reg (1 / 10)) grid2D 0 1 0).f 0 1 0 v =
        ∑ v ∈ Finset.range (cfg2D_reg (1 / 10)).nVels,
          (cfg2D_reg (1 / 10)).LBM_collide
            (bc_applyRegularised (cfg2D_reg (1 / 10)) grid2D 0 1 0) 0 1 0 v) :=
  ⟨moment_conditions_D2Q9 _ rfl rfl rfl rfl, moment_conditions_D3Q19 _ rfl rfl rfl rfl,
    ((regularised_neq_no_mass_no_momentum (cfg2D_reg (1 / 10))).2.1
      (moment_conditions_D2Q9 _ rfl rfl rfl rfl) (1 / 7) (1 / 50) (16 / 75)).1,
    ((regularised_neq_no_mass_no_momentum cfg3D_reg).1
      (moment_conditions_D3Q19 _ rfl rfl rfl rfl) 1 2 3 4 5 6).2 1 (by decide),
    ((regularised_neq_no_mass_no_momentum (cfg2D_reg (1 / 10))).2.2 grid2D 0 1 0
      (moment_conditions_D2Q9 _ rfl rfl rfl rfl)
      (fun t1 t2 n hr hu => sample_collide_local c_D2Q9 w_D2Q9 t1 t2 0 1 0 n hr hu)).1⟩

/-! ## Request-flag dispatch -/

theorem kloop_inv (R : GridObj → Prop) (Q : Nat → Nat → Nat → Prop)
    (U : Nat → Nat → Nat → GridObj → GridObj)
    (hR : ∀ i1 j1 k1, Q i1 j1 k1 → ∀ t, R t → R (U i1 j1 k1 t))
    (i1 j1 lo hi : Nat) (t : GridObj) (hq : ∀ k1, lo ≤ k1 → k1 < hi → Q i1 j1 k1)
    (ht : R t) : R (loop lo hi (fun k1 gk => U i1 j1 k1 gk) t) :=
  loop_inv R lo hi _ t ht (fun k1 h1 h2 t1 ht1 => hR i1 j1 k1 (hq k1 h1 h2) t1 ht1)

theorem jloop_inv (R : GridObj → Prop) (Q : Nat → Nat → Nat → Prop)
    (U : Nat → Nat → Nat → GridObj → GridObj)
    (hR : ∀ i1 j1 k1, Q i1 j1 k1 → ∀ t, R t → R (U i1 j1 k1 t))
    (K i1 lo hi : Nat) (t : GridObj) (hq : ∀ j1 k1, lo ≤ j1 → j1 < hi → Q i1 j1 k1)
    (ht : R t) :
    R (loop lo hi (fun j1 gj => loop 0 K (fun k1 gk => U i1 j1 k1 gk) gj) t) :=
  loop_inv R lo hi _ t ht (fun j1 h1 h2 t1 ht1 =>
    kloop_inv R Q U hR i1 j1 0 K t1 (fun k1 _ _ => hq j1 k1 h1 h2) ht1)

theorem iloop_inv (R : GridObj → Prop) (Q : Nat → Nat → Nat → Prop)
    (U : Nat → Nat → Nat → GridObj → GridObj)
    (hR : ∀ i1 j1 k1, Q i1 j1 k1 → ∀ t, R t → R (U i1 j1 k1 t))
    (M K lo hi : Nat) (t : GridObj) (hq : ∀ i1 j1 k1, lo ≤ i1 → i1 < hi → Q i1 j1 k1)
    (ht : R t) :
    R (loop lo hi (fun i1 gi =>
      loop 0 M (fun j1 gj => loop 0 K (fun k1 gk => U i1 j1 k1 gk) gj) gi) t) :=
  loop_inv R lo hi _ t ht (fun i1 h1 h2 t1 ht1 =>
    jloop_inv R Q U hR K i1 0 M t1 (fun j1 k1 _ _ => hq i1 j1 k1 h1 h2) ht1)

/-- A property kept by the updates of the sites visited before `(i,j,k)` holds
in the state in which the loops reach `(i,j,k)`. -/
theorem sweep_before_inv (R : GridObj → Prop) (M K : Nat)
    (U : Nat → Nat → Nat → GridObj → GridObj) (i j k : Nat) (g : GridObj)
    (hR : ∀ i1 j1 k1, site_before i1 j1 k1 i j k → ∀ t, R t → R (U i1 j1 k1 t))
    (h0 : R g) : R (sweep_before M K U i j k g) := by
  unfold sweep_before
  apply kloop_inv R (fun i1 j1 k1 => site_before i1 j1 k1 i j k) U hR i j 0 k _
    (fun k1 _ h => Or.inr (Or.inr ⟨rfl, rfl, h⟩))
  apply jloop_inv R (fun i1 j1 k1 => site_before i1 j1 k1 i j k) U hR K i 0 j _
    (fun j1 k1 _ h => Or.inr (Or.inl ⟨rfl, h⟩))
  exact iloop_inv R (fun i1 j1 k1 => site_before i1 j1 k1 i j k) U hR M K 0 i g
    (fun i1 j1 k1 _ h => Or.inl h) h0

/-- The triple site loop, cut at the site `(i,j,k)` of the grid: the passes
after the site, applied to the update of the site, applied to the state in which
the loops reach the site. -/
theorem sweep_split (N M K : Nat) (U : Nat → Nat → Nat → GridObj → GridObj) (g : GridObj)
    (i j k : Nat) (hi : i < N) (hj : j < M) (hk : k < K) :
    sweep N M K U g =
      loop (i + 1) N (fun i1 gi =>
          loop 0 M (fun j1 gj => loop 0 K (fun k1 gk => U i1 j1 k1 gk) gj) gi)
        (loop (j + 1) M (fun j1 gj => loop 0 K (fun k1 gk => U i j1 k1 gk) gj)
          (loop (k + 1) K (fun k1 gk => U i j k1 gk)
            (U i j k (sweep_before M K U i j k g)))) := by
  unfold sweep sweep_before
  rw [loop_split 0 i N (Nat.zero_le i) hi]
  generalize loop 0 i _ g = gA
  rw [loop_split 0 j M (Nat.zero_le j) hj]
  generalize loop 0 j _ gA = gB
  rw [loop_split 0 k K (Nat.zero_le k) hk]

/-- The state in which the triple site loop reaches a site of the grid, for
site updates that write only their own site: it has the labels of `g`; it
agrees with `g` at every site not visited before `(i,j,k)`; it agrees with the
final state at every site visited before `(i,j,k)`; and the final values at
`(i,j,k)` are those left by the update of the site. -/
theorem sweep_before_states (N M K : Nat) (U : Nat → Nat → Nat → GridObj → GridObj)
    (hU : ∀ i1 j1 k1 (t : GridObj), t.SameOutside (U i1 j1 k1 t) i1 j1 k1)
    (g : GridObj) (i j k : Nat) (hi : i < N) (hj : j < M) (hk : k < K) :
    (sweep_before M K U i j k g).LatTyp = g.LatTyp ∧
    (∀ i1 j1 k1, ¬ site_before i1 j1 k1 i j k →
      g.SameAt (sweep_before M K U i j k g) i1 j1 k1) ∧
    (∀ i1 j1 k1, site_before i1 j1 k1 i j k →
      (sweep_before M K U i j k g).SameAt (sweep N M K U g) i1 j1 k1) ∧
    (U i j k (sweep_before M K U i j k g)).SameAt (sweep N M K U g) i j k := by
  have hA := sweep_before_inv (fun t => t.LatTyp = g.LatTyp ∧
      ∀ i1 j1 k1, ¬ site_before i1 j1 k1 i j k → g.SameAt t i1 j1 k1) M K U i j k g
    (by
      intro a b c hb t ⟨hl, hs⟩
      refine ⟨(hU a b c t).2.2.2.1.trans hl, fun i1 j1 k1 hn => ?_⟩
      exact SameAt_trans (hs i1 j1 k1 hn) (SameAt_of_SameOutside (hU a b c t)
        (fun hh => hn (by rw [hh.1, hh.2.1, hh.2.2]; exact hb))))
    ⟨rfl, fun i1 j1 k1 _ => SameAt_refl g i1 j1 k1⟩
  have hR : ∀ a b c, site_before i j k a b c → ∀ t : GridObj,
      (∀ i1 j1 k1, ¬ site_before i j k i1 j1 k1 →
        (U i j k (sweep_before M K U i j k g)).SameAt t i1 j1 k1) →
      (∀ i1 j1 k1, ¬ site_before i j k i1 j1 k1 →
        (U i j k (sweep_before M K U i j k g)).SameAt (U a b c t) i1 j1 k1) := by
    intro a b c hb t hs i1 j1 k1 hn
    exact SameAt_trans (hs i1 j1 k1 hn) (SameAt_of_SameOutside (hU a b c t)
      (fun hh => hn (by rw [hh.1, hh.2.1, hh.2.2]; exact hb)))
  have hB : ∀ i1 j1 k1, ¬ site_before i j k i1 j1 k1 →
      (U i j k (sweep_before M K U i j k g)).SameAt (sweep N M K U g) i1 j1 k1 := by
    rw [sweep_split N M K U g i j k hi hj hk]
    apply iloop_inv _ (fun a b c => site_before i j k a b c) U hR M K (i + 1) N _
      (fun a b c h _ => Or.inl (by omega))
    apply jloop_inv _ (fun a b c => site_before i j k a b c) U hR K i (j + 1) M _
      (fun b c h _ => Or.inr (Or.inl ⟨rfl, by omega⟩))
    apply kloop_inv _ (fun a b c => site_before i j k a b c) U hR i j (k + 1) K _
      (fun c h _ => Or.inr (Or.inr ⟨rfl, rfl, by omega⟩))
    exact fun i1 j1 k1 _ => SameAt_refl _ i1 j1 k1
  refine ⟨hA.1, hA.2, ?_, hB i j k (by unfold site_before; omega)⟩
  intro i1 j1 k1 hb
  have hne : ¬ (i1 = i ∧ j1 = j ∧ k1 = k) := by
    unfold site_before at hb; omega
  exact SameAt_trans (SameAt_of_SameOutside (hU i j k _) hne)
    (hB i1 j1 k1 (by unfold site_before at hb ⊢; omega))

/-- C14. Let `g1` be the state in which the loops of `LBM_boundary` reach a site
`(i,j,k)` of the grid. It has the labels of `g`; it agrees with `g` at every
site not visited before `(i,j,k)` (the site itself included) and at every site
labelled none of 0, 7, 8; it agrees with the final state at every site visited
before. The final populations, density and velocity of the site are those
produced from `g1` by the Solid update when the label is 0 and the flag is 0 or
1, by the Inlet update when the label is 7 and the flag is 0, 2 or 4, by the
Outlet update when the label is 8 and the flag is 0, 3 or 4. For every site
whose kind is not selected by the flag, and for every site when the flag is
none of 0, 1, 2, 3, 4, populations, density and velocity are left unchanged. -/
theorem LBM_boundary_dispatch (cfg : Config) (flag : Int) (g : GridObj) (i j k : Nat) :
    (i < g.XPos.length → j < g.YPos.length → k < g.ZPos.length →
      (LBM_boundary_before cfg flag g i j k).LatTyp = g.LatTyp ∧
      (∀ i1 j1 k1, ¬ site_before i1 j1 k1 i j k →
        g.SameAt (LBM_boundary_before cfg flag g i j k) i1 j1 k1) ∧
      (∀ i1 j1 k1, g.LatTyp i1 j1 k1 ≠ 0 → g.LatTyp i1 j1 k1 ≠ 7 → g.LatTyp i1 j1 k1 ≠ 8 →
        g.SameAt (LBM_boundary_before cfg flag g i j k) i1 j1 k1) ∧
      (∀ i1 j1 k1, site_before i1 j1 k1 i j k →
        (LBM_boundary_before cfg flag g i j k).SameAt (LBM_boundary cfg flag g) i1 j1 k1) ∧
      (g.LatTyp i j k = 0 ∧ (flag = 0 ∨ flag = 1) →
        (loop 0 cfg.nVels
          (solid_step cfg g.XPos.length g.YPos.length g.ZPos.length i j k)
          (LBM_boundary_before cfg flag g i j k)).SameAt (LBM_boundary cfg flag g) i j k) ∧
      (g.LatTyp i j k = 7 ∧ (flag = 0 ∨ flag = 2 ∨ flag = 4) →
        (inlet_site cfg i j k (LBM_boundary_before cfg flag g i j k)).SameAt
          (LBM_boundary cfg flag g) i j k) ∧
      (g.LatTyp i j k = 8 ∧ (flag = 0 ∨ flag = 3 ∨ flag = 4) →
        (bc_applyExtrapolation cfg (LBM_boundary_before cfg flag g i j k) i j k).SameAt
          (LBM_boundary cfg flag g) i j k)) ∧
    (¬ (g.LatTyp i j k = 0 ∧ (flag = 0 ∨ flag = 1)) →
      ¬ (g.LatTyp i j k = 7 ∧ (flag = 0 ∨ flag = 2 ∨ flag = 4)) →
      ¬ (g.LatTyp i j k = 8 ∧ (flag = 0 ∨ flag = 3 ∨ flag = 4)) →
      g.SameAt (LBM_boundary cfg flag g) i j k) ∧
    (flag ≠ 0 → flag ≠ 1 → flag ≠ 2 → flag ≠ 3 → flag ≠ 4 →
      g.SameAt (LBM_boundary cfg flag g) i j k) := by
  have hB : ¬ (g.LatTyp i j k = 0 ∧ (flag = 0 ∨ flag = 1)) →
      ¬ (g.LatTyp i j k = 7 ∧ (flag = 0 ∨ flag = 2 ∨ flag = 4)) →
      ¬ (g.LatTyp i j k = 8 ∧ (flag = 0 ∨ flag = 3 ∨ flag = 4)) →
      g.SameAt (LBM_boundary cfg flag g) i j k := by
    intro h0 h7 h8
    rw [LBM_boundary_eq_sweep]
    have key := sweep_inv (fun t => t.LatTyp = g.LatTyp ∧ g.SameAt t i j k)
      g.XPos.length g.YPos.length g.ZPos.length
      (LBM_boundary_site cfg flag g.XPos.length g.YPos.length g.ZPos.length) g
      ⟨rfl, SameAt_refl g i j k⟩ (by
        intro i1 j1 k1 _ _ _ t ⟨hl, hsame⟩
        have hso := SameOutside_LBM_boundary_site cfg flag g.XPos.length g.YPos.length
          g.ZPos.length i1 j1 k1 t
        refine ⟨hso.2.2.2.1.trans hl, ?_⟩
        by_cases hp : i = i1 ∧ j = j1 ∧ k = k1
        · obtain ⟨rfl, rfl, rfl⟩ := hp
          have hid : LBM_boundary_site cfg flag g.XPos.length g.YPos.length g.ZPos.length
              i j k t = t := by
            unfold LBM_boundary_site
            rw [hl, if_neg h0, if_neg h7, if_neg h8]
          rw [hid]; exact hsame
        · exact SameAt_trans hsame (SameAt_of_SameOutside hso hp))
    exact key.2
  refine ⟨?_, hB, ?_⟩
  · intro hi hj hk
    obtain ⟨hl, hnb, hbf, hfin⟩ := sweep_before_states g.XPos.length g.YPos.length
      g.ZPos.length (LBM_boundary_site cfg flag g.XPos.length g.YPos.length g.ZPos.length)
      (fun i1 j1 k1 t => SameOutside_LBM_boundary_site cfg flag _ _ _ i1 j1 k1 t)
      g i j k hi hj hk
    rw [← LBM_boundary_eq_sweep] at hbf hfin
    have hun := sweep_before_inv (fun t => t.LatTyp = g.LatTyp ∧
        ∀ i1 j1 k1, g.LatTyp i1 j1 k1 ≠ 0 → g.LatTyp i1 j1 k1 ≠ 7 → g.LatTyp i1 j1 k1 ≠ 8 →
          g.SameAt t i1 j1 k1) g.YPos.length g.ZPos.length
      (LBM_boundary_site cfg flag g.XPos.length g.YPos.length g.ZPos.length) i j k g
      (by
        intro a b c _ t ⟨htl, hs⟩
        have hso := SameOutside_LBM_boundary_site cfg flag g.XPos.length g.YPos.length
          g.ZPos.length a b c t
        refine ⟨hso.2.2.2.1.trans htl, fun i1 j1 k1 h0 h7 h8 => ?_⟩
        by_cases hp : i1 = a ∧ j1 = b ∧ k1 = c
        · obtain ⟨rfl, rfl, rfl⟩ := hp
          rw [LBM_boundary_site_unlabelled cfg flag _ _ _ i1 j1 k1 t (by rw [htl]; exact h0)
            (by rw [htl]; exact h7) (by rw [htl]; exact h8)]
          exact hs i1 j1 k1 h0 h7 h8
        · exact SameAt_trans (hs i1 j1 k1 h0 h7 h8) (SameAt_of_SameOutside hso hp))
      ⟨rfl, fun i1 j1 k1 _ _ _ => SameAt_refl g i1 j1 k1⟩
    refine ⟨hl, hnb, hun.2, hbf, ?_, ?_, ?_⟩
    · intro h0
      have h0c : (LBM_boundary_before cfg flag g i j k).LatTyp i j k = 0 ∧
          (flag = 0 ∨ flag = 1) := by
        rw [show (LBM_boundary_before cfg flag g i j k).LatTyp = g.LatTyp from hl]; exact h0
      have hsite : LBM_boundary_site cfg flag g.XPos.length g.YPos.length g.ZPos.length i j k
          (LBM_boundary_before cfg flag g i j k) =
          loop 0 cfg.nVels (solid_step cfg g.XPos.length g.YPos.length g.ZPos.length i j k)
            (LBM_boundary_before cfg flag g i j k) := by
        unfold LBM_boundary_site
        rw [if_pos h0c]
      rw [← hsite]
      exact hfin
    · intro h7
      have h0c : ¬ ((LBM_boundary_before cfg flag g i j k).LatTyp i j k = 0 ∧
          (flag = 0 ∨ flag = 1)) := by
        rw [show (LBM_boundary_before cfg flag g i j k).LatTyp = g.LatTyp from hl, h7.1]
        exact fun hh => absurd hh.1 (by decide)
      have h7c : (LBM_boundary_before cfg flag g i j k).LatTyp i j k = 7 ∧
          (flag = 0 ∨ flag = 2 ∨ flag = 4) := by
        rw [show (LBM_boundary_before cfg flag g i j k).LatTyp = g.LatTyp from hl]; exact h7
      have hsite : LBM_boundary_site cfg flag g.XPos.length g.YPos.length g.ZPos.length i j k
          (LBM_boundary_before cfg flag g i j k) =
          inlet_site cfg i j k (LBM_boundary_before cfg flag g i j k) := by
        unfold LBM_boundary_site
        rw [if_neg h0c, if_pos h7c]
      rw [← hsite]
      exact hfin
    · intro h8
      have h0c : ¬ ((LBM_boundary_before cfg flag g i j k).LatTyp i j k = 0 ∧
          (flag = 0 ∨ flag = 1)) := by
        rw [show (LBM_boundary_before cfg flag g i j k).LatTyp = g.LatTyp from hl, h8.1]
        exact fun hh => absurd hh.1 (by decide)
      have h7c : ¬ ((LBM_boundary_before cfg flag g i j k).LatTyp i j k = 7 ∧
          (flag = 0 ∨ flag = 2 ∨ flag = 4)) := by
        rw [show (LBM_boundary_before cfg flag g i j k).LatTyp = g.LatTyp from hl, h8.1]
        exact fun hh => absurd hh.1 (by decide)
      have h8c : (LBM_boundary_before cfg flag g i j k).LatTyp i j k = 8 ∧
          (flag = 0 ∨ flag = 3 ∨ flag = 4) := by
        rw [show (LBM_boundary_before cfg flag g i j k).LatTyp = g.LatTyp from hl]; exact h8
      have hsite : LBM_boundary_site cfg flag g.XPos.length g.YPos.length g.ZPos.length i j k
          (LBM_boundary_before cfg flag g i j k) =
          bc_applyExtrapolation cfg (LBM_boundary_before cfg flag g i j k) i j k := by
        unfold LBM_boundary_site
        rw [if_neg h0c, if_neg h7c, if_pos h8c]
      rw [← hsite]
      exact hfin
  · intro f0 f1 f2 f3 f4
    exact hB (fun hh => hh.2.elim f0 f1)
      (fun hh => hh.2.elim f0 (fun h => h.elim f2 f4))
      (fun hh => hh.2.elim f0 (fun h => h.elim f3 f4))

theorem LBM_boundary_dispatch_witness :
    grid_line.LatTyp 1 0 0 = 0 ∧ grid_line.LatTyp 2 0 0 = 8 ∧
      (bc_applyExtrapolation (cfg2D 0) (LBM_boundary_before (cfg2D 0) 0 grid_line 2 0 0)
        2 0 0).SameAt (LBM_boundary (cfg2D 0) 0 grid_line) 2 0 0 ∧
      grid_line.f 1 0 0 1 = 11 / 10 ∧
      (LBM_boundary (cfg2D 0) 0 grid_line).f 1 0 0 1 = 0 ∧
      grid_line.f 2 0 0 1 = 21 / 10 ∧
      (LBM_boundary (cfg2D 0) 0 grid_line).f 2 0 0 1 = -1 / 10 ∧
      ¬ (grid2D.LatTyp 1 0 0 = 0 ∧ ((3 : Int) = 0 ∨ (3 : Int) = 1)) ∧
      grid2D.SameAt (LBM_boundary (cfg2D 0) 3 grid2D) 1 0 0 := by
  obtain ⟨_, _, hun2, hbf2, _, _, hO⟩ := (LBM_boundary_dispatch (cfg2D 0) 0 grid_line 2 0 0).1
    (by decide) (by decide) (by decide)
  obtain ⟨hl1, _, hun1, _, hS, _, _⟩ := (LBM_boundary_dispatch (cfg2D 0) 0 grid_line 1 0 0).1
    (by decide) (by decide) (by decide)
  have hfin2 := hO ⟨by decide, Or.inl rfl⟩
  have hfin1 := hS ⟨by decide, Or.inl rfl⟩
  have hop : getOpposite (cfg2D 0).nVels 1 = 0 := by decide
  have hb := solid_loop_bounces (cfg2D 0) grid_line.XPos.length grid_line.YPos.length
    grid_line.ZPos.length 1 0 0 1 0 0 0 (LBM_boundary_before (cfg2D 0) 0 grid_line 1 0 0)
    (by decide) (by decide) (by decide) (by decide) (by decide) (by decide) (by decide)
    (by rw [hl1]; decide) (Or.inl (by rw [hl1]; decide))
  have h1 : (LBM_boundary (cfg2D 0) 0 grid_line).f 1 0 0 1 = 0 := by
    rw [hfin1.1 1, hb, hop, (hun1 0 0 0 (by decide) (by decide) (by decide)).1 0]
    norm_num [grid_line]
  have h12 : toSize (((2 : Nat) : Int) - 1) = 1 := by decide
  have h02 : toSize (((2 : Nat) : Int) - 2) = 0 := by decide
  have hin : (if (cfg2D 0).dims = 3 then 1 ∈ [1, 7, 9, 15, 16] else 1 ∈ [1, 5, 7]) := by
    decide
  have hdx : (cfg2D 0).dx = 1 := rfl
  refine ⟨by decide, by decide, hfin2, by norm_num [grid_line], h1, by norm_num [grid_line],
    ?_, by decide,
    (LBM_boundary_dispatch (cfg2D 0) 3 grid2D 1 0 0).2.1 (by decide) (by decide) (by decide)⟩
  rw [hfin2.1 1, bc_applyExtrapolation_f_self, if_pos hin, h12, h02,
    ← (hbf2 1 0 0 (Or.inl (by decide))).1 1, h1,
    (hun2 0 0 0 (by decide) (by decide) (by decide)).1 1, hdx]
  norm_num [grid_line]

end LUMA
